import Mathlib

/-!
# EGL-backed GL surfaces (ui/gl/gl_surface_egl.cc)

A shallow embedding of the EGL surface layer: the process-wide display
initialisation `GLSurfaceEGL::InitializeOneOff`, the three surface variants
(`NativeViewGLSurfaceEGL`, `PbufferGLSurfaceEGL`, `SurfacelessEGL`) and the
offscreen factory.

Conventions of the embedding.

* Native handles (`EGLDisplay`, `EGLConfig`, `EGLSurface`, window handles) are
  natural numbers and `0` is the null handle.
* The native graphics driver and the rendering-context collaborator are not part
  of the file.  They are an arbitrary state machine: a state type `σ` and, in
  `Env σ`, one transition function per native entry point.  Entry points that
  only read (`eglGetConfigAttrib`, `eglQuerySurface`, `eglQueryString`, ...)
  do not change the state.
* Every call that leaves the file is appended to `World.log`, oldest first, so
  that the order and the number of native calls can be stated.
* `DCHECK` and `NOTREACHED` are the release-build no-ops; `LOG` has no effect.
* A member call through a null `scoped_refptr` ends the run: `Outcome.crashed`.
-/

namespace gfx

/-! ## Handles and constants -/

abbrev EGLDisplay := Nat
abbrev EGLConfig := Nat
abbrev EGLSurface := Nat
abbrev EGLNativeDisplayType := Int
abbrev EGLint := Int
abbrev AcceleratedWidget := Nat
/-- A non-null `GLContext*`. -/
abbrev GLContext := Nat

def EGL_NO_SURFACE : EGLSurface := 0
def EGL_DEFAULT_DISPLAY : EGLNativeDisplayType := 0
def EGL_D3D11_ELSE_D3D9_DISPLAY_ANGLE : EGLNativeDisplayType := -2
def kNullAcceleratedWidget : AcceleratedWidget := 0

-- Values of the Khronos headers (EGL/egl.h, EGL/eglext.h).
def EGL_TRUE : EGLint := 1
def EGL_BUFFER_SIZE : EGLint := 0x3020
def EGL_ALPHA_SIZE : EGLint := 0x3021
def EGL_BLUE_SIZE : EGLint := 0x3022
def EGL_GREEN_SIZE : EGLint := 0x3023
def EGL_RED_SIZE : EGLint := 0x3024
def EGL_SURFACE_TYPE : EGLint := 0x3033
def EGL_NONE : EGLint := 0x3038
def EGL_RENDERABLE_TYPE : EGLint := 0x3040
def EGL_EXTENSIONS : EGLint := 0x3055
def EGL_HEIGHT : EGLint := 0x3056
def EGL_WIDTH : EGLint := 0x3057
def EGL_POST_SUB_BUFFER_SUPPORTED_NV : EGLint := 0x30BE
def EGL_OPENGL_ES2_BIT : EGLint := 0x0004
def EGL_WINDOW_BIT : EGLint := 0x0004
def EGL_PBUFFER_BIT : EGLint := 0x0001

/-- Modelled from the spec: gfx::Size, declared outside this file.  A pair of
integer extents; `GetArea` is their product and the default value is 0x0. -/
structure Size where
  width : Int
  height : Int
deriving DecidableEq, Repr

def Size.GetArea (s : Size) : Int := s.width * s.height

/-- The value of `gfx::Size()`. -/
def Size.zero : Size := ⟨0, 0⟩

/-- The list `config_attribs_8888` of `InitializeOneOff`. -/
def config_attribs_8888 : List EGLint :=
  [EGL_BUFFER_SIZE, 32,
   EGL_ALPHA_SIZE, 8,
   EGL_BLUE_SIZE, 8,
   EGL_GREEN_SIZE, 8,
   EGL_RED_SIZE, 8,
   EGL_RENDERABLE_TYPE, EGL_OPENGL_ES2_BIT,
   EGL_SURFACE_TYPE, 5,
   EGL_NONE]

/-- The list `config_attribs_565` of `InitializeOneOff` (OS_ANDROID). -/
def config_attribs_565 : List EGLint :=
  [EGL_BUFFER_SIZE, 16,
   EGL_BLUE_SIZE, 5,
   EGL_GREEN_SIZE, 6,
   EGL_RED_SIZE, 5,
   EGL_RENDERABLE_TYPE, EGL_OPENGL_ES2_BIT,
   EGL_SURFACE_TYPE, 5,
   EGL_NONE]

/-- The list `egl_window_attributes_sub_buffer` of `NativeViewGLSurfaceEGL::Initialize`. -/
def egl_window_attributes_sub_buffer : List EGLint :=
  [EGL_POST_SUB_BUFFER_SUPPORTED_NV, EGL_TRUE, EGL_NONE]

inductive GLImplementation where
  | kGLImplementationNone
  | kGLImplementationOSMesaGL
  | kGLImplementationEGLGLES2
deriving DecidableEq, Repr

/-! ## Calls that leave the file -/

/-- One call to the native API or to the rendering-context collaborator, with
its arguments.  For `eglChooseConfig`, `config_size = none` is the counting call
(`configs == NULL`, size 0). -/
inductive Call where
  | InitializeHardware
  | XGetWindowAttributes (display : EGLNativeDisplayType) (window : AcceleratedWidget)
  | eglGetDisplay (native_display : EGLNativeDisplayType)
  | eglInitialize (dpy : EGLDisplay)
  | eglChooseConfig (dpy : EGLDisplay) (attribs : List EGLint) (config_size : Option Nat)
  | eglGetConfigAttrib (dpy : EGLDisplay) (config : EGLConfig) (attr : EGLint)
  | eglQueryString (dpy : EGLDisplay) (name : EGLint)
  | eglCreateWindowSurface (dpy : EGLDisplay) (config : EGLConfig)
      (window : AcceleratedWidget) (attribs : Option (List EGLint))
  | eglCreatePbufferSurface (dpy : EGLDisplay) (config : EGLConfig) (attribs : List EGLint)
  | eglDestroySurface (dpy : EGLDisplay) (surface : EGLSurface)
  | eglQuerySurface (dpy : EGLDisplay) (surface : EGLSurface) (attr : EGLint)
  | eglSwapBuffers (dpy : EGLDisplay) (surface : EGLSurface)
  | eglPostSubBufferNV (dpy : EGLDisplay) (surface : EGLSurface) (x y width height : Int)
  | CreateGLContext (surface : EGLSurface)
  | MakeCurrent (context : GLContext) (surface : EGLSurface)
  | HasExtension (context : GLContext) (name : String)
  | ReleaseCurrent (context : GLContext) (surface : EGLSurface)
  | ScopedMakeCurrent_ctor (context : GLContext) (surface : EGLSurface)
  | ScopedMakeCurrent_dtor (context : GLContext) (surface : EGLSurface)
  | GLSurfaceOSMesa_Initialize (format : Nat) (size : Size)
  | RealizeAcceleratedWidget (window : AcceleratedWidget)
  | CreateVSyncProvider (window : AcceleratedWidget)
  | GLSurfaceStub_Initialize
deriving DecidableEq, Repr

/-- The build configuration and the collaborators of the file, over a driver
state `σ`.  They are parameters of the embedding: the native API, the
rendering-context component (GetCurrent, IsCurrent, MakeCurrent, ReleaseCurrent,
HasExtension, CreateGLContext and the scoped make-current guard), the platform
surface factory, `ExtensionsContain`, `IsLowEndDevice`, `GetGLImplementation`
and `GLSurfaceOSMesa` are declared outside this file and are left as arbitrary
functions.  A surface is shown to the rendering-context collaborator by its
`GetHandle()` value.  `CreateGLContext` returns `none` for a NULL context. -/
structure Env (σ : Type) where
  USE_X11 : Bool
  OS_WIN : Bool
  USE_OZONE : Bool
  OS_ANDROID : Bool
  /-- The value of `HasSwitch(switches::kDisableD3D11)`. -/
  kDisableD3D11 : Bool
  /-- The value of `HasSwitch(switches::kEnableD3D11)`. -/
  kEnableD3D11 : Bool
  IsLowEndDevice : Bool
  GetGLImplementation : GLImplementation
  /-- The value of `g_driver_egl.ext.b_EGL_NV_post_sub_buffer`. -/
  b_EGL_NV_post_sub_buffer : Bool
  GetDefaultXDisplay : σ → EGLNativeDisplayType
  /-- True when the result is `SurfaceFactoryOzone::INITIALIZED`. -/
  InitializeHardware : σ → Bool × σ
  GetNativeDisplay : σ → EGLNativeDisplayType
  GetEGLSurfaceProperties : List EGLint → List EGLint
  /-- The depth of the window, or `none` when the call returns 0. -/
  XGetWindowAttributes : σ → EGLNativeDisplayType → AcceleratedWidget → Option Int
  eglGetDisplay : σ → EGLNativeDisplayType → EGLDisplay × σ
  eglInitialize : σ → EGLDisplay → Bool × σ
  /-- The configurations matching the attribute list, in the order of the
  native API, or `none` for `EGL_FALSE`. -/
  eglChooseConfig : σ → EGLDisplay → List EGLint → Option Nat → Option (List EGLConfig) × σ
  eglGetConfigAttrib : σ → EGLDisplay → EGLConfig → EGLint → Option EGLint
  eglQueryString : σ → EGLDisplay → EGLint → Option String
  ExtensionsContain : Option String → String → Bool
  eglCreateWindowSurface :
    σ → EGLDisplay → EGLConfig → AcceleratedWidget → Option (List EGLint) → EGLSurface × σ
  eglCreatePbufferSurface : σ → EGLDisplay → EGLConfig → List EGLint → EGLSurface × σ
  eglDestroySurface : σ → EGLDisplay → EGLSurface → Bool × σ
  eglQuerySurface : σ → EGLDisplay → EGLSurface → EGLint → Option EGLint
  eglSwapBuffers : σ → EGLDisplay → EGLSurface → Bool × σ
  eglPostSubBufferNV : σ → EGLDisplay → EGLSurface → Int → Int → Int → Int → Bool × σ
  /-- The drawables the driver holds live in a state. -/
  isLive : σ → EGLSurface → Bool
  CreateGLContext : σ → EGLSurface → Option GLContext × σ
  MakeCurrent : σ → GLContext → EGLSurface → Bool × σ
  HasExtension : σ → GLContext → String → Bool
  ReleaseCurrent : σ → GLContext → EGLSurface → σ
  GetCurrent : σ → Option GLContext
  IsCurrent : σ → GLContext → EGLSurface → Bool
  ScopedMakeCurrent_ctor : σ → GLContext → EGLSurface → σ
  ScopedMakeCurrent_dtor : σ → GLContext → EGLSurface → σ
  GLSurfaceOSMesa_Initialize : σ → Nat → Size → Bool × σ

/-- The process state: the file-level globals of the anonymous namespace, the
function-local `static bool initialized`, the driver state and the log. -/
structure World (σ : Type) where
  initialized : Bool
  g_config : EGLConfig
  g_display : EGLDisplay
  g_native_display : EGLNativeDisplayType
  g_egl_extensions : Option String
  g_egl_create_context_robustness_supported : Bool
  g_egl_sync_control_supported : Bool
  g_egl_surfaceless_context_supported : Bool
  native : σ
  log : List Call

/-- The state at process start: zero-initialised statics, empty log. -/
def World.start {σ : Type} (s : σ) : World σ :=
  { initialized := false, g_config := 0, g_display := 0, g_native_display := 0,
    g_egl_extensions := none,
    g_egl_create_context_robustness_supported := false,
    g_egl_sync_control_supported := false,
    g_egl_surfaceless_context_supported := false,
    native := s, log := [] }

/-- Record a call and the driver state it leaves. -/
def World.call {σ : Type} (w : World σ) (c : Call) (s : σ) : World σ :=
  { w with native := s, log := w.log ++ [c] }

/-- How a run of `InitializeOneOff` ends. -/
inductive Outcome (σ : Type) where
  | returned (result : Bool) (w : World σ)
  | crashed (w : World σ)

def Outcome.world {σ : Type} : Outcome σ → World σ
  | .returned _ w => w
  | .crashed w => w

/-- The returned value, or `none` when the run did not return. -/
def Outcome.result {σ : Type} : Outcome σ → Option Bool
  | .returned b _ => some b
  | .crashed _ => none

/-! ## GLSurfaceEGL::InitializeOneOff -/

/-- What a successful `eglChooseConfig` hands back for the matching list `l`:
the configurations written to `configs` and the value stored in `*num_config`.
The counting call (`configs == NULL`) writes nothing and stores the number of
matches; otherwise at most `config_size` configurations are written. -/
def chooseAnswer (l : List EGLConfig) : Option Nat → List EGLConfig × Nat
  | none => ([], l.length)
  | some n => (l.take n, (l.take n).length)

/-- The native `eglChooseConfig(dpy, attribs, configs, config_size, &num)`:
`none` for `EGL_FALSE`, otherwise the configurations written and the count. -/
def eglChooseConfig {σ : Type} (env : Env σ) (w : World σ) (dpy : EGLDisplay)
    (attribs : List EGLint) (config_size : Option Nat) :
    Option (List EGLConfig × Nat) × World σ :=
  let r := env.eglChooseConfig w.native dpy attribs config_size
  (r.1.map (fun l => chooseAnswer l config_size),
   w.call (Call.eglChooseConfig dpy attribs config_size) r.2)

/-- Embeds `ValidateEglConfig`: the result and `*num_configs`. -/
def ValidateEglConfig {σ : Type} (env : Env σ) (w : World σ) (display : EGLDisplay)
    (config_attribs : List EGLint) : Bool × Nat × World σ :=
  let r := eglChooseConfig env w display config_attribs none
  match r.1 with
  | none => (false, 0, r.2)
  | some (_, num_configs) =>
    if num_configs = 0 then (false, num_configs, r.2) else (true, num_configs, r.2)

/-- The loop of lines 231-247 over `matching_configs[0 .. num_configs)`: the
first configuration whose three queries succeed with red 5, green 6, blue 5. -/
def findExact565 {σ : Type} (env : Env σ) (w : World σ) :
    List EGLConfig → Option EGLConfig × World σ
  | [] => (none, w)
  | c :: rest =>
    let red := env.eglGetConfigAttrib w.native w.g_display c EGL_RED_SIZE
    let blue := env.eglGetConfigAttrib w.native w.g_display c EGL_BLUE_SIZE
    let green := env.eglGetConfigAttrib w.native w.g_display c EGL_GREEN_SIZE
    let w1 : World σ :=
      { w with log := w.log ++
          [Call.eglGetConfigAttrib w.g_display c EGL_RED_SIZE,
           Call.eglGetConfigAttrib w.g_display c EGL_BLUE_SIZE,
           Call.eglGetConfigAttrib w.g_display c EGL_GREEN_SIZE] }
    if red = some 5 ∧ green = some 6 ∧ blue = some 5 then (some c, w1)
    else findExact565 env w1 rest

/-- The value of `IsLowEndDevice()` as the OS_ANDROID blocks see it. -/
def lowEnd {σ : Type} (env : Env σ) : Bool := env.OS_ANDROID && env.IsLowEndDevice

/-- The attribute list of lines 182-195. -/
def chosenAttribs {σ : Type} (env : Env σ) : List EGLint :=
  let choose_attributes := if lowEnd env then config_attribs_565 else config_attribs_8888
  if env.USE_OZONE then env.GetEGLSurfaceProperties choose_attributes else choose_attributes

/-- Lines 126-146: the native display identifier.  `none` is the early
`return false` of the USE_OZONE branch. -/
def resolveNativeDisplay {σ : Type} (env : Env σ) (w : World σ) :
    Option EGLNativeDisplayType × World σ :=
  if env.USE_X11 then (some (env.GetDefaultXDisplay w.native), w)
  else if env.OS_WIN then
    (some (if !env.kDisableD3D11 && env.kEnableD3D11
           then EGL_D3D11_ELSE_D3D9_DISPLAY_ANGLE else EGL_DEFAULT_DISPLAY), w)
  else if env.USE_OZONE then
    let h := env.InitializeHardware w.native
    let w0 := w.call Call.InitializeHardware h.2
    if h.1 then (some (env.GetNativeDisplay w0.native), w0) else (none, w0)
  else (some EGL_DEFAULT_DISPLAY, w)

/-- Lines 126-156: resolve the native display, get the EGL display, open the
connection.  `none` is an early `return false`. -/
def openDisplay {σ : Type} (env : Env σ) (w : World σ) : Option Unit × World σ :=
  let r := resolveNativeDisplay env w
  match r.1 with
  | none => (none, r.2)
  | some nd =>
    let w1 : World σ := { r.2 with g_native_display := nd }
    let d := env.eglGetDisplay w1.native nd
    let w2 : World σ := { w1.call (Call.eglGetDisplay nd) d.2 with g_display := d.1 }
    if d.1 = 0 then (none, w2)
    else
      let i := env.eglInitialize w2.native w2.g_display
      let w3 := w2.call (Call.eglInitialize w2.g_display) i.2
      if i.1 then (some (), w3) else (none, w3)

/-- Lines 197-268: choose `g_config`.  `none` is an early `return false`. -/
def selectConfig {σ : Type} (env : Env σ) (w : World σ) : Option Unit × World σ :=
  let config_attribs := chosenAttribs env
  let v := ValidateEglConfig env w w.g_display config_attribs
  if !v.1 then (none, v.2.2)
  else
    let num_configs := v.2.1
    let config_size : Nat := if lowEnd env then num_configs else 1
    let r := eglChooseConfig env v.2.2 v.2.2.g_display config_attribs (some config_size)
    match r.1 with
    | none => (none, r.2)
    | some (written, num) =>
      if lowEnd env then
        let f := findExact565 env r.2 (written.take num)
        match f.1 with
        | some c => (some (), { f.2 with g_config := c })
        | none =>
          let v8 := ValidateEglConfig env f.2 f.2.g_display config_attribs_8888
          if !v8.1 then (none, v8.2.2)
          else
            let r8 := eglChooseConfig env v8.2.2 v8.2.2.g_display config_attribs_8888 (some 1)
            match r8.1 with
            | none => (none, r8.2)
            | some (written8, _) =>
              (some (), { r8.2 with g_config := written8.headD r8.2.g_config })
      else
        (some (), { r.2 with g_config := written.headD r.2.g_config })

/-- Lines 270-295: the extension flags and the surfaceless probe.  `none` is the
member call through the null context. -/
def probeExtensions {σ : Type} (env : Env σ) (w : World σ) : Option Unit × World σ :=
  let ext := env.eglQueryString w.native w.g_display EGL_EXTENSIONS
  let w1 : World σ :=
    { w with
      g_egl_extensions := ext,
      log := w.log ++ [Call.eglQueryString w.g_display EGL_EXTENSIONS] }
  let w2 : World σ :=
    { w1 with
      g_egl_create_context_robustness_supported :=
        env.ExtensionsContain w1.g_egl_extensions "EGL_EXT_create_context_robustness" }
  let w3 : World σ :=
    { w2 with
      g_egl_sync_control_supported :=
        env.ExtensionsContain w2.g_egl_extensions "EGL_CHROMIUM_sync_control" }
  let w4 : World σ :=
    { w3 with
      g_egl_surfaceless_context_supported :=
        env.ExtensionsContain w3.g_egl_extensions "EGL_KHR_surfaceless_context" }
  if w4.g_egl_surfaceless_context_supported then
    -- surface = new SurfacelessEGL(Size(1, 1)); its handle is EGL_NO_SURFACE
    let c := env.CreateGLContext w4.native EGL_NO_SURFACE
    let w5 := w4.call (Call.CreateGLContext EGL_NO_SURFACE) c.2
    match c.1 with
    | none => (none, w5)
    | some context =>
      let m := env.MakeCurrent w5.native context EGL_NO_SURFACE
      let w6 := w5.call (Call.MakeCurrent context EGL_NO_SURFACE) m.2
      let w7 : World σ :=
        if !m.1 then { w6 with g_egl_surfaceless_context_supported := false } else w6
      if w7.g_egl_surfaceless_context_supported then
        let has := env.HasExtension w7.native context "GL_OES_surfaceless_context"
        let w8 : World σ :=
          { w7 with
            g_egl_surfaceless_context_supported := has,
            log := w7.log ++ [Call.HasExtension context "GL_OES_surfaceless_context"] }
        (some (), w8.call (Call.ReleaseCurrent context EGL_NO_SURFACE)
                    (env.ReleaseCurrent w8.native context EGL_NO_SURFACE))
      else (some (), w7)
  else (some (), w4)

/-- Embeds `GLSurfaceEGL::InitializeOneOff`. -/
def InitializeOneOff {σ : Type} (env : Env σ) (w : World σ) : Outcome σ :=
  if w.initialized then .returned true w
  else
    let o := openDisplay env w
    match o.1 with
    | none => .returned false o.2
    | some _ =>
      let c := selectConfig env o.2
      match c.1 with
      | none => .returned false c.2
      | some _ =>
        let p := probeExtensions env c.2
        match p.1 with
        | none => .crashed p.2
        | some _ => .returned true { p.2 with initialized := true }

/-- Lines 515-517 and 661-663: `current_context` when `was_current` holds, that
is when the calling thread has a current context and that context is current
for the surface. -/
def wasCurrent {σ : Type} (env : Env σ) (st : σ) (surface : EGLSurface) : Option GLContext :=
  match env.GetCurrent st with
  | some current_context =>
    if env.IsCurrent st current_context surface then some current_context else none
  | none => none

/-! ## PbufferGLSurfaceEGL -/

structure PbufferGLSurfaceEGL where
  size_ : Size
  surface_ : EGLSurface
deriving DecidableEq, Repr

namespace PbufferGLSurfaceEGL

/-- The constructor: `size_(size), surface_(NULL)`. -/
def new (size : Size) : PbufferGLSurfaceEGL := ⟨size, 0⟩

/-- The attribute list built at lines 607-611. -/
def pbuffer_attribs (s : PbufferGLSurfaceEGL) : List EGLint :=
  [EGL_WIDTH, s.size_.width, EGL_HEIGHT, s.size_.height, EGL_NONE]

/-- Embeds `PbufferGLSurfaceEGL::Initialize`. -/
def Initialize {σ : Type} (env : Env σ) (w : World σ) (s : PbufferGLSurfaceEGL) :
    Bool × PbufferGLSurfaceEGL × World σ :=
  let old_surface := s.surface_
  let display := w.g_display
  if display = 0 then (false, s, w)
  else if s.size_.GetArea = 0 then (false, s, w)
  else
    let r := env.eglCreatePbufferSurface w.native display w.g_config s.pbuffer_attribs
    let w1 := w.call (Call.eglCreatePbufferSurface display w.g_config s.pbuffer_attribs) r.2
    let new_surface := r.1
    if new_surface = 0 then (false, s, w1)
    else
      let w2 :=
        if old_surface ≠ 0 then
          w1.call (Call.eglDestroySurface display old_surface)
            (env.eglDestroySurface w1.native display old_surface).2
        else w1
      (true, { s with surface_ := new_surface }, w2)

/-- Embeds `PbufferGLSurfaceEGL::Destroy`. -/
def Destroy {σ : Type} (env : Env σ) (w : World σ) (s : PbufferGLSurfaceEGL) :
    PbufferGLSurfaceEGL × World σ :=
  if s.surface_ ≠ 0 then
    let w1 := w.call (Call.eglDestroySurface w.g_display s.surface_)
      (env.eglDestroySurface w.native w.g_display s.surface_).2
    ({ s with surface_ := 0 }, w1)
  else (s, w)

def GetConfig {σ : Type} (w : World σ) (_s : PbufferGLSurfaceEGL) : EGLConfig := w.g_config

def IsOffscreen (_s : PbufferGLSurfaceEGL) : Bool := true

/-- Embeds `PbufferGLSurfaceEGL::SwapBuffers`: NOTREACHED, then `return false`. -/
def SwapBuffers {σ : Type} (_env : Env σ) (w : World σ) (s : PbufferGLSurfaceEGL) :
    Bool × PbufferGLSurfaceEGL × World σ :=
  (false, s, w)

def GetSize (s : PbufferGLSurfaceEGL) : Size := s.size_

def GetHandle (s : PbufferGLSurfaceEGL) : EGLSurface := s.surface_

/-- Embeds `PbufferGLSurfaceEGL::Resize`.  The guard, when built, is destroyed when the
function is left. -/
def Resize {σ : Type} (env : Env σ) (w : World σ) (s : PbufferGLSurfaceEGL) (size : Size) :
    Bool × PbufferGLSurfaceEGL × World σ :=
  if size = s.size_ then (true, s, w)
  else
    let guard : Option GLContext := wasCurrent env w.native s.GetHandle
    let w1 :=
      match guard with
      | some c => w.call (Call.ScopedMakeCurrent_ctor c s.GetHandle)
                    (env.ScopedMakeCurrent_ctor w.native c s.GetHandle)
      | none => w
    let s1 : PbufferGLSurfaceEGL := { s with size_ := size }
    let r := Initialize env w1 s1
    let w3 :=
      match guard with
      | some c => r.2.2.call (Call.ScopedMakeCurrent_dtor c r.2.1.GetHandle)
                    (env.ScopedMakeCurrent_dtor r.2.2.native c r.2.1.GetHandle)
      | none => r.2.2
    (r.1, r.2.1, w3)

end PbufferGLSurfaceEGL

/-! ## SurfacelessEGL -/

structure SurfacelessEGL where
  size_ : Size
deriving DecidableEq, Repr

namespace SurfacelessEGL

def new (size : Size) : SurfacelessEGL := ⟨size⟩

def Initialize {σ : Type} (_env : Env σ) (w : World σ) (s : SurfacelessEGL) :
    Bool × SurfacelessEGL × World σ :=
  (true, s, w)

def Destroy {σ : Type} (_env : Env σ) (w : World σ) (s : SurfacelessEGL) :
    SurfacelessEGL × World σ :=
  (s, w)

def GetConfig {σ : Type} (w : World σ) (_s : SurfacelessEGL) : EGLConfig := w.g_config

def IsOffscreen (_s : SurfacelessEGL) : Bool := true

def SwapBuffers {σ : Type} (_env : Env σ) (w : World σ) (s : SurfacelessEGL) :
    Bool × SurfacelessEGL × World σ :=
  (false, s, w)

def GetSize (s : SurfacelessEGL) : Size := s.size_

def Resize {σ : Type} (_env : Env σ) (w : World σ) (_s : SurfacelessEGL) (size : Size) :
    Bool × SurfacelessEGL × World σ :=
  (true, { size_ := size }, w)

def GetHandle (_s : SurfacelessEGL) : EGLSurface := EGL_NO_SURFACE

end SurfacelessEGL

/-! ## NativeViewGLSurfaceEGL -/

/-- What `vsync_provider_` can own: a provider supplied by the caller, or the
`EGLSyncControlVSyncProvider` bound to a drawable. -/
inductive VSyncProvider where
  | supplied (id : Nat)
  | eglSyncControl (surface : EGLSurface)
deriving DecidableEq, Repr

structure NativeViewGLSurfaceEGL where
  window_ : AcceleratedWidget
  surface_ : EGLSurface
  supports_post_sub_buffer_ : Bool
  config_ : EGLConfig
  vsync_provider_ : Option VSyncProvider
deriving DecidableEq, Repr

namespace NativeViewGLSurfaceEGL

def new (window : AcceleratedWidget) : NativeViewGLSurfaceEGL :=
  { window_ := window, surface_ := 0, supports_post_sub_buffer_ := false, config_ := 0,
    vsync_provider_ := none }

/-- The attribute list of the USE_X11 `GetConfig`, with the window depth stored
at `kBufferSizeOffset` and the alpha size at `kAlphaSizeOffset`. -/
def x11_config_attribs (depth : Int) (alpha : Int) : List EGLint :=
  [EGL_BUFFER_SIZE, depth,
   EGL_ALPHA_SIZE, alpha,
   EGL_BLUE_SIZE, 8,
   EGL_GREEN_SIZE, 8,
   EGL_RED_SIZE, 8,
   EGL_RENDERABLE_TYPE, EGL_OPENGL_ES2_BIT,
   EGL_SURFACE_TYPE, 5,
   EGL_NONE]

/-- Embeds `NativeViewGLSurfaceEGL::GetConfig`: the returned configuration (0 for
NULL), the surface with its cached `config_`, and the state. -/
def GetConfig {σ : Type} (env : Env σ) (w : World σ) (s : NativeViewGLSurfaceEGL) :
    EGLConfig × NativeViewGLSurfaceEGL × World σ :=
  if !env.USE_X11 then (w.g_config, s, w)
  else if s.config_ ≠ 0 then (s.config_, s, w)
  else
    let wa : World σ :=
      { w with log := w.log ++ [Call.XGetWindowAttributes w.g_native_display s.window_] }
    match env.XGetWindowAttributes w.native w.g_native_display s.window_ with
    | none => (0, s, wa)
    | some depth =>
      let r := eglChooseConfig env wa wa.g_display (x11_config_attribs depth 8) (some 1)
      match r.1 with
      | none => (0, s, r.2)
      | some (written, num_configs) =>
        let s1 : NativeViewGLSurfaceEGL := { s with config_ := written.headD s.config_ }
        let tryNoAlpha (w2 : World σ) : EGLConfig × NativeViewGLSurfaceEGL × World σ :=
          let r0 := eglChooseConfig env w2 w2.g_display (x11_config_attribs depth 0) (some 1)
          match r0.1 with
          | none => (0, s1, r0.2)
          | some (written0, num0) =>
            let s2 : NativeViewGLSurfaceEGL := { s1 with config_ := written0.headD s1.config_ }
            if num0 = 0 then (0, s2, r0.2) else (s2.config_, s2, r0.2)
        if num_configs ≠ 0 then
          let w2 : World σ :=
            { r.2 with log := r.2.log ++
                [Call.eglGetConfigAttrib r.2.g_display s1.config_ EGL_BUFFER_SIZE] }
          match env.eglGetConfigAttrib r.2.native r.2.g_display s1.config_ EGL_BUFFER_SIZE with
          | none => (0, s1, w2)
          | some config_depth =>
            if config_depth = depth then (s1.config_, s1, w2) else tryNoAlpha w2
        else tryNoAlpha r.2

/-- Embeds `NativeViewGLSurfaceEGL::Destroy`. -/
def Destroy {σ : Type} (env : Env σ) (w : World σ) (s : NativeViewGLSurfaceEGL) :
    NativeViewGLSurfaceEGL × World σ :=
  if s.surface_ ≠ 0 then
    let w1 := w.call (Call.eglDestroySurface w.g_display s.surface_)
      (env.eglDestroySurface w.native w.g_display s.surface_).2
    ({ s with surface_ := 0 }, w1)
  else (s, w)

/-- Embeds `NativeViewGLSurfaceEGL::Initialize(scoped_ptr<VSyncProvider>)`. -/
def Initialize {σ : Type} (env : Env σ) (w : World σ) (s : NativeViewGLSurfaceEGL)
    (sync_provider : Option VSyncProvider) : Bool × NativeViewGLSurfaceEGL × World σ :=
  if s.window_ = kNullAcceleratedWidget then (false, s, w)
  else if w.g_display = 0 then (false, s, w)
  else
    let g := GetConfig env w s
    let s1 := g.2.1
    let w1 := g.2.2
    let attribs : Option (List EGLint) :=
      if env.b_EGL_NV_post_sub_buffer then some egl_window_attributes_sub_buffer else none
    let r := env.eglCreateWindowSurface w1.native w1.g_display g.1 s1.window_ attribs
    let w2 := w1.call (Call.eglCreateWindowSurface w1.g_display g.1 s1.window_ attribs) r.2
    let s2 : NativeViewGLSurfaceEGL := { s1 with surface_ := r.1 }
    if s2.surface_ = 0 then
      let d := Destroy env w2 s2
      (false, d.1, d.2)
    else
      let q := env.eglQuerySurface w2.native w2.g_display s2.surface_
        EGL_POST_SUB_BUFFER_SUPPORTED_NV
      let w3 : World σ :=
        { w2 with log := w2.log ++
            [Call.eglQuerySurface w2.g_display s2.surface_ EGL_POST_SUB_BUFFER_SUPPORTED_NV] }
      let s3 : NativeViewGLSurfaceEGL :=
        { s2 with supports_post_sub_buffer_ :=
            match q with
            | some surfaceVal => decide (surfaceVal ≠ 0)
            | none => false }
      let s4 : NativeViewGLSurfaceEGL :=
        match sync_provider with
        | some p => { s3 with vsync_provider_ := some p }
        | none =>
          if w3.g_egl_sync_control_supported then
            { s3 with vsync_provider_ := some (VSyncProvider.eglSyncControl s3.surface_) }
          else s3
      (true, s4, w3)

def IsOffscreen (_s : NativeViewGLSurfaceEGL) : Bool := false

/-- Embeds `NativeViewGLSurfaceEGL::SwapBuffers`. -/
def SwapBuffers {σ : Type} (env : Env σ) (w : World σ) (s : NativeViewGLSurfaceEGL) :
    Bool × NativeViewGLSurfaceEGL × World σ :=
  let r := env.eglSwapBuffers w.native w.g_display s.surface_
  (r.1, s, w.call (Call.eglSwapBuffers w.g_display s.surface_) r.2)

/-- Embeds `NativeViewGLSurfaceEGL::GetSize`: the height is queried only when the
width query succeeded; a failed query gives `gfx::Size()`. -/
def GetSize {σ : Type} (env : Env σ) (w : World σ) (s : NativeViewGLSurfaceEGL) :
    Size × World σ :=
  let w1 : World σ :=
    { w with log := w.log ++ [Call.eglQuerySurface w.g_display s.surface_ EGL_WIDTH] }
  match env.eglQuerySurface w.native w.g_display s.surface_ EGL_WIDTH with
  | none => (Size.zero, w1)
  | some width =>
    let w2 : World σ :=
      { w1 with log := w1.log ++ [Call.eglQuerySurface w1.g_display s.surface_ EGL_HEIGHT] }
    match env.eglQuerySurface w1.native w1.g_display s.surface_ EGL_HEIGHT with
    | none => (Size.zero, w2)
    | some height => (⟨width, height⟩, w2)

def GetHandle (s : NativeViewGLSurfaceEGL) : EGLSurface := s.surface_

/-- Embeds `NativeViewGLSurfaceEGL::Resize`.  The guard, when built, is destroyed when
the function is left. -/
def Resize {σ : Type} (env : Env σ) (w : World σ) (s : NativeViewGLSurfaceEGL) (size : Size) :
    Bool × NativeViewGLSurfaceEGL × World σ :=
  let g := GetSize env w s
  if size = g.1 then (true, s, g.2)
  else
    let w0 := g.2
    let guard : Option GLContext := wasCurrent env w0.native s.GetHandle
    let w1 :=
      match guard with
      | some c =>
        let wc := w0.call (Call.ScopedMakeCurrent_ctor c s.GetHandle)
                    (env.ScopedMakeCurrent_ctor w0.native c s.GetHandle)
        wc.call (Call.ReleaseCurrent c s.GetHandle)
          (env.ReleaseCurrent wc.native c s.GetHandle)
      | none => w0
    let d := Destroy env w1 s
    let r := Initialize env d.2 d.1 none
    let w3 :=
      match guard with
      | some c => r.2.2.call (Call.ScopedMakeCurrent_dtor c r.2.1.GetHandle)
                    (env.ScopedMakeCurrent_dtor r.2.2.native c r.2.1.GetHandle)
      | none => r.2.2
    (r.1, r.2.1, w3)

/-- Embeds `NativeViewGLSurfaceEGL::Recreate`. -/
def Recreate {σ : Type} (env : Env σ) (w : World σ) (s : NativeViewGLSurfaceEGL) :
    Bool × NativeViewGLSurfaceEGL × World σ :=
  let d := Destroy env w s
  Initialize env d.2 d.1 none

def GetVSyncProvider (s : NativeViewGLSurfaceEGL) : Option VSyncProvider := s.vsync_provider_

/-- The attribute list of the creation at lines 363-369. -/
def createAttribs {σ : Type} (env : Env σ) : Option (List EGLint) :=
  if env.b_EGL_NV_post_sub_buffer then some egl_window_attributes_sub_buffer else none

/-- The native creation `Initialize` makes at lines 363-369 when the window and
the display are not null: the handle returned and the driver state left. -/
def created {σ : Type} (env : Env σ) (w : World σ) (s : NativeViewGLSurfaceEGL) :
    EGLSurface × σ :=
  env.eglCreateWindowSurface (GetConfig env w s).2.2.native (GetConfig env w s).2.2.g_display
    (GetConfig env w s).1 (GetConfig env w s).2.1.window_ (createAttribs env)

/-- Embeds `NativeViewGLSurfaceEGL::GetExtensions`; `base` is the value of
`GLSurface::GetExtensions()`, which is declared outside this file. -/
def GetExtensions (base : String) (s : NativeViewGLSurfaceEGL) : String :=
  if s.supports_post_sub_buffer_ then
    (base ++ (if base = "" then "" else " ")) ++ "GL_CHROMIUM_post_sub_buffer"
  else base

/-- Embeds `NativeViewGLSurfaceEGL::PostSubBuffer`; the DCHECK on
`supports_post_sub_buffer_` is the release-build no-op. -/
def PostSubBuffer {σ : Type} (env : Env σ) (w : World σ) (s : NativeViewGLSurfaceEGL)
    (x y width height : Int) : Bool × NativeViewGLSurfaceEGL × World σ :=
  let r := env.eglPostSubBufferNV w.native w.g_display s.surface_ x y width height
  (r.1, s, w.call (Call.eglPostSubBufferNV w.g_display s.surface_ x y width height) r.2)

end NativeViewGLSurfaceEGL

/-! ## GLSurface::CreateOffscreenGLSurface -/

/-- The surface variants the offscreen factory builds.  `GLSurfaceOSMesa` is
declared outside this file; only its constructor arguments are kept. -/
inductive GLSurface where
  | osmesa (format : Nat) (size : Size)
  | pbuffer (s : PbufferGLSurfaceEGL)
  | surfaceless (s : SurfacelessEGL)
deriving DecidableEq, Repr

/-- The virtual call `surface->Initialize()`. -/
def GLSurface.Initialize {σ : Type} (env : Env σ) (w : World σ) :
    GLSurface → Bool × GLSurface × World σ
  | .osmesa format size =>
    let r := env.GLSurfaceOSMesa_Initialize w.native format size
    (r.1, .osmesa format size, w.call (Call.GLSurfaceOSMesa_Initialize format size) r.2)
  | .pbuffer s =>
    let r := PbufferGLSurfaceEGL.Initialize env w s
    (r.1, .pbuffer r.2.1, r.2.2)
  | .surfaceless s =>
    let r := SurfacelessEGL.Initialize env w s
    (r.1, .surfaceless r.2.1, r.2.2)

/-- Lines 842-847: the variant constructed under the EGL backend. -/
def constructOffscreenEGL {σ : Type} (w : World σ) (size : Size) : GLSurface :=
  if w.g_egl_surfaceless_context_supported && (size.width = 0 && size.height = 0) then
    GLSurface.surfaceless (SurfacelessEGL.new size)
  else
    GLSurface.pbuffer (PbufferGLSurfaceEGL.new size)

/-- Embeds `GLSurface::CreateOffscreenGLSurface`: `none` is the NULL result. -/
def CreateOffscreenGLSurface {σ : Type} (env : Env σ) (w : World σ) (size : Size) :
    Option GLSurface × World σ :=
  match env.GetGLImplementation with
  | GLImplementation.kGLImplementationOSMesaGL =>
    let r := GLSurface.Initialize env w (GLSurface.osmesa 1 size)
    if !r.1 then (none, r.2.2) else (some r.2.1, r.2.2)
  | GLImplementation.kGLImplementationEGLGLES2 =>
    let r := GLSurface.Initialize env w (constructOffscreenEGL w size)
    if !r.1 then (none, r.2.2) else (some r.2.1, r.2.2)
  | _ => (none, w)

/-! ## A reference driver

A small deterministic driver on which the definitions can be run: one display,
two configurations (8: RGBA 8888, 5: RGB 565), and the list of live drawables
as its state. -/

structure Sim where
  live : List Nat
deriving DecidableEq, Repr

/-- A new drawable: a handle above every live one, hence not null and not
live. -/
def Sim.create (s : Sim) : EGLSurface × Sim :=
  (s.live.sum + 1, { live := (s.live.sum + 1) :: s.live })

def simEnv : Env Sim where
  USE_X11 := false
  OS_WIN := false
  USE_OZONE := false
  OS_ANDROID := true
  kDisableD3D11 := false
  kEnableD3D11 := false
  IsLowEndDevice := false
  GetGLImplementation := GLImplementation.kGLImplementationEGLGLES2
  b_EGL_NV_post_sub_buffer := false
  GetDefaultXDisplay := fun _ => 0
  InitializeHardware := fun s => (true, s)
  GetNativeDisplay := fun _ => 0
  GetEGLSurfaceProperties := fun a => a
  XGetWindowAttributes := fun _ _ _ => none
  eglGetDisplay := fun s _ => (1, s)
  eglInitialize := fun s _ => (true, s)
  eglChooseConfig := fun s _ attribs _ =>
    (some (if attribs = config_attribs_565 then [8, 5] else [8]), s)
  eglGetConfigAttrib := fun _ _ c a =>
    if c = 8 then (if a = EGL_BUFFER_SIZE then some 32 else some 8)
    else if c = 5 then
      (if a = EGL_GREEN_SIZE then some 6
       else if a = EGL_BUFFER_SIZE then some 16 else some 5)
    else none
  eglQueryString := fun _ _ _ => some "EGL_CHROMIUM_sync_control"
  ExtensionsContain := fun ext name => decide (ext = some name)
  eglCreateWindowSurface := fun s _ _ _ _ => s.create
  eglCreatePbufferSurface := fun s _ _ _ => s.create
  eglDestroySurface := fun s _ h => (decide (h ∈ s.live), { s with live := s.live.erase h })
  eglQuerySurface := fun _ _ _ _ => none
  eglSwapBuffers := fun s _ _ => (true, s)
  eglPostSubBufferNV := fun s _ _ _ _ _ _ => (true, s)
  isLive := fun s h => decide (h ∈ s.live)
  CreateGLContext := fun s _ => (some 1, s)
  MakeCurrent := fun s _ _ => (true, s)
  HasExtension := fun _ _ _ => true
  ReleaseCurrent := fun s _ _ => s
  GetCurrent := fun _ => none
  IsCurrent := fun _ _ _ => false
  ScopedMakeCurrent_ctor := fun s _ _ => s
  ScopedMakeCurrent_dtor := fun s _ _ => s
  GLSurfaceOSMesa_Initialize := fun s _ _ => (true, s)

/-- The reference driver before any call. -/
def Sim.start : Sim := { live := [] }

/-- The process on the reference driver after `InitializeOneOff`. -/
def simWorld : World Sim := (InitializeOneOff simEnv (World.start Sim.start)).world

/-- A 4x4 pbuffer surface initialised on the reference driver, with the state
that follows. -/
def simPbuffer : PbufferGLSurfaceEGL × World Sim :=
  (PbufferGLSurfaceEGL.Initialize simEnv simWorld (PbufferGLSurfaceEGL.new ⟨4, 4⟩)).2

/-- The reference driver, advertising `EGL_KHR_surfaceless_context`. -/
def simEnvSurfaceless : Env Sim :=
  { simEnv with eglQueryString := fun _ _ _ => some "EGL_KHR_surfaceless_context" }

/-- The process on that driver after `InitializeOneOff`. -/
def simWorldSurfaceless : World Sim :=
  (InitializeOneOff simEnvSurfaceless (World.start Sim.start)).world

/-- The reference driver on a low-end device: the 565 list enumerates the
configurations 8 (RGBA 8888) and 5 (RGB 565), in that order. -/
def simEnvLowEnd : Env Sim := { simEnv with IsLowEndDevice := true }

/-- A driver that advertises `EGL_KHR_surfaceless_context` and whose context
creation fails: `CreateGLContext` returns NULL. -/
def simEnvNoContext : Env Sim :=
  { simEnv with
    eglQueryString := fun _ _ _ => some "EGL_KHR_surfaceless_context",
    CreateGLContext := fun s _ => (none, s) }

/-- The operations of the surface interface that can change a surface. -/
inductive SurfacelessOp where
  | Initialize
  | Destroy
  | SwapBuffers
  | Resize (size : Size)
deriving DecidableEq, Repr

/-- One operation: the surface and the process state it leaves. -/
def SurfacelessEGL.apply {σ : Type} (env : Env σ) (w : World σ) (s : SurfacelessEGL) :
    SurfacelessOp → SurfacelessEGL × World σ
  | .Initialize => (SurfacelessEGL.Initialize env w s).2
  | .Destroy => SurfacelessEGL.Destroy env w s
  | .SwapBuffers => (SurfacelessEGL.SwapBuffers env w s).2
  | .Resize size => (SurfacelessEGL.Resize env w s size).2

/-- A sequence of operations, first to last. -/
def SurfacelessEGL.run {σ : Type} (env : Env σ) (w : World σ) (s : SurfacelessEGL) :
    List SurfacelessOp → SurfacelessEGL × World σ
  | [] => (s, w)
  | op :: ops =>
    SurfacelessEGL.run env (SurfacelessEGL.apply env w s op).2
      (SurfacelessEGL.apply env w s op).1 ops

/-- The last size passed to `Resize` in a sequence, or `size0` if there is
none. -/
def lastResize (size0 : Size) : List SurfacelessOp → Size
  | [] => size0
  | .Resize size :: ops => lastResize size ops
  | .Initialize :: ops => lastResize size0 ops
  | .Destroy :: ops => lastResize size0 ops
  | .SwapBuffers :: ops => lastResize size0 ops

/-! ## Observations on the log -/

/-- The call that resolves the display: `eglGetDisplay`. -/
def Call.isGetDisplay : Call → Bool
  | .eglGetDisplay _ => true
  | _ => false

/-- The call that opens the connection to the display: `eglInitialize`. -/
def Call.isOpen : Call → Bool
  | .eglInitialize _ => true
  | _ => false

/-- The calls that create a native drawable. -/
def Call.isCreate : Call → Bool
  | .eglCreateWindowSurface _ _ _ _ => true
  | .eglCreatePbufferSurface _ _ _ => true
  | _ => false

/-- The calls that destroy a native drawable. -/
def Call.isDestroy : Call → Bool
  | .eglDestroySurface _ _ => true
  | _ => false

/-- The native presentation calls. -/
def Call.isSwap : Call → Bool
  | .eglSwapBuffers _ _ => true
  | .eglPostSubBufferNV _ _ _ _ _ _ => true
  | _ => false

/-- The configuration calls of `InitializeOneOff`. -/
def Call.isConfig : Call → Bool
  | .eglChooseConfig _ _ _ => true
  | .eglGetConfigAttrib _ _ _ => true
  | _ => false

/-- The calls of the extension query and of the surfaceless probe. -/
def Call.isProbe : Call → Bool
  | .eglQueryString _ _ => true
  | .CreateGLContext _ => true
  | .MakeCurrent _ _ => true
  | .HasExtension _ _ => true
  | .ReleaseCurrent _ _ => true
  | _ => false

/-- The log `l2` continues the log `l1` with calls that all satisfy `q`. -/
def LogOnly (q : Call → Bool) (l1 l2 : List Call) : Prop :=
  ∃ d, l2 = l1 ++ d ∧ ∀ c ∈ d, q c = true

/-- The exact-565 test of line 241 on configuration `c`, in driver state `s`. -/
def exact565 {σ : Type} (env : Env σ) (s : σ) (dpy : EGLDisplay) (c : EGLConfig) : Bool :=
  decide (env.eglGetConfigAttrib s dpy c EGL_RED_SIZE = some 5 ∧
          env.eglGetConfigAttrib s dpy c EGL_GREEN_SIZE = some 6 ∧
          env.eglGetConfigAttrib s dpy c EGL_BLUE_SIZE = some 5)

/-! ## GLSurface::CreateViewGLSurface -/

/-- The value of `OSMESA_BGRA` in GL/osmesa.h. -/
def OSMESA_BGRA : Nat := 1

/-- The collaborators of `CreateViewGLSurface` that are declared outside this
file, left as arbitrary functions: the platform surface factory of the USE_OZONE
build and `GLSurfaceStub::Initialize`. -/
structure ViewEnv (σ : Type) where
  RealizeAcceleratedWidget : σ → AcceleratedWidget → AcceleratedWidget × σ
  CreateVSyncProvider : σ → AcceleratedWidget → Option VSyncProvider × σ
  GLSurfaceStub_Initialize : σ → Bool × σ

/-- The surface variants the view factory builds.  `GLSurfaceOSMesaHeadless` is
a `GLSurfaceOSMesa(OSMESA_BGRA, gfx::Size(1, 1))`. -/
inductive ViewGLSurface where
  | osmesaHeadless (window : AcceleratedWidget)
  | windowed (s : NativeViewGLSurfaceEGL)
  | stub
deriving DecidableEq, Repr

/-- The `Initialize` call the view factory makes on the variant it built; the
Windowed variant receives the provider `sync_provider`. -/
def ViewGLSurface.Initialize {σ : Type} (env : Env σ) (venv : ViewEnv σ) (w : World σ)
    (sync_provider : Option VSyncProvider) : ViewGLSurface → Bool × ViewGLSurface × World σ
  | .osmesaHeadless window =>
    let r := env.GLSurfaceOSMesa_Initialize w.native OSMESA_BGRA ⟨1, 1⟩
    (r.1, .osmesaHeadless window,
      w.call (Call.GLSurfaceOSMesa_Initialize OSMESA_BGRA ⟨1, 1⟩) r.2)
  | .windowed s =>
    let r := NativeViewGLSurfaceEGL.Initialize env w s sync_provider
    (r.1, .windowed r.2.1, r.2.2)
  | .stub =>
    let r := venv.GLSurfaceStub_Initialize w.native
    (r.1, .stub, w.call Call.GLSurfaceStub_Initialize r.2)

/-- Lines 803-823 up to the `Initialize` call: the variant constructed, the
provider handed to it and the state.  The DCHECK of line 809 is the
release-build no-op, so every backend other than OSMesa takes the EGL path. -/
def constructViewGLSurface {σ : Type} (env : Env σ) (venv : ViewEnv σ) (w : World σ)
    (window : AcceleratedWidget) : ViewGLSurface × Option VSyncProvider × World σ :=
  if env.GetGLImplementation = GLImplementation.kGLImplementationOSMesaGL then
    (.osmesaHeadless window, none, w)
  else if window ≠ 0 then
    if env.USE_OZONE then
      let a := venv.RealizeAcceleratedWidget w.native window
      let w1 := w.call (Call.RealizeAcceleratedWidget window) a.2
      let v := venv.CreateVSyncProvider w1.native a.1
      let w2 := w1.call (Call.CreateVSyncProvider a.1) v.2
      (.windowed (NativeViewGLSurfaceEGL.new a.1), v.1, w2)
    else (.windowed (NativeViewGLSurfaceEGL.new window), none, w)
  else (.stub, none, w)

/-- Embeds `GLSurface::CreateViewGLSurface`: `none` is the NULL result. -/
def CreateViewGLSurface {σ : Type} (env : Env σ) (venv : ViewEnv σ) (w : World σ)
    (window : AcceleratedWidget) : Option ViewGLSurface × World σ :=
  let c := constructViewGLSurface env venv w window
  let r := ViewGLSurface.Initialize env venv c.2.2 c.2.1 c.1
  if r.1 then (some r.2.1, r.2.2) else (none, r.2.2)

/-! ## Sequences of Resize and Recreate on a Windowed surface -/

inductive WindowedOp where
  | Resize (size : Size)
  | Recreate
deriving DecidableEq, Repr

/-- One operation: the surface and the process state it leaves. -/
def NativeViewGLSurfaceEGL.apply {σ : Type} (env : Env σ) (w : World σ)
    (s : NativeViewGLSurfaceEGL) : WindowedOp → NativeViewGLSurfaceEGL × World σ
  | .Resize size => (NativeViewGLSurfaceEGL.Resize env w s size).2
  | .Recreate => (NativeViewGLSurfaceEGL.Recreate env w s).2

/-- A sequence of operations, first to last. -/
def NativeViewGLSurfaceEGL.run {σ : Type} (env : Env σ) (w : World σ)
    (s : NativeViewGLSurfaceEGL) : List WindowedOp → NativeViewGLSurfaceEGL × World σ
  | [] => (s, w)
  | op :: ops =>
    NativeViewGLSurfaceEGL.run env (NativeViewGLSurfaceEGL.apply env w s op).2
      (NativeViewGLSurfaceEGL.apply env w s op).1 ops

/-- What line 383 stores in `supports_post_sub_buffer_` for the drawable
`surface` in driver state `st`: true when the query of
`EGL_POST_SUB_BUFFER_SUPPORTED_NV` succeeds with a value other than 0. -/
def capability {σ : Type} (env : Env σ) (st : σ) (dpy : EGLDisplay) (surface : EGLSurface) :
    Bool :=
  match env.eglQuerySurface st dpy surface EGL_POST_SUB_BUFFER_SUPPORTED_NV with
  | some surfaceVal => decide (surfaceVal ≠ 0)
  | none => false

/-- The text `token` occurs in the text `ext`. -/
def containsText (ext token : String) : Prop := token.data <:+: ext.data

/-! ## Pbuffer Resize as the specification words it -/

/-- Modelled from the spec's words, to be compared with
`PbufferGLSurfaceEGL.Resize`: "no-op if unchanged; otherwise apply the same
current-context release/rebind dance as the windowed surface, update the stored
size, and reinitialize".  The dance of the windowed surface is: build the scoped
guard, then `ReleaseCurrent`. -/
def PbufferGLSurfaceEGL.Resize_as_specified {σ : Type} (env : Env σ) (w : World σ)
    (s : PbufferGLSurfaceEGL) (size : Size) : Bool × PbufferGLSurfaceEGL × World σ :=
  if size = s.size_ then (true, s, w)
  else
    let guard : Option GLContext := wasCurrent env w.native s.GetHandle
    let w1 :=
      match guard with
      | some c =>
        let wc := w.call (Call.ScopedMakeCurrent_ctor c s.GetHandle)
                    (env.ScopedMakeCurrent_ctor w.native c s.GetHandle)
        wc.call (Call.ReleaseCurrent c s.GetHandle)
          (env.ReleaseCurrent wc.native c s.GetHandle)
      | none => w
    let s1 : PbufferGLSurfaceEGL := { s with size_ := size }
    let r := PbufferGLSurfaceEGL.Initialize env w1 s1
    let w3 :=
      match guard with
      | some c => r.2.2.call (Call.ScopedMakeCurrent_dtor c r.2.1.GetHandle)
                    (env.ScopedMakeCurrent_dtor r.2.2.native c r.2.1.GetHandle)
      | none => r.2.2
    (r.1, r.2.1, w3)

/-- The calls to the rendering-context collaborator. -/
def Call.isContextOp : Call → Bool
  | .MakeCurrent _ _ => true
  | .ReleaseCurrent _ _ => true
  | .ScopedMakeCurrent_ctor _ _ => true
  | .ScopedMakeCurrent_dtor _ _ => true
  | _ => false

/-- The calls that only read: window attributes, configurations, drawable
attributes. -/
def Call.isLookup : Call → Bool
  | .XGetWindowAttributes _ _ => true
  | .eglChooseConfig _ _ _ => true
  | .eglGetConfigAttrib _ _ _ => true
  | .eglQuerySurface _ _ _ => true
  | _ => false

/-- The calls `ReleaseCurrent`. -/
def Call.isRelease : Call → Bool
  | .ReleaseCurrent _ _ => true
  | _ => false

/-! ## A counting driver

A second driver on which the definitions can be run: its state is the number of
drawables created so far, handles are never reused, and it grants partial
presentation to drawable 1 only.  It advertises no extension. -/

def countEnv : Env Nat where
  USE_X11 := false
  OS_WIN := false
  USE_OZONE := false
  OS_ANDROID := true
  kDisableD3D11 := false
  kEnableD3D11 := false
  IsLowEndDevice := false
  GetGLImplementation := GLImplementation.kGLImplementationEGLGLES2
  b_EGL_NV_post_sub_buffer := true
  GetDefaultXDisplay := fun _ => 0
  InitializeHardware := fun s => (true, s)
  GetNativeDisplay := fun _ => 0
  GetEGLSurfaceProperties := fun a => a
  XGetWindowAttributes := fun _ _ _ => none
  eglGetDisplay := fun s _ => (1, s)
  eglInitialize := fun s _ => (true, s)
  eglChooseConfig := fun s _ _ _ => (some [8], s)
  eglGetConfigAttrib := fun _ _ _ _ => some 8
  eglQueryString := fun _ _ _ => none
  ExtensionsContain := fun ext name => decide (ext = some name)
  eglCreateWindowSurface := fun s _ _ _ _ => (s + 1, s + 1)
  eglCreatePbufferSurface := fun s _ _ _ => (s + 1, s + 1)
  eglDestroySurface := fun s _ _ => (true, s)
  eglQuerySurface := fun _ _ h a =>
    if a = EGL_POST_SUB_BUFFER_SUPPORTED_NV then (if h = 1 then some 1 else some 0) else none
  eglSwapBuffers := fun s _ _ => (true, s)
  eglPostSubBufferNV := fun s _ _ _ _ _ _ => (true, s)
  isLive := fun s h => decide (h ≠ 0 ∧ h ≤ s)
  CreateGLContext := fun s _ => (some 1, s)
  MakeCurrent := fun s _ _ => (true, s)
  HasExtension := fun _ _ _ => true
  ReleaseCurrent := fun s _ _ => s
  GetCurrent := fun _ => none
  IsCurrent := fun _ _ _ => false
  ScopedMakeCurrent_ctor := fun s _ _ => s
  ScopedMakeCurrent_dtor := fun s _ _ => s
  GLSurfaceOSMesa_Initialize := fun s _ _ => (true, s)

/-- The process on the counting driver after `InitializeOneOff`. -/
def countWorld : World Nat := (InitializeOneOff countEnv (World.start 0)).world

/-- The counting driver with context 1 current for every surface. -/
def countEnvCurrent : Env Nat :=
  { countEnv with GetCurrent := fun _ => some 1, IsCurrent := fun _ _ _ => true }

/-- A 4x4 pbuffer surface initialised on the counting driver, with the state
that follows. -/
def countPbuffer : PbufferGLSurfaceEGL × World Nat :=
  (PbufferGLSurfaceEGL.Initialize countEnv countWorld (PbufferGLSurfaceEGL.new ⟨4, 4⟩)).2

/-- A view-factory environment for the reference drivers: the window handle is
realized as itself, no provider is supplied, the stub initialises. -/
def simViewEnv (σ : Type) : ViewEnv σ where
  RealizeAcceleratedWidget := fun s window => (window, s)
  CreateVSyncProvider := fun s _ => (none, s)
  GLSurfaceStub_Initialize := fun s => (true, s)

/-- The Windowed surface on window 5 after its first `Initialize` on the
counting driver, with the supplied provider 7, and the state that follows. -/
def countWindowed : NativeViewGLSurfaceEGL × World Nat :=
  (NativeViewGLSurfaceEGL.Initialize countEnv countWorld (NativeViewGLSurfaceEGL.new 5)
    (some (VSyncProvider.supplied 7))).2

/-- The driver state in which `PbufferGLSurfaceEGL::Resize` calls `Initialize`
(line 671): the state after the scoped guard of lines 664-667 was built, or the
state at entry when no context is current for the surface. -/
def PbufferGLSurfaceEGL.stateAtInitialize {σ : Type} (env : Env σ) (w : World σ)
    (s : PbufferGLSurfaceEGL) : σ :=
  match wasCurrent env w.native s.GetHandle with
  | some c => env.ScopedMakeCurrent_ctor w.native c s.GetHandle
  | none => w.native

/-- The reference driver with room for one pbuffer: a pbuffer creation fails
while any drawable is live. -/
def simEnvOneDrawable : Env Sim :=
  { simEnv with
    eglCreatePbufferSurface := fun s _ _ _ => if s.live = [] then s.create else (0, s) }

/-- A 4x4 pbuffer surface initialised on that driver, with the state that
follows. -/
def simPbufferOne : PbufferGLSurfaceEGL × World Sim :=
  (PbufferGLSurfaceEGL.Initialize simEnvOneDrawable
    (InitializeOneOff simEnvOneDrawable (World.start Sim.start)).world
    (PbufferGLSurfaceEGL.new ⟨4, 4⟩)).2

/-- The counting driver granting partial presentation to every drawable it has
created, and to no other handle. -/
def countEnvGrantAll : Env Nat :=
  { countEnv with
    eglQuerySurface := fun s _ h a =>
      if a = EGL_POST_SUB_BUFFER_SUPPORTED_NV then
        (if h ≠ 0 ∧ h ≤ s then some 1 else none)
      else none }

/-! ## Lemmas on the phases of InitializeOneOff -/

theorem LogOnly.refl (q : Call → Bool) (l : List Call) : LogOnly q l l :=
  ⟨[], by simp, by simp⟩

theorem LogOnly.trans {q : Call → Bool} {l1 l2 l3 : List Call}
    (h12 : LogOnly q l1 l2) (h23 : LogOnly q l2 l3) : LogOnly q l1 l3 := by
  obtain ⟨d1, e1, q1⟩ := h12
  obtain ⟨d2, e2, q2⟩ := h23
  refine ⟨d1 ++ d2, by rw [e2, e1, List.append_assoc], ?_⟩
  intro c hc
  rcases List.mem_append.mp hc with h | h
  · exact q1 c h
  · exact q2 c h

theorem LogOnly.snoc {q : Call → Bool} {l1 l2 : List Call} (h : LogOnly q l1 l2)
    (d : List Call) (hd : ∀ c ∈ d, q c = true) : LogOnly q l1 (l2 ++ d) :=
  h.trans ⟨d, rfl, hd⟩

theorem LogOnly.countP_eq {q p : Call → Bool} {l1 l2 : List Call} (h : LogOnly q l1 l2)
    (hp : ∀ c, q c = true → p c = false) : l2.countP p = l1.countP p := by
  obtain ⟨d, e, hq⟩ := h
  have hz : d.countP p = 0 := by
    rw [List.countP_eq_zero]
    intro c hc
    simp [hp c (hq c hc)]
  rw [e, List.countP_append, hz, Nat.add_zero]

theorem eglChooseConfig_world {σ : Type} (env : Env σ) (w : World σ) (dpy : EGLDisplay)
    (attribs : List EGLint) (n : Option Nat) :
    (eglChooseConfig env w dpy attribs n).2
      = w.call (Call.eglChooseConfig dpy attribs n) (env.eglChooseConfig w.native dpy attribs n).2 :=
  rfl

theorem ValidateEglConfig_world {σ : Type} (env : Env σ) (w : World σ) (dpy : EGLDisplay)
    (attribs : List EGLint) :
    (ValidateEglConfig env w dpy attribs).2.2
      = w.call (Call.eglChooseConfig dpy attribs none)
          (env.eglChooseConfig w.native dpy attribs none).2 := by
  unfold ValidateEglConfig
  simp only
  split
  · rfl
  · split <;> rfl

theorem findExact565_spec {σ : Type} (env : Env σ) (l : List EGLConfig) (w : World σ) :
    (findExact565 env w l).1 = l.find? (exact565 env w.native w.g_display)
    ∧ LogOnly Call.isConfig w.log (findExact565 env w l).2.log
    ∧ (findExact565 env w l).2 = { w with log := (findExact565 env w l).2.log } := by
  induction l generalizing w with
  | nil => exact ⟨rfl, LogOnly.refl _ _, rfl⟩
  | cons c rest ih =>
    unfold findExact565
    by_cases hc : env.eglGetConfigAttrib w.native w.g_display c EGL_RED_SIZE = some 5 ∧
        env.eglGetConfigAttrib w.native w.g_display c EGL_GREEN_SIZE = some 6 ∧
        env.eglGetConfigAttrib w.native w.g_display c EGL_BLUE_SIZE = some 5
    · have hx : exact565 env w.native w.g_display c = true := by simp [exact565, hc]
      simp only [hc, and_self, if_true, List.find?_cons_of_pos _ hx]
      refine ⟨trivial, ⟨_, rfl, ?_⟩, trivial⟩
      intro x hxm
      simp at hxm
      rcases hxm with h | h | h <;> subst h <;> rfl
    · have hx : ¬ (exact565 env w.native w.g_display c = true) := by simp [exact565, hc]
      simp only [hc, if_false, List.find?_cons_of_neg _ hx]
      obtain ⟨h1, h2, h3⟩ := ih
        { w with log := w.log ++
            [Call.eglGetConfigAttrib w.g_display c EGL_RED_SIZE,
             Call.eglGetConfigAttrib w.g_display c EGL_BLUE_SIZE,
             Call.eglGetConfigAttrib w.g_display c EGL_GREEN_SIZE] }
      refine ⟨h1, LogOnly.trans ⟨_, rfl, ?_⟩ h2, ?_⟩
      · intro x hxm
        simp at hxm
        rcases hxm with h | h | h <;> subst h <;> rfl
      · rw [h3]

theorem selectConfig_initialized {σ : Type} (env : Env σ) (w : World σ) :
    (selectConfig env w).2.initialized = w.initialized := by
  unfold selectConfig
  simp only
  have hf := fun (w0 : World σ) (l : List EGLConfig) => (findExact565_spec env l w0).2.2
  split
  · simp [ValidateEglConfig_world, World.call]
  · split
    · simp [ValidateEglConfig_world, eglChooseConfig_world, World.call]
    · split
      · split
        · rw [hf]; simp [ValidateEglConfig_world, eglChooseConfig_world, World.call]
        · split
          · rw [ValidateEglConfig_world, hf]
            simp [ValidateEglConfig_world, eglChooseConfig_world, World.call]
          · split
            · rw [eglChooseConfig_world, ValidateEglConfig_world, hf]
              simp [ValidateEglConfig_world, eglChooseConfig_world, World.call]
            · simp only
              rw [eglChooseConfig_world, ValidateEglConfig_world, hf]
              simp [ValidateEglConfig_world, eglChooseConfig_world, World.call]
      · simp [ValidateEglConfig_world, eglChooseConfig_world, World.call]

theorem eglChooseConfig_only {σ : Type} (env : Env σ) (w : World σ) (dpy : EGLDisplay)
    (attribs : List EGLint) (n : Option Nat) :
    LogOnly Call.isConfig w.log (eglChooseConfig env w dpy attribs n).2.log :=
  ⟨[Call.eglChooseConfig dpy attribs n], rfl, by simp [Call.isConfig]⟩

theorem ValidateEglConfig_only {σ : Type} (env : Env σ) (w : World σ) (dpy : EGLDisplay)
    (attribs : List EGLint) :
    LogOnly Call.isConfig w.log (ValidateEglConfig env w dpy attribs).2.2.log := by
  rw [ValidateEglConfig_world]
  exact ⟨[Call.eglChooseConfig dpy attribs none], rfl, by simp [Call.isConfig]⟩

theorem selectConfig_only {σ : Type} (env : Env σ) (w : World σ) :
    LogOnly Call.isConfig w.log (selectConfig env w).2.log := by
  unfold selectConfig
  simp only
  have hV := ValidateEglConfig_only env
  have hC := eglChooseConfig_only env
  have hF := fun (w0 : World σ) (l : List EGLConfig) => (findExact565_spec env l w0).2.1
  split
  · exact hV _ _ _
  · split
    · exact (hV _ _ _).trans (hC _ _ _ _)
    · split
      · split
        · exact ((hV _ _ _).trans (hC _ _ _ _)).trans (hF _ _)
        · split
          · exact (((hV _ _ _).trans (hC _ _ _ _)).trans (hF _ _)).trans (hV _ _ _)
          · split
            · exact ((((hV _ _ _).trans (hC _ _ _ _)).trans (hF _ _)).trans (hV _ _ _)).trans
                (hC _ _ _ _)
            · exact ((((hV _ _ _).trans (hC _ _ _ _)).trans (hF _ _)).trans (hV _ _ _)).trans
                (hC _ _ _ _)
      · exact (hV _ _ _).trans (hC _ _ _ _)

theorem probeExtensions_only {σ : Type} (env : Env σ) (w : World σ) :
    LogOnly Call.isProbe w.log (probeExtensions env w).2.log := by
  unfold probeExtensions
  simp only [World.call]
  split
  · split
    · simp only [List.append_assoc]
      exact ⟨_, rfl, by simp [Call.isProbe]⟩
    · rename_i ctx hctx
      cases hm : (env.MakeCurrent (env.CreateGLContext w.native EGL_NO_SURFACE).2 ctx
          EGL_NO_SURFACE).1
      · simp only [hm, List.append_assoc]
        simp
        exact ⟨_, rfl, by simp [Call.isProbe]⟩
      · simp only [hm, List.append_assoc]
        simp
        split <;> exact ⟨_, rfl, by simp [Call.isProbe]⟩
  · exact ⟨_, rfl, by simp [Call.isProbe]⟩

theorem probeExtensions_frame {σ : Type} (env : Env σ) (w : World σ) :
    (probeExtensions env w).2.initialized = w.initialized
    ∧ (probeExtensions env w).2.g_config = w.g_config
    ∧ (probeExtensions env w).2.g_display = w.g_display
    ∧ (probeExtensions env w).2.g_native_display = w.g_native_display := by
  unfold probeExtensions
  simp only [World.call]
  repeat' (first | exact ⟨rfl, rfl, rfl, rfl⟩ | split)

theorem resolveNativeDisplay_frame {σ : Type} (env : Env σ) (w : World σ) :
    (resolveNativeDisplay env w).2.initialized = w.initialized
    ∧ LogOnly (fun c => decide (c = Call.InitializeHardware)) w.log
        (resolveNativeDisplay env w).2.log := by
  unfold resolveNativeDisplay
  split
  · exact ⟨rfl, LogOnly.refl _ _⟩
  · split
    · exact ⟨rfl, LogOnly.refl _ _⟩
    · split
      · simp only [World.call]
        split <;> exact ⟨rfl, ⟨_, rfl, by simp⟩⟩
      · exact ⟨rfl, LogOnly.refl _ _⟩

theorem openDisplay_initialized {σ : Type} (env : Env σ) (w : World σ) :
    (openDisplay env w).2.initialized = w.initialized := by
  have hr := (resolveNativeDisplay_frame env w).1
  unfold openDisplay
  simp only [World.call]
  split
  · exact hr
  · split
    · exact hr
    · split <;> exact hr

/-- When `openDisplay` succeeds, the log gained the hardware-initialisation
call of the platform (if any), then exactly one `eglGetDisplay` and one
`eglInitialize`. -/
theorem openDisplay_log {σ : Type} (env : Env σ) (w : World σ)
    (h : (openDisplay env w).1 = some ()) :
    ∃ nd, (resolveNativeDisplay env w).1 = some nd
      ∧ (openDisplay env w).2.log
          = (resolveNativeDisplay env w).2.log
              ++ [Call.eglGetDisplay nd,
                  Call.eglInitialize (env.eglGetDisplay (resolveNativeDisplay env w).2.native nd).1] := by
  unfold openDisplay at h ⊢
  simp only [World.call] at h ⊢
  split at h
  · simp at h
  · rename_i nd hnd
    refine ⟨nd, hnd, ?_⟩
    split at h
    · simp at h
    · split at h
      · rename_i hd hi
        simp [hd, hi]
      · simp at h

theorem InitializeOneOff_initialized {σ : Type} (env : Env σ) (w : World σ) :
    (InitializeOneOff env w).world.initialized
      = (w.initialized || decide ((InitializeOneOff env w).result = some true)) := by
  unfold InitializeOneOff
  cases hi : w.initialized with
  | true => simp [Outcome.world, Outcome.result, hi]
  | false =>
    have ho := openDisplay_initialized env w
    have hs := selectConfig_initialized env (openDisplay env w).2
    have hp := (probeExtensions_frame env (selectConfig env (openDisplay env w).2).2).1
    simp only [Bool.false_eq_true, if_false, Bool.false_or]
    cases h1 : (openDisplay env w).1 with
    | none => simp [Outcome.world, Outcome.result, ho, hi]
    | some u =>
      simp only []
      cases h2 : (selectConfig env (openDisplay env w).2).1 with
      | none => simp [Outcome.world, Outcome.result, ho, hs, hi]
      | some u2 =>
        simp only []
        cases h3 : (probeExtensions env (selectConfig env (openDisplay env w).2).2).1 with
        | none => simp [Outcome.world, Outcome.result, ho, hs, hp, hi]
        | some u3 => simp [Outcome.world, Outcome.result]

/-! ## InitializeOneOff: idempotence -/

theorem InitializeOneOff_log_of_true {σ : Type} (env : Env σ) (w : World σ)
    (hi : w.initialized = false) (h : (InitializeOneOff env w).result = some true) :
    (InitializeOneOff env w).world.log.countP Call.isOpen = w.log.countP Call.isOpen + 1
    ∧ (InitializeOneOff env w).world.log.countP Call.isGetDisplay
        = w.log.countP Call.isGetDisplay + 1 := by
  unfold InitializeOneOff at h ⊢
  simp only [hi, Bool.false_eq_true, if_false] at h ⊢
  cases h1 : (openDisplay env w).1 with
  | none => simp [h1, Outcome.result] at h
  | some u =>
    simp only [h1] at h ⊢
    cases h2 : (selectConfig env (openDisplay env w).2).1 with
    | none => simp [h2, Outcome.result] at h
    | some u2 =>
      simp only [h2] at h ⊢
      cases h3 : (probeExtensions env (selectConfig env (openDisplay env w).2).2).1 with
      | none => simp [h3, Outcome.result] at h
      | some u3 =>
        simp only [Outcome.world]
        obtain ⟨nd, -, hlog⟩ := openDisplay_log env w h1
        have hr := (resolveNativeDisplay_frame env w).2
        have hs := selectConfig_only env (openDisplay env w).2
        have hp := probeExtensions_only env (selectConfig env (openDisplay env w).2).2
        have e1 : ∀ p : Call → Bool, (∀ c, Call.isProbe c = true → p c = false) →
            (∀ c, Call.isConfig c = true → p c = false) →
            (probeExtensions env (selectConfig env (openDisplay env w).2).2).2.log.countP p
              = (openDisplay env w).2.log.countP p := fun p hp1 hp2 => by
          rw [hp.countP_eq hp1, hs.countP_eq hp2]
        constructor
        · rw [e1 _ (by intro c; cases c <;> simp [Call.isProbe, Call.isOpen])
            (by intro c; cases c <;> simp [Call.isConfig, Call.isOpen]), hlog,
            List.countP_append, hr.countP_eq (by intro c; cases c <;> simp [Call.isOpen])]
          simp [Call.isOpen, Call.isGetDisplay]
        · rw [e1 _ (by intro c; cases c <;> simp [Call.isProbe, Call.isGetDisplay])
            (by intro c; cases c <;> simp [Call.isConfig, Call.isGetDisplay]), hlog,
            List.countP_append, hr.countP_eq (by intro c; cases c <;> simp [Call.isGetDisplay])]
          simp [Call.isOpen, Call.isGetDisplay]

/-- C1: when a call of `InitializeOneOff` returns true, the call that follows it
returns true and leaves the whole process state as it found it: the driver
state, `g_display`, `g_native_display`, `g_config`, the extension flags and the
log of native calls are those the first call left, so the second call made no
native call.  If the first call started uninitialised, its log holds exactly one
more `eglInitialize` and one more `eglGetDisplay` than before, and the second
call adds none: the display is opened once. -/
theorem InitializeOneOff_twice {σ : Type} (env : Env σ) (w : World σ)
    (h : (InitializeOneOff env w).result = some true) :
    InitializeOneOff env (InitializeOneOff env w).world
        = Outcome.returned true (InitializeOneOff env w).world
    ∧ (w.initialized = false →
        (InitializeOneOff env (InitializeOneOff env w).world).world.log.countP Call.isOpen
            = w.log.countP Call.isOpen + 1
        ∧ (InitializeOneOff env (InitializeOneOff env w).world).world.log.countP
              Call.isGetDisplay
            = w.log.countP Call.isGetDisplay + 1) := by
  have hinit : (InitializeOneOff env w).world.initialized = true := by
    rw [InitializeOneOff_initialized, h]; simp
  have h2 : InitializeOneOff env (InitializeOneOff env w).world
      = Outcome.returned true (InitializeOneOff env w).world := by
    generalize (InitializeOneOff env w).world = w1 at hinit
    unfold InitializeOneOff
    simp [hinit]
  refine ⟨h2, fun hi => ?_⟩
  rw [h2]
  exact InitializeOneOff_log_of_true env w hi h

theorem InitializeOneOff_twice_witness :
    (InitializeOneOff simEnv (World.start Sim.start)).result = some true
    ∧ InitializeOneOff simEnv (InitializeOneOff simEnv (World.start Sim.start)).world
        = Outcome.returned true (InitializeOneOff simEnv (World.start Sim.start)).world :=
  ⟨by decide, (InitializeOneOff_twice simEnv (World.start Sim.start) (by decide)).1⟩

/-! ## PbufferGLSurfaceEGL: Initialize and Resize -/

namespace PbufferGLSurfaceEGL

/-- The call `Initialize` succeeds exactly when the display is valid, the area is not
zero and the native creation returns a drawable. -/
theorem Initialize_true_iff {σ : Type} (env : Env σ) (w : World σ) (s : PbufferGLSurfaceEGL) :
    (Initialize env w s).1 = true ↔
      w.g_display ≠ 0 ∧ s.size_.GetArea ≠ 0
      ∧ (env.eglCreatePbufferSurface w.native w.g_display w.g_config s.pbuffer_attribs).1 ≠ 0 := by
  unfold Initialize
  simp only
  split
  · simp_all
  · split
    · simp_all
    · split <;> simp_all

/-- The state a successful `Initialize` leaves. -/
theorem Initialize_of_true {σ : Type} (env : Env σ) (w : World σ) (s : PbufferGLSurfaceEGL)
    (h : (Initialize env w s).1 = true) :
    (Initialize env w s).2.1
        = { s with surface_ :=
              (env.eglCreatePbufferSurface w.native w.g_display w.g_config s.pbuffer_attribs).1 }
    ∧ (Initialize env w s).2.2.log
        = w.log ++ Call.eglCreatePbufferSurface w.g_display w.g_config s.pbuffer_attribs
            :: (if s.surface_ ≠ 0 then [Call.eglDestroySurface w.g_display s.surface_] else []) := by
  obtain ⟨hd, ha, hc⟩ := (Initialize_true_iff env w s).mp h
  unfold Initialize
  simp only [hd, ha, hc, if_false, World.call]
  split <;> simp

/-- C2: a Pbuffer surface holds a live drawable `h_old` and `Resize` to another
size returns true.  Then the new handle is the one the native creation
returned, in a driver state in which `h_old` was still live; it is not null and,
for a driver that never hands out a live handle, differs from `h_old`.  The log
of the call holds exactly one creation followed at once by exactly one
`eglDestroySurface` of `h_old`, and no other creation or destruction, and the
surface holds the new handle and the new size. -/
theorem Resize_allocate_before_free {σ : Type} (env : Env σ) (w : World σ)
    (s : PbufferGLSurfaceEGL) (size : Size)
    (hold : s.GetHandle ≠ 0)
    (hlive : env.isLive w.native s.GetHandle = true)
    (hfresh : ∀ st d c a, (env.eglCreatePbufferSurface st d c a).1 ≠ 0 →
      env.isLive st (env.eglCreatePbufferSurface st d c a).1 = false)
    (hguard : ∀ st c h x, env.isLive (env.ScopedMakeCurrent_ctor st c h) x = env.isLive st x)
    (hne : size ≠ s.GetSize)
    (hok : (Resize env w s size).1 = true) :
    ∃ st pre post,
      env.isLive st s.GetHandle = true
      ∧ (Resize env w s size).2.1.GetHandle
          = (env.eglCreatePbufferSurface st w.g_display w.g_config
              [EGL_WIDTH, size.width, EGL_HEIGHT, size.height, EGL_NONE]).1
      ∧ (Resize env w s size).2.1.GetHandle ≠ 0
      ∧ (Resize env w s size).2.1.GetHandle ≠ s.GetHandle
      ∧ (Resize env w s size).2.1.GetSize = size
      ∧ (Resize env w s size).2.2.log
          = w.log ++ pre
              ++ [Call.eglCreatePbufferSurface w.g_display w.g_config
                    [EGL_WIDTH, size.width, EGL_HEIGHT, size.height, EGL_NONE],
                  Call.eglDestroySurface w.g_display s.GetHandle]
              ++ post
      ∧ ∀ c ∈ pre ++ post, c.isCreate = false ∧ c.isDestroy = false := by
  simp only [GetHandle, GetSize] at *
  unfold Resize at hok ⊢
  simp only [hne, if_false, GetHandle] at hok ⊢
  cases hg : wasCurrent env w.native s.surface_ with
  | none =>
    simp only [hg] at hok ⊢
    obtain ⟨-, -, hc⟩ := (Initialize_true_iff env w _).mp hok
    obtain ⟨hs, hl⟩ := Initialize_of_true env w _ hok
    refine ⟨w.native, [], [], hlive, ?_, ?_, ?_, ?_, ?_, ?_⟩
    · rw [hs]; rfl
    · rw [hs]; exact hc
    · rw [hs]
      intro he
      have := hfresh _ _ _ _ hc
      simp only [pbuffer_attribs] at he this
      rw [he, hlive] at this
      exact Bool.noConfusion this
    · rw [hs]
    · rw [hl]; simp [hold, pbuffer_attribs]
    · simp
  | some ctx =>
    simp only [hg, World.call] at hok ⊢
    obtain ⟨-, -, hc⟩ := (Initialize_true_iff env _ _).mp hok
    obtain ⟨hs, hl⟩ := Initialize_of_true env _ _ hok
    refine ⟨env.ScopedMakeCurrent_ctor w.native ctx s.surface_,
      [Call.ScopedMakeCurrent_ctor ctx s.surface_],
      [Call.ScopedMakeCurrent_dtor ctx
        (env.eglCreatePbufferSurface (env.ScopedMakeCurrent_ctor w.native ctx s.surface_)
          w.g_display w.g_config [EGL_WIDTH, size.width, EGL_HEIGHT, size.height, EGL_NONE]).1],
      ?_, ?_, ?_, ?_, ?_, ?_, ?_⟩
    · rw [hguard]; exact hlive
    · rw [hs]; rfl
    · rw [hs]; exact hc
    · rw [hs]
      intro he
      have := hfresh _ _ _ _ hc
      simp only [pbuffer_attribs] at he this
      rw [he, hguard, hlive] at this
      exact Bool.noConfusion this
    · rw [hs]
    · rw [hl, hs]; simp [hold, pbuffer_attribs]
    · simp [Call.isCreate, Call.isDestroy]

end PbufferGLSurfaceEGL

/-- The reference driver never hands out a live handle. -/
theorem simEnv_fresh (st : Sim) (d : EGLDisplay) (c : EGLConfig) (a : List EGLint) :
    simEnv.isLive st (simEnv.eglCreatePbufferSurface st d c a).1 = false := by
  simp only [simEnv, Sim.create, decide_eq_false_iff_not]
  intro hmem
  exact absurd (List.le_sum_of_mem hmem) (Nat.not_succ_le_self _)

theorem PbufferGLSurfaceEGL.Resize_allocate_before_free_witness :
    simPbuffer.1.GetHandle ≠ 0
    ∧ simEnv.isLive simPbuffer.2.native simPbuffer.1.GetHandle = true
    ∧ (PbufferGLSurfaceEGL.Resize simEnv simPbuffer.2 simPbuffer.1 ⟨8, 8⟩).1 = true
    ∧ (PbufferGLSurfaceEGL.Resize simEnv simPbuffer.2 simPbuffer.1 ⟨8, 8⟩).2.1.GetHandle
        ≠ simPbuffer.1.GetHandle :=
  ⟨by decide, by decide, by decide,
    match PbufferGLSurfaceEGL.Resize_allocate_before_free simEnv simPbuffer.2 simPbuffer.1 ⟨8, 8⟩
        (by decide) (by decide) (fun st d c a _ => simEnv_fresh st d c a)
        (fun _ _ _ _ => rfl) (by decide) (by decide) with
    | ⟨_, _, _, _, _, _, hne, _⟩ => hne⟩

/-! ## Resize to the current size -/

theorem NativeViewGLSurfaceEGL.GetSize_world {σ : Type} (env : Env σ) (w : World σ)
    (s : NativeViewGLSurfaceEGL) :
    (NativeViewGLSurfaceEGL.GetSize env w s).2
        = { w with log := (NativeViewGLSurfaceEGL.GetSize env w s).2.log }
    ∧ LogOnly (fun c => !(c.isCreate || c.isDestroy)) w.log
        (NativeViewGLSurfaceEGL.GetSize env w s).2.log := by
  unfold NativeViewGLSurfaceEGL.GetSize
  simp only
  split
  · exact ⟨rfl, ⟨_, rfl, by simp [Call.isCreate, Call.isDestroy]⟩⟩
  · split
    · refine ⟨rfl, ⟨[Call.eglQuerySurface w.g_display s.surface_ EGL_WIDTH,
        Call.eglQuerySurface w.g_display s.surface_ EGL_HEIGHT], by simp,
        by simp [Call.isCreate, Call.isDestroy]⟩⟩
    · refine ⟨rfl, ⟨[Call.eglQuerySurface w.g_display s.surface_ EGL_WIDTH,
        Call.eglQuerySurface w.g_display s.surface_ EGL_HEIGHT], by simp,
        by simp [Call.isCreate, Call.isDestroy]⟩⟩

/-- The query `GetSize` reads the display, the driver state and the handle only. -/
theorem NativeViewGLSurfaceEGL.GetSize_congr {σ : Type} (env : Env σ) (w w1 : World σ)
    (s : NativeViewGLSurfaceEGL) (hn : w1.native = w.native) (hd : w1.g_display = w.g_display) :
    (NativeViewGLSurfaceEGL.GetSize env w1 s).1 = (NativeViewGLSurfaceEGL.GetSize env w s).1 := by
  unfold NativeViewGLSurfaceEGL.GetSize
  simp only [hn, hd]
  split
  · rfl
  · split <;> rfl

/-- C3: on each of the three variants, `Resize` with the size `GetSize` reports
returns true and leaves the surface as it was (same handle, same fields); no
drawable is created or destroyed.  For the Pbuffer and Surfaceless variants the
process state is untouched.  For the Windowed variant, whose `GetSize` asks the
driver, the log gains only the size queries, the driver state and the globals
are unchanged, and `GetSize` after the call reports the same size. -/
theorem Resize_current_size_noop {σ : Type} (env : Env σ) (w : World σ) :
    (∀ s : NativeViewGLSurfaceEGL,
        (NativeViewGLSurfaceEGL.Resize env w s (NativeViewGLSurfaceEGL.GetSize env w s).1).1 = true
        ∧ (NativeViewGLSurfaceEGL.Resize env w s (NativeViewGLSurfaceEGL.GetSize env w s).1).2.1 = s
        ∧ (NativeViewGLSurfaceEGL.Resize env w s (NativeViewGLSurfaceEGL.GetSize env w s).1).2.2
            = { w with log :=
                  (NativeViewGLSurfaceEGL.Resize env w s
                    (NativeViewGLSurfaceEGL.GetSize env w s).1).2.2.log }
        ∧ LogOnly (fun c => !(c.isCreate || c.isDestroy)) w.log
            (NativeViewGLSurfaceEGL.Resize env w s
              (NativeViewGLSurfaceEGL.GetSize env w s).1).2.2.log
        ∧ (NativeViewGLSurfaceEGL.GetSize env
              (NativeViewGLSurfaceEGL.Resize env w s
                (NativeViewGLSurfaceEGL.GetSize env w s).1).2.2
              (NativeViewGLSurfaceEGL.Resize env w s
                (NativeViewGLSurfaceEGL.GetSize env w s).1).2.1).1
            = (NativeViewGLSurfaceEGL.GetSize env w s).1)
    ∧ (∀ s : PbufferGLSurfaceEGL, PbufferGLSurfaceEGL.Resize env w s s.GetSize = (true, s, w))
    ∧ (∀ s : SurfacelessEGL, SurfacelessEGL.Resize env w s s.GetSize = (true, s, w)) := by
  refine ⟨fun s => ?_, fun s => ?_, fun s => ?_⟩
  · have hr : NativeViewGLSurfaceEGL.Resize env w s (NativeViewGLSurfaceEGL.GetSize env w s).1
        = (true, s, (NativeViewGLSurfaceEGL.GetSize env w s).2) := by
      unfold NativeViewGLSurfaceEGL.Resize
      simp
    obtain ⟨hw, hl⟩ := NativeViewGLSurfaceEGL.GetSize_world env w s
    rw [hr]
    refine ⟨rfl, rfl, hw, hl, ?_⟩
    apply NativeViewGLSurfaceEGL.GetSize_congr
    · rw [hw]
    · rw [hw]
  · unfold PbufferGLSurfaceEGL.Resize
    simp [PbufferGLSurfaceEGL.GetSize]
  · rfl

/-! ## The offscreen factory -/

/-- C4: under the EGL backend the factory constructs the Surfaceless variant
exactly when surfaceless support is established and the size is 0x0, and the
Pbuffer variant otherwise; its result is that variant when its `Initialize`
returns true and NULL otherwise.  With support established and size (0,0) the
result is a Surfaceless surface, obtained without any native call, that is
offscreen, has size (0,0) and the handle `EGL_NO_SURFACE`. -/
theorem CreateOffscreenGLSurface_variant {σ : Type} (env : Env σ) (w : World σ) (size : Size)
    (hegl : env.GetGLImplementation = GLImplementation.kGLImplementationEGLGLES2) :
    (constructOffscreenEGL w size = GLSurface.surfaceless (SurfacelessEGL.new size)
      ↔ (w.g_egl_surfaceless_context_supported = true ∧ size.width = 0 ∧ size.height = 0))
    ∧ (¬ (w.g_egl_surfaceless_context_supported = true ∧ size.width = 0 ∧ size.height = 0)
        → constructOffscreenEGL w size = GLSurface.pbuffer (PbufferGLSurfaceEGL.new size))
    ∧ CreateOffscreenGLSurface env w size
        = (if (GLSurface.Initialize env w (constructOffscreenEGL w size)).1
           then some (GLSurface.Initialize env w (constructOffscreenEGL w size)).2.1
           else none,
           (GLSurface.Initialize env w (constructOffscreenEGL w size)).2.2)
    ∧ (w.g_egl_surfaceless_context_supported = true →
        CreateOffscreenGLSurface env w ⟨0, 0⟩
            = (some (GLSurface.surfaceless (SurfacelessEGL.new ⟨0, 0⟩)), w)
        ∧ (SurfacelessEGL.new ⟨0, 0⟩).IsOffscreen = true
        ∧ (SurfacelessEGL.new ⟨0, 0⟩).GetSize = ⟨0, 0⟩
        ∧ (SurfacelessEGL.new ⟨0, 0⟩).GetHandle = EGL_NO_SURFACE) := by
  have hc : CreateOffscreenGLSurface env w size
        = (if (GLSurface.Initialize env w (constructOffscreenEGL w size)).1
           then some (GLSurface.Initialize env w (constructOffscreenEGL w size)).2.1
           else none,
           (GLSurface.Initialize env w (constructOffscreenEGL w size)).2.2) := by
    unfold CreateOffscreenGLSurface
    simp only [hegl]
    cases (GLSurface.Initialize env w (constructOffscreenEGL w size)).1 <;> simp
  refine ⟨?_, ?_, hc, ?_⟩
  · unfold constructOffscreenEGL
    by_cases h : w.g_egl_surfaceless_context_supported = true ∧ size.width = 0 ∧ size.height = 0
    · simp [h]
    · have h2 : ¬ ((w.g_egl_surfaceless_context_supported
          && (decide (size.width = 0) && decide (size.height = 0))) = true) := by
        simpa using h
      simp [h2, h]
  · intro h
    unfold constructOffscreenEGL
    have h2 : ¬ ((w.g_egl_surfaceless_context_supported
        && (decide (size.width = 0) && decide (size.height = 0))) = true) := by
      simpa using h
    simp [h2]
  · intro hs
    refine ⟨?_, rfl, rfl, rfl⟩
    unfold CreateOffscreenGLSurface
    simp [hegl, constructOffscreenEGL, hs, GLSurface.Initialize, SurfacelessEGL.Initialize]

theorem CreateOffscreenGLSurface_variant_witness :
    simEnvSurfaceless.GetGLImplementation = GLImplementation.kGLImplementationEGLGLES2
    ∧ simWorldSurfaceless.g_egl_surfaceless_context_supported = true
    ∧ CreateOffscreenGLSurface simEnvSurfaceless simWorldSurfaceless ⟨0, 0⟩
        = (some (GLSurface.surfaceless (SurfacelessEGL.new ⟨0, 0⟩)), simWorldSurfaceless) :=
  ⟨rfl, by decide,
    ((CreateOffscreenGLSurface_variant simEnvSurfaceless simWorldSurfaceless ⟨0, 0⟩ rfl).2.2.2
      (by decide)).1⟩

/-- C5: under the EGL backend, without surfaceless support, with a valid display
and a size of positive area for which the native pbuffer creation returns a
drawable, the factory returns a Pbuffer surface that holds that drawable, whose
`GetSize` is the requested size and that is offscreen.  And in every state
`SwapBuffers` on a Pbuffer surface returns false and leaves the surface and the
process state (log included: no native call) as they were. -/
theorem CreateOffscreenGLSurface_pbuffer {σ : Type} (env : Env σ) (w : World σ) (size : Size)
    (hegl : env.GetGLImplementation = GLImplementation.kGLImplementationEGLGLES2)
    (hns : w.g_egl_surfaceless_context_supported = false)
    (harea : 0 < size.GetArea)
    (hd : w.g_display ≠ 0)
    (hc : (env.eglCreatePbufferSurface w.native w.g_display w.g_config
            [EGL_WIDTH, size.width, EGL_HEIGHT, size.height, EGL_NONE]).1 ≠ 0) :
    (∃ s w1, CreateOffscreenGLSurface env w size = (some (GLSurface.pbuffer s), w1)
        ∧ s.GetSize = size ∧ s.IsOffscreen = true
        ∧ s.GetHandle = (env.eglCreatePbufferSurface w.native w.g_display w.g_config
            [EGL_WIDTH, size.width, EGL_HEIGHT, size.height, EGL_NONE]).1)
    ∧ (∀ (w0 : World σ) (s0 : PbufferGLSurfaceEGL),
        PbufferGLSurfaceEGL.SwapBuffers env w0 s0 = (false, s0, w0)) := by
  refine ⟨?_, fun _ _ => rfl⟩
  have hi : (PbufferGLSurfaceEGL.Initialize env w (PbufferGLSurfaceEGL.new size)).1 = true :=
    (PbufferGLSurfaceEGL.Initialize_true_iff env w _).mpr
      ⟨hd, by simpa [PbufferGLSurfaceEGL.new] using (ne_of_gt harea), hc⟩
  obtain ⟨hs, -⟩ := PbufferGLSurfaceEGL.Initialize_of_true env w _ hi
  refine ⟨(PbufferGLSurfaceEGL.Initialize env w (PbufferGLSurfaceEGL.new size)).2.1,
    (PbufferGLSurfaceEGL.Initialize env w (PbufferGLSurfaceEGL.new size)).2.2, ?_, ?_, rfl, ?_⟩
  · unfold CreateOffscreenGLSurface
    simp only [hegl, constructOffscreenEGL, hns, Bool.false_and, Bool.false_eq_true, if_false,
      GLSurface.Initialize, hi, Bool.not_true]
  · rw [hs]; rfl
  · rw [hs]; rfl

theorem CreateOffscreenGLSurface_pbuffer_witness :
    simEnv.GetGLImplementation = GLImplementation.kGLImplementationEGLGLES2
    ∧ simWorld.g_egl_surfaceless_context_supported = false
    ∧ (0 : Int) < (Size.mk 800 600).GetArea
    ∧ ∃ s w1, CreateOffscreenGLSurface simEnv simWorld ⟨800, 600⟩ = (some (GLSurface.pbuffer s), w1)
        ∧ s.GetSize = ⟨800, 600⟩ ∧ s.IsOffscreen = true
        ∧ s.GetHandle = (simEnv.eglCreatePbufferSurface simWorld.native simWorld.g_display
            simWorld.g_config [EGL_WIDTH, 800, EGL_HEIGHT, 600, EGL_NONE]).1 :=
  ⟨rfl, by decide, by decide,
    (CreateOffscreenGLSurface_pbuffer simEnv simWorld ⟨800, 600⟩ rfl (by decide) (by decide)
      (by decide) (by decide)).1⟩

/-! ## The Surfaceless surface -/

theorem SurfacelessEGL.run_spec {σ : Type} (env : Env σ) (ops : List SurfacelessOp)
    (w : World σ) (s : SurfacelessEGL) :
    SurfacelessEGL.run env w s ops = (⟨lastResize s.size_ ops⟩, w) := by
  induction ops generalizing s with
  | nil => rfl
  | cons op rest ih =>
    cases op <;> simp only [SurfacelessEGL.run, SurfacelessEGL.apply, lastResize] <;> exact ih _

/-- C6: for the Surfaceless surface, in every state: `SwapBuffers` returns false,
`Resize(size)` returns true for every size and `GetSize` is then that size,
`Initialize` returns true, `Destroy` changes nothing, `GetHandle` is the
no-surface sentinel, and none of them makes a native call or touches the process
state.  After any sequence of operations on a surface constructed with `size0`,
`GetSize` is the last size passed to `Resize`, or `size0` if there was none. -/
theorem SurfacelessEGL_contract {σ : Type} (env : Env σ) :
    (∀ (w : World σ) (s : SurfacelessEGL),
        (SurfacelessEGL.SwapBuffers env w s).1 = false
        ∧ (SurfacelessEGL.SwapBuffers env w s).2 = (s, w)
        ∧ (∀ size, (SurfacelessEGL.Resize env w s size).1 = true
            ∧ (SurfacelessEGL.Resize env w s size).2.1.GetSize = size
            ∧ (SurfacelessEGL.Resize env w s size).2.2 = w)
        ∧ SurfacelessEGL.Initialize env w s = (true, s, w)
        ∧ SurfacelessEGL.Destroy env w s = (s, w)
        ∧ s.GetHandle = EGL_NO_SURFACE)
    ∧ (∀ (w : World σ) (size0 : Size) (ops : List SurfacelessOp),
        (SurfacelessEGL.run env w (SurfacelessEGL.new size0) ops).1.GetSize
            = lastResize size0 ops
        ∧ (SurfacelessEGL.run env w (SurfacelessEGL.new size0) ops).1.GetHandle = EGL_NO_SURFACE
        ∧ (SurfacelessEGL.run env w (SurfacelessEGL.new size0) ops).2 = w) := by
  refine ⟨fun w s => ⟨rfl, rfl, fun size => ⟨rfl, rfl, rfl⟩, rfl, rfl, rfl⟩, fun w size0 ops => ?_⟩
  rw [SurfacelessEGL.run_spec]
  exact ⟨rfl, rfl, rfl⟩

/-! ## Configuration selection on a low-end device -/

/-- The validation pass on a driver that counts the non-empty list `l0`. -/
theorem ValidateEglConfig_of_count {σ : Type} (env : Env σ) (w : World σ) (dpy : EGLDisplay)
    (attribs : List EGLint) (l0 : List EGLConfig) (s1 : σ)
    (hcount : env.eglChooseConfig w.native dpy attribs none = (some l0, s1))
    (hne : l0 ≠ []) :
    ValidateEglConfig env w dpy attribs
      = (true, l0.length, w.call (Call.eglChooseConfig dpy attribs none) s1) := by
  have hlen : l0.length ≠ 0 := by
    intro h; exact hne (List.length_eq_zero.mp h)
  simp [ValidateEglConfig, eglChooseConfig, hcount, chooseAnswer, hlen]

/-- The filling call on a driver that answers with the list `l`. -/
theorem eglChooseConfig_of_fill {σ : Type} (env : Env σ) (w : World σ) (dpy : EGLDisplay)
    (attribs : List EGLint) (n : Nat) (l : List EGLConfig) (s2 : σ)
    (hfill : env.eglChooseConfig w.native dpy attribs (some n) = (some l, s2)) :
    eglChooseConfig env w dpy attribs (some n)
      = (some (l.take n, (l.take n).length),
         w.call (Call.eglChooseConfig dpy attribs (some n)) s2) := by
  simp [eglChooseConfig, hfill, chooseAnswer]

theorem selectConfig_lowEnd_exact {σ : Type} (env : Env σ) (w : World σ)
    (hlow : lowEnd env = true) (l0 l : List EGLConfig) (s1 s2 : σ)
    (hcount : env.eglChooseConfig w.native w.g_display (chosenAttribs env) none = (some l0, s1))
    (hne : l0 ≠ [])
    (henum : env.eglChooseConfig s1 w.g_display (chosenAttribs env) (some l0.length)
      = (some l, s2))
    (c0 : EGLConfig)
    (hfind : (l.take l0.length).find? (exact565 env s2 w.g_display) = some c0) :
    (selectConfig env w).1 = some ()
    ∧ (selectConfig env w).2.g_config = c0
    ∧ ∃ rest, (selectConfig env w).2.log
        = w.log ++ Call.eglChooseConfig w.g_display (chosenAttribs env) none
            :: Call.eglChooseConfig w.g_display (chosenAttribs env) (some l0.length) :: rest := by
  have hv := ValidateEglConfig_of_count env w w.g_display (chosenAttribs env) l0 s1 hcount hne
  have hr := eglChooseConfig_of_fill env
    (w.call (Call.eglChooseConfig w.g_display (chosenAttribs env) none) s1) w.g_display
    (chosenAttribs env) l0.length l s2 henum
  have hf := findExact565_spec env (l.take l0.length)
    ((w.call (Call.eglChooseConfig w.g_display (chosenAttribs env) none) s1).call
      (Call.eglChooseConfig w.g_display (chosenAttribs env) (some l0.length)) s2)
  obtain ⟨hf1, ⟨d, hd, -⟩, -⟩ := hf
  simp only [World.call] at hf1 hd hr hv
  rw [hfind] at hf1
  unfold selectConfig
  simp only [hv, hlow, if_true, Bool.not_true, Bool.false_eq_true, if_false, World.call, hr,
    List.take_length, hf1]
  refine ⟨trivial, trivial, d, ?_⟩
  rw [hd]
  simp

/-- The value `InitializeOneOff` returns, phase by phase, when it starts
uninitialised. -/
theorem InitializeOneOff_result {σ : Type} (env : Env σ) (w : World σ)
    (hi : w.initialized = false) :
    (InitializeOneOff env w).result
      = match (openDisplay env w).1 with
        | none => some false
        | some _ =>
          match (selectConfig env (openDisplay env w).2).1 with
          | none => some false
          | some _ =>
            match (probeExtensions env (selectConfig env (openDisplay env w).2).2).1 with
            | none => none
            | some _ => some true := by
  unfold InitializeOneOff
  simp only [hi, Bool.false_eq_true, if_false]
  cases (openDisplay env w).1 with
  | none => rfl
  | some u =>
    simp only
    cases (selectConfig env (openDisplay env w).2).1 with
    | none => rfl
    | some u2 =>
      simp only
      cases (probeExtensions env (selectConfig env (openDisplay env w).2).2).1 <;> rfl

/-- Once the display is open and a configuration is selected, the rest of
`InitializeOneOff` keeps `g_config` and only adds probe calls to the log. -/
theorem InitializeOneOff_after_select {σ : Type} (env : Env σ) (w : World σ)
    (hi : w.initialized = false) (ho : (openDisplay env w).1 = some ())
    (hs : (selectConfig env (openDisplay env w).2).1 = some ()) :
    (InitializeOneOff env w).world.g_config = (selectConfig env (openDisplay env w).2).2.g_config
    ∧ LogOnly Call.isProbe (selectConfig env (openDisplay env w).2).2.log
        (InitializeOneOff env w).world.log
    ∧ (InitializeOneOff env w).result ≠ some false := by
  have hp := probeExtensions_frame env (selectConfig env (openDisplay env w).2).2
  have hl := probeExtensions_only env (selectConfig env (openDisplay env w).2).2
  refine ⟨?_, ?_, ?_⟩
  · unfold InitializeOneOff
    simp only [hi, Bool.false_eq_true, if_false, ho, hs]
    cases (probeExtensions env (selectConfig env (openDisplay env w).2).2).1 <;>
      simp [Outcome.world, hp.2.1]
  · unfold InitializeOneOff
    simp only [hi, Bool.false_eq_true, if_false, ho, hs]
    cases (probeExtensions env (selectConfig env (openDisplay env w).2).2).1 <;>
      simpa [Outcome.world] using hl
  · rw [InitializeOneOff_result env w hi, ho, hs]
    simp only
    cases (probeExtensions env (selectConfig env (openDisplay env w).2).2).1 <;> simp

/-- C7: on a low-end device, once the display is open (state `w1`), suppose the
validation pass counts a non-empty list `l0` for the 565 attribute list, the
enumeration answers with `l`, and some enumerated candidate has red 5, green 6,
blue 5 with all three queries succeeding.  Then `InitializeOneOff` asks the
enumeration for `l0.length` configurations, as many as the validation pass
counted; it does not return false; and `g_config` is the first enumerated
candidate, in the order of the native API, that is exact: every candidate before
it differs in a width or fails a query, and the selected one has widths
(5,6,5). -/
theorem InitializeOneOff_exact_565 {σ : Type} (env : Env σ) (w w1 : World σ)
    (hlow : lowEnd env = true) (hi : w.initialized = false)
    (hopen : (openDisplay env w).1 = some ()) (hw1 : w1 = (openDisplay env w).2)
    (l0 l : List EGLConfig) (s1 s2 : σ)
    (hcount : env.eglChooseConfig w1.native w1.g_display (chosenAttribs env) none = (some l0, s1))
    (hne : l0 ≠ [])
    (henum : env.eglChooseConfig s1 w1.g_display (chosenAttribs env) (some l0.length)
      = (some l, s2))
    (c : EGLConfig) (hc : c ∈ l.take l0.length)
    (hexact : exact565 env s2 w1.g_display c = true) :
    chosenAttribs env
        = (if env.USE_OZONE then env.GetEGLSurfaceProperties config_attribs_565
           else config_attribs_565)
    ∧ ∃ pre c0 post rest,
      l.take l0.length = pre ++ c0 :: post
      ∧ (∀ x ∈ pre, exact565 env s2 w1.g_display x = false)
      ∧ env.eglGetConfigAttrib s2 w1.g_display c0 EGL_RED_SIZE = some 5
      ∧ env.eglGetConfigAttrib s2 w1.g_display c0 EGL_GREEN_SIZE = some 6
      ∧ env.eglGetConfigAttrib s2 w1.g_display c0 EGL_BLUE_SIZE = some 5
      ∧ (InitializeOneOff env w).world.g_config = c0
      ∧ (InitializeOneOff env w).result ≠ some false
      ∧ (InitializeOneOff env w).world.log
          = w1.log ++ Call.eglChooseConfig w1.g_display (chosenAttribs env) none
              :: Call.eglChooseConfig w1.g_display (chosenAttribs env) (some l0.length) :: rest := by
  refine ⟨by simp [chosenAttribs, hlow], ?_⟩
  have hsome : ((l.take l0.length).find? (exact565 env s2 w1.g_display)).isSome = true := by
    rw [List.find?_isSome]
    exact ⟨c, hc, hexact⟩
  obtain ⟨c0, hfind⟩ := Option.isSome_iff_exists.mp hsome
  obtain ⟨hp, pre, post, hsplit, hpre⟩ := List.find?_eq_some.mp hfind
  obtain ⟨hs1, hs2, rest, hs3⟩ :=
    selectConfig_lowEnd_exact env w1 hlow l0 l s1 s2 hcount hne henum c0 hfind
  subst hw1
  obtain ⟨hg, ⟨d, hd, -⟩, hr⟩ := InitializeOneOff_after_select env w hi hopen hs1
  have hp2 := hp
  simp only [exact565, decide_eq_true_eq] at hp2
  refine ⟨pre, c0, post, rest ++ d, hsplit, ?_, hp2.1, hp2.2.1, hp2.2.2, ?_, hr, ?_⟩
  · intro x hx
    simpa using hpre x hx
  · rw [hg, hs2]
  · rw [hd, hs3]
    simp

theorem InitializeOneOff_exact_565_witness :
    lowEnd simEnvLowEnd = true
    ∧ (5 : EGLConfig) ∈ List.take 2 [8, 5]
    ∧ exact565 simEnvLowEnd Sim.start 1 5 = true
    ∧ exact565 simEnvLowEnd Sim.start 1 8 = false
    ∧ (InitializeOneOff simEnvLowEnd (World.start Sim.start)).world.g_config = 5
    ∧ (InitializeOneOff simEnvLowEnd (World.start Sim.start)).result ≠ some false :=
  ⟨by decide, by decide, by decide, by decide, by decide,
    match InitializeOneOff_exact_565 simEnvLowEnd (World.start Sim.start)
        (openDisplay simEnvLowEnd (World.start Sim.start)).2 (by decide) rfl (by decide) rfl
        [8, 5] [8, 5] Sim.start Sim.start rfl (by decide) rfl 5 (by decide) (by decide) with
    | ⟨_, _, _, _, _, _, _, _, _, _, _, hr, _⟩ => hr⟩

/-- When the extension is advertised and a context is obtained, the probe
completes; surfaceless support is then established exactly when the context is
made current and reports `GL_OES_surfaceless_context`, and a context that was
made current is released. -/
theorem probeExtensions_of_context {σ : Type} (env : Env σ) (w : World σ) (context : GLContext)
    (hadv : env.ExtensionsContain (env.eglQueryString w.native w.g_display EGL_EXTENSIONS)
      "EGL_KHR_surfaceless_context" = true)
    (hctx : (env.CreateGLContext w.native EGL_NO_SURFACE).1 = some context) :
    (probeExtensions env w).1 = some ()
    ∧ (probeExtensions env w).2.g_egl_surfaceless_context_supported
        = ((env.MakeCurrent (env.CreateGLContext w.native EGL_NO_SURFACE).2 context
              EGL_NO_SURFACE).1
            && env.HasExtension
                (env.MakeCurrent (env.CreateGLContext w.native EGL_NO_SURFACE).2 context
                  EGL_NO_SURFACE).2
                context "GL_OES_surfaceless_context")
    ∧ ((env.MakeCurrent (env.CreateGLContext w.native EGL_NO_SURFACE).2 context
          EGL_NO_SURFACE).1 = true
        → Call.ReleaseCurrent context EGL_NO_SURFACE ∈ (probeExtensions env w).2.log) := by
  unfold probeExtensions
  simp only [World.call, hadv, if_true, hctx]
  cases hm : (env.MakeCurrent (env.CreateGLContext w.native EGL_NO_SURFACE).2 context
      EGL_NO_SURFACE).1 <;> simp [hadv]

/-- C10: a driver advertises `EGL_KHR_surfaceless_context` and its context
creation fails, `CreateGLContext` returning NULL.  `InitializeOneOff` then calls
`MakeCurrent` through the null context: the run does not return, the
`initialized` flag stays clear and surfaceless support is left set, where the
claim has the call return true with support demoted. -/
theorem InitializeOneOff_null_context :
    simEnvNoContext.ExtensionsContain
        (simEnvNoContext.eglQueryString Sim.start 1 EGL_EXTENSIONS)
        "EGL_KHR_surfaceless_context" = true
    ∧ (simEnvNoContext.CreateGLContext Sim.start EGL_NO_SURFACE).1 = none
    ∧ (InitializeOneOff simEnvNoContext (World.start Sim.start)).result = none
    ∧ (InitializeOneOff simEnvNoContext (World.start Sim.start)).world.initialized = false
    ∧ (InitializeOneOff simEnvNoContext
        (World.start Sim.start)).world.g_egl_surfaceless_context_supported = true := by
  decide

/-! ## Destroy -/

/-- C17: `Destroy` on a Windowed and on a Pbuffer surface, for every driver and
so whatever `eglDestroySurface` returns.  After `Destroy` the handle is null and
nothing else of the surface has changed.  On a surface whose handle is already
null it makes no native call and changes nothing.  A second `Destroy` changes
nothing, so two calls in a row leave what one call leaves, and for a surface
that held a drawable their log holds exactly one call, the `eglDestroySurface`
of that drawable. -/
theorem Destroy_idempotent {σ : Type} (env : Env σ) (w : World σ) :
    (∀ s : NativeViewGLSurfaceEGL,
        (NativeViewGLSurfaceEGL.Destroy env w s).1.GetHandle = 0
        ∧ (NativeViewGLSurfaceEGL.Destroy env w s).1 = { s with surface_ := 0 }
        ∧ (s.GetHandle = 0 → NativeViewGLSurfaceEGL.Destroy env w s = (s, w))
        ∧ NativeViewGLSurfaceEGL.Destroy env (NativeViewGLSurfaceEGL.Destroy env w s).2
            (NativeViewGLSurfaceEGL.Destroy env w s).1 = NativeViewGLSurfaceEGL.Destroy env w s
        ∧ (s.GetHandle ≠ 0 →
            (NativeViewGLSurfaceEGL.Destroy env (NativeViewGLSurfaceEGL.Destroy env w s).2
              (NativeViewGLSurfaceEGL.Destroy env w s).1).2.log
              = w.log ++ [Call.eglDestroySurface w.g_display s.GetHandle]))
    ∧ (∀ s : PbufferGLSurfaceEGL,
        (PbufferGLSurfaceEGL.Destroy env w s).1.GetHandle = 0
        ∧ (PbufferGLSurfaceEGL.Destroy env w s).1 = { s with surface_ := 0 }
        ∧ (s.GetHandle = 0 → PbufferGLSurfaceEGL.Destroy env w s = (s, w))
        ∧ PbufferGLSurfaceEGL.Destroy env (PbufferGLSurfaceEGL.Destroy env w s).2
            (PbufferGLSurfaceEGL.Destroy env w s).1 = PbufferGLSurfaceEGL.Destroy env w s
        ∧ (s.GetHandle ≠ 0 →
            (PbufferGLSurfaceEGL.Destroy env (PbufferGLSurfaceEGL.Destroy env w s).2
              (PbufferGLSurfaceEGL.Destroy env w s).1).2.log
              = w.log ++ [Call.eglDestroySurface w.g_display s.GetHandle])) := by
  constructor
  · intro s
    by_cases h : s.surface_ = 0
    · have hs : ({ s with surface_ := 0 } : NativeViewGLSurfaceEGL) = s := by
        cases s; simp_all
      simp [NativeViewGLSurfaceEGL.Destroy, NativeViewGLSurfaceEGL.GetHandle, h, hs]
    · simp [NativeViewGLSurfaceEGL.Destroy, NativeViewGLSurfaceEGL.GetHandle, h, World.call]
  · intro s
    by_cases h : s.surface_ = 0
    · have hs : ({ s with surface_ := 0 } : PbufferGLSurfaceEGL) = s := by
        cases s; simp_all
      simp [PbufferGLSurfaceEGL.Destroy, PbufferGLSurfaceEGL.GetHandle, h, hs]
    · simp [PbufferGLSurfaceEGL.Destroy, PbufferGLSurfaceEGL.GetHandle, h, World.call]

/-! ## PbufferGLSurfaceEGL: failure of Initialize -/

/-- A failed `Initialize` leaves the Pbuffer surface as it was and destroys
nothing. -/
theorem PbufferGLSurfaceEGL.Initialize_of_false {σ : Type} (env : Env σ) (w : World σ)
    (s : PbufferGLSurfaceEGL) (h : (PbufferGLSurfaceEGL.Initialize env w s).1 = false) :
    (PbufferGLSurfaceEGL.Initialize env w s).2.1 = s
    ∧ LogOnly (fun c => !c.isDestroy) w.log (PbufferGLSurfaceEGL.Initialize env w s).2.2.log := by
  unfold PbufferGLSurfaceEGL.Initialize at h ⊢
  simp only [World.call] at h ⊢
  split
  · exact ⟨rfl, LogOnly.refl _ _⟩
  · split
    · exact ⟨rfl, LogOnly.refl _ _⟩
    · split
      · exact ⟨rfl, ⟨_, rfl, by simp [Call.isDestroy]⟩⟩
      · rename_i h1 h2 h3
        simp [h1, h2, h3] at h

/-- C15: a Pbuffer surface whose stored size has zero area: `Initialize` returns
false and leaves the surface and the process state, log included, as they were,
so no drawable is created or destroyed and the handle is unchanged.  With a
valid display and a size of positive area, `Initialize` makes the native
creation with exactly the stored width and height, and returns true exactly when
that creation returns a drawable. -/
theorem PbufferGLSurfaceEGL.Initialize_area {σ : Type} (env : Env σ) (w : World σ)
    (s : PbufferGLSurfaceEGL) :
    (s.size_.width * s.size_.height = 0 → PbufferGLSurfaceEGL.Initialize env w s = (false, s, w))
    ∧ (w.g_display ≠ 0 → 0 < s.size_.width * s.size_.height →
        ((PbufferGLSurfaceEGL.Initialize env w s).1 = true
          ↔ (env.eglCreatePbufferSurface w.native w.g_display w.g_config
              [EGL_WIDTH, s.size_.width, EGL_HEIGHT, s.size_.height, EGL_NONE]).1 ≠ 0)
        ∧ ∃ rest,
            (PbufferGLSurfaceEGL.Initialize env w s).2.2.log
              = w.log ++ Call.eglCreatePbufferSurface w.g_display w.g_config
                  [EGL_WIDTH, s.size_.width, EGL_HEIGHT, s.size_.height, EGL_NONE] :: rest
            ∧ ∀ c ∈ rest, c.isCreate = false) := by
  constructor
  · intro ha
    unfold PbufferGLSurfaceEGL.Initialize
    simp only [Size.GetArea, ha, if_true]
    split <;> rfl
  · intro hd ha
    have hne : s.size_.GetArea ≠ 0 := ne_of_gt ha
    constructor
    · rw [PbufferGLSurfaceEGL.Initialize_true_iff]
      simp [hd, hne, PbufferGLSurfaceEGL.pbuffer_attribs]
    · unfold PbufferGLSurfaceEGL.Initialize
      simp only [hd, hne, if_false, World.call, PbufferGLSurfaceEGL.pbuffer_attribs]
      split
      · exact ⟨[], by simp, by simp⟩
      · split
        · exact ⟨[Call.eglDestroySurface w.g_display s.surface_], by simp,
            by simp [Call.isCreate]⟩
        · exact ⟨[], by simp, by simp⟩

/-! ## PbufferGLSurfaceEGL: failure of Resize -/

/-- The result of `Resize` to another size is the result of `Initialize` on the
surface with the new size stored. -/
theorem PbufferGLSurfaceEGL.Resize_result {σ : Type} (env : Env σ) (w : World σ)
    (s : PbufferGLSurfaceEGL) (size : Size) (hne : size ≠ s.size_) :
    ∃ w1 : World σ,
      w1.g_display = w.g_display ∧ w1.g_config = w.g_config
      ∧ LogOnly Call.isContextOp w.log w1.log
      ∧ (PbufferGLSurfaceEGL.Resize env w s size).1
          = (PbufferGLSurfaceEGL.Initialize env w1 { s with size_ := size }).1
      ∧ (PbufferGLSurfaceEGL.Resize env w s size).2.1
          = (PbufferGLSurfaceEGL.Initialize env w1 { s with size_ := size }).2.1
      ∧ LogOnly Call.isContextOp
          (PbufferGLSurfaceEGL.Initialize env w1 { s with size_ := size }).2.2.log
          (PbufferGLSurfaceEGL.Resize env w s size).2.2.log := by
  unfold PbufferGLSurfaceEGL.Resize
  simp only [hne, if_false]
  cases hg : wasCurrent env w.native s.GetHandle with
  | none =>
    exact ⟨w, rfl, rfl, LogOnly.refl _ _, rfl, rfl, LogOnly.refl _ _⟩
  | some c =>
    exact ⟨w.call (Call.ScopedMakeCurrent_ctor c s.GetHandle)
        (env.ScopedMakeCurrent_ctor w.native c s.GetHandle), rfl, rfl,
      ⟨[Call.ScopedMakeCurrent_ctor c s.GetHandle], rfl, by simp [Call.isContextOp]⟩, rfl, rfl,
      ⟨_, rfl, by simp [Call.isContextOp]⟩⟩

theorem LogOnly.mono {q p : Call → Bool} {l1 l2 : List Call} (h : LogOnly q l1 l2)
    (hqp : ∀ c, q c = true → p c = true) : LogOnly p l1 l2 := by
  obtain ⟨d, hd, hq⟩ := h
  exact ⟨d, hd, fun c hc => hqp c (hq c hc)⟩

/-- A failed `Resize` to another size: the new size is stored, the handle is
the old one and nothing was destroyed. -/
theorem PbufferGLSurfaceEGL.Resize_of_false {σ : Type} (env : Env σ) (w : World σ)
    (s : PbufferGLSurfaceEGL) (size : Size) (hne : size ≠ s.size_)
    (hfail : (PbufferGLSurfaceEGL.Resize env w s size).1 = false) :
    (PbufferGLSurfaceEGL.Resize env w s size).2.1 = { s with size_ := size }
    ∧ LogOnly (fun c => !c.isDestroy) w.log (PbufferGLSurfaceEGL.Resize env w s size).2.2.log := by
  obtain ⟨w1, -, -, hl1, hr, hs, hl2⟩ := PbufferGLSurfaceEGL.Resize_result env w s size hne
  rw [hr] at hfail
  obtain ⟨hi, hli⟩ := PbufferGLSurfaceEGL.Initialize_of_false env w1 _ hfail
  have hctx : ∀ c, Call.isContextOp c = true → (!c.isDestroy) = true := by
    intro c; cases c <;> simp [Call.isContextOp, Call.isDestroy]
  refine ⟨by rw [hs, hi], ?_⟩
  exact ((hl1.mono hctx).trans hli).trans (hl2.mono hctx)

/-- C20: a Pbuffer surface with size `s_old` and handle `h_old`; `Resize` to a
different size `s_new` returns false.  Then `GetSize` is `s_new`, `GetHandle` is
still `h_old`, the log of the call holds no `eglDestroySurface`, and a second
`Resize(s_new)` returns true and changes nothing: it makes no call, so no
drawable of the new size is created. -/
theorem PbufferGLSurfaceEGL.Resize_not_atomic {σ : Type} (env : Env σ) (w : World σ)
    (s : PbufferGLSurfaceEGL) (size : Size) (hne : size ≠ s.GetSize)
    (hfail : (PbufferGLSurfaceEGL.Resize env w s size).1 = false) :
    (PbufferGLSurfaceEGL.Resize env w s size).2.1.GetSize = size
    ∧ (PbufferGLSurfaceEGL.Resize env w s size).2.1.GetSize ≠ s.GetSize
    ∧ (PbufferGLSurfaceEGL.Resize env w s size).2.1.GetHandle = s.GetHandle
    ∧ LogOnly (fun c => !c.isDestroy) w.log (PbufferGLSurfaceEGL.Resize env w s size).2.2.log
    ∧ PbufferGLSurfaceEGL.Resize env (PbufferGLSurfaceEGL.Resize env w s size).2.2
        (PbufferGLSurfaceEGL.Resize env w s size).2.1 size
        = (true, (PbufferGLSurfaceEGL.Resize env w s size).2.1,
            (PbufferGLSurfaceEGL.Resize env w s size).2.2) := by
  obtain ⟨hs, hl⟩ := PbufferGLSurfaceEGL.Resize_of_false env w s size hne hfail
  refine ⟨by rw [hs]; rfl, by rw [hs]; exact hne, by rw [hs]; rfl, hl, ?_⟩
  rw [hs]
  simp [PbufferGLSurfaceEGL.Resize]

theorem PbufferGLSurfaceEGL.Resize_not_atomic_witness :
    (Size.mk 0 5) ≠ simPbuffer.1.GetSize
    ∧ (PbufferGLSurfaceEGL.Resize simEnv simPbuffer.2 simPbuffer.1 ⟨0, 5⟩).1 = false
    ∧ (PbufferGLSurfaceEGL.Resize simEnv simPbuffer.2 simPbuffer.1 ⟨0, 5⟩).2.1.GetSize = ⟨0, 5⟩
    ∧ (PbufferGLSurfaceEGL.Resize simEnv simPbuffer.2 simPbuffer.1 ⟨0, 5⟩).2.1.GetHandle
        = simPbuffer.1.GetHandle :=
  ⟨by decide, by decide,
    (PbufferGLSurfaceEGL.Resize_not_atomic simEnv simPbuffer.2 simPbuffer.1 ⟨0, 5⟩
      (by decide) (by decide)).1,
    (PbufferGLSurfaceEGL.Resize_not_atomic simEnv simPbuffer.2 simPbuffer.1 ⟨0, 5⟩
      (by decide) (by decide)).2.2.1⟩

/-- C14, as stated, fails: the 4x4 pbuffer of the reference driver holds the
live drawable 1; `Resize` to 0x5 fails on the zero area and returns false, and
afterwards `GetHandle` is still 1, not null, drawable 1 is still live and the
log holds no `eglDestroySurface`. -/
theorem PbufferGLSurfaceEGL.Resize_failure_counterexample :
    simPbuffer.1.GetHandle = 1
    ∧ simEnv.isLive simPbuffer.2.native 1 = true
    ∧ (PbufferGLSurfaceEGL.Resize simEnv simPbuffer.2 simPbuffer.1 ⟨0, 5⟩).1 = false
    ∧ (PbufferGLSurfaceEGL.Resize simEnv simPbuffer.2 simPbuffer.1 ⟨0, 5⟩).2.1.GetHandle = 1
    ∧ simEnv.isLive (PbufferGLSurfaceEGL.Resize simEnv simPbuffer.2 simPbuffer.1 ⟨0, 5⟩).2.2.native
        1 = true
    ∧ (PbufferGLSurfaceEGL.Resize simEnv simPbuffer.2 simPbuffer.1 ⟨0, 5⟩).2.2.log.countP
        Call.isDestroy = 0 := by
  decide

/-- C14, amended: for a Pbuffer surface, `Resize` to a different size returns
false exactly when the re-creation of the drawable fails: the display is null,
the new size has zero area, or the native creation, in the driver state in which
`Resize` calls `Initialize`, returns no drawable.  Whenever it returns false the
surface keeps the drawable it held: `GetHandle` is the old handle and the log of
the call holds no `eglDestroySurface`. -/
theorem PbufferGLSurfaceEGL.Resize_failure_keeps_drawable {σ : Type} (env : Env σ)
    (w : World σ) (s : PbufferGLSurfaceEGL) (size : Size) (hne : size ≠ s.GetSize) :
    ((PbufferGLSurfaceEGL.Resize env w s size).1 = false ↔
        (w.g_display = 0 ∨ size.width * size.height = 0
          ∨ (env.eglCreatePbufferSurface (PbufferGLSurfaceEGL.stateAtInitialize env w s)
              w.g_display w.g_config
              [EGL_WIDTH, size.width, EGL_HEIGHT, size.height, EGL_NONE]).1 = 0))
    ∧ ((PbufferGLSurfaceEGL.Resize env w s size).1 = false →
        (PbufferGLSurfaceEGL.Resize env w s size).2.1.GetHandle = s.GetHandle
        ∧ LogOnly (fun c => !c.isDestroy) w.log
            (PbufferGLSurfaceEGL.Resize env w s size).2.2.log) := by
  have hne' : size ≠ s.size_ := hne
  have hiff : (PbufferGLSurfaceEGL.Resize env w s size).1 = true ↔
      (w.g_display ≠ 0 ∧ size.width * size.height ≠ 0
        ∧ (env.eglCreatePbufferSurface (PbufferGLSurfaceEGL.stateAtInitialize env w s)
            w.g_display w.g_config
            [EGL_WIDTH, size.width, EGL_HEIGHT, size.height, EGL_NONE]).1 ≠ 0) := by
    unfold PbufferGLSurfaceEGL.Resize PbufferGLSurfaceEGL.stateAtInitialize
    simp only [hne', if_false]
    cases hg : wasCurrent env w.native s.GetHandle with
    | none => exact PbufferGLSurfaceEGL.Initialize_true_iff env w { s with size_ := size }
    | some c =>
      exact PbufferGLSurfaceEGL.Initialize_true_iff env
        (w.call (Call.ScopedMakeCurrent_ctor c s.GetHandle)
          (env.ScopedMakeCurrent_ctor w.native c s.GetHandle)) { s with size_ := size }
  refine ⟨?_, fun hfail => ?_⟩
  · rw [← Bool.not_eq_true, hiff]
    tauto
  · obtain ⟨hs, hl⟩ := PbufferGLSurfaceEGL.Resize_of_false env w s size hne hfail
    exact ⟨by rw [hs]; rfl, hl⟩

theorem PbufferGLSurfaceEGL.Resize_failure_keeps_drawable_witness :
    (Size.mk 8 8) ≠ simPbufferOne.1.GetSize
    ∧ simPbufferOne.1.GetHandle = 1
    ∧ (simEnvOneDrawable.eglCreatePbufferSurface Sim.start 1 8
        [EGL_WIDTH, 8, EGL_HEIGHT, 8, EGL_NONE]).1 ≠ 0
    ∧ (simEnvOneDrawable.eglCreatePbufferSurface
        (PbufferGLSurfaceEGL.stateAtInitialize simEnvOneDrawable simPbufferOne.2 simPbufferOne.1)
        simPbufferOne.2.g_display simPbufferOne.2.g_config
        [EGL_WIDTH, 8, EGL_HEIGHT, 8, EGL_NONE]).1 = 0
    ∧ (PbufferGLSurfaceEGL.Resize simEnvOneDrawable simPbufferOne.2 simPbufferOne.1 ⟨8, 8⟩).1
        = false
    ∧ (PbufferGLSurfaceEGL.Resize simEnvOneDrawable simPbufferOne.2 simPbufferOne.1
        ⟨8, 8⟩).2.1.GetHandle = simPbufferOne.1.GetHandle :=
  ⟨by decide, by decide, by decide, by decide,
    (PbufferGLSurfaceEGL.Resize_failure_keeps_drawable simEnvOneDrawable simPbufferOne.2
      simPbufferOne.1 ⟨8, 8⟩ (by decide)).1.mpr (Or.inr (Or.inr (by decide))),
    ((PbufferGLSurfaceEGL.Resize_failure_keeps_drawable simEnvOneDrawable simPbufferOne.2
      simPbufferOne.1 ⟨8, 8⟩ (by decide)).2 (by decide)).1⟩

/-! ## NativeViewGLSurfaceEGL: Initialize -/

namespace NativeViewGLSurfaceEGL

/-- The configuration lookup changes `config_` only, keeps the globals and
makes only reading calls. -/
theorem GetConfig_frame {σ : Type} (env : Env σ) (w : World σ) (s : NativeViewGLSurfaceEGL) :
    (GetConfig env w s).2.1 = { s with config_ := (GetConfig env w s).2.1.config_ }
    ∧ (GetConfig env w s).2.2.g_display = w.g_display
    ∧ (GetConfig env w s).2.2.g_egl_sync_control_supported = w.g_egl_sync_control_supported
    ∧ LogOnly Call.isLookup w.log (GetConfig env w s).2.2.log := by
  unfold GetConfig
  simp only [eglChooseConfig_world, World.call]
  repeat' (first
    | exact ⟨rfl, rfl, rfl, LogOnly.refl _ _⟩
    | (refine ⟨rfl, rfl, rfl, ?_⟩
       simp only [List.append_assoc]
       exact ⟨_, rfl, by simp [Call.isLookup]⟩)
    | split)

/-- What `Initialize` does, case by case: the two early returns, the failed
creation and the successful one. -/
theorem Initialize_spec {σ : Type} (env : Env σ) (w : World σ) (s : NativeViewGLSurfaceEGL)
    (p : Option VSyncProvider) :
    (s.window_ = 0 ∨ w.g_display = 0 → Initialize env w s p = (false, s, w))
    ∧ (s.window_ ≠ 0 → w.g_display ≠ 0 → (created env w s).1 = 0 →
        Initialize env w s p
          = (false, { (GetConfig env w s).2.1 with surface_ := 0 },
              (GetConfig env w s).2.2.call
                (Call.eglCreateWindowSurface w.g_display (GetConfig env w s).1 s.window_
                  (createAttribs env))
                (created env w s).2))
    ∧ (s.window_ ≠ 0 → w.g_display ≠ 0 → (created env w s).1 ≠ 0 →
        (Initialize env w s p).1 = true
        ∧ (Initialize env w s p).2.1
            = { (GetConfig env w s).2.1 with
                surface_ := (created env w s).1,
                supports_post_sub_buffer_ :=
                  capability env (created env w s).2 w.g_display (created env w s).1,
                vsync_provider_ :=
                  match p with
                  | some q => some q
                  | none =>
                    if w.g_egl_sync_control_supported
                    then some (VSyncProvider.eglSyncControl (created env w s).1)
                    else s.vsync_provider_ }
        ∧ (Initialize env w s p).2.2.native = (created env w s).2
        ∧ (Initialize env w s p).2.2.log
            = (GetConfig env w s).2.2.log
                ++ [Call.eglCreateWindowSurface w.g_display (GetConfig env w s).1 s.window_
                      (createAttribs env),
                    Call.eglQuerySurface w.g_display (created env w s).1
                      EGL_POST_SUB_BUFFER_SUPPORTED_NV]) := by
  obtain ⟨hs, hd, hsync, -⟩ := GetConfig_frame env w s
  have hwin : (GetConfig env w s).2.1.window_ = s.window_ := by rw [hs]
  have hvs : (GetConfig env w s).2.1.vsync_provider_ = s.vsync_provider_ := by rw [hs]
  refine ⟨?_, ?_, ?_⟩
  · intro h
    unfold Initialize
    rcases h with h | h
    · simp [h, kNullAcceleratedWidget]
    · by_cases hw : s.window_ = kNullAcceleratedWidget <;> simp [hw, h]
  · intro h1 h2 h3
    have h3c := h3
    unfold created createAttribs at h3c
    rw [hd, hwin] at h3c
    unfold Initialize
    simp only [kNullAcceleratedWidget, h1, h2, if_false, hd, hwin, h3c, if_true, Destroy,
      ne_eq, not_true_eq_false, World.call, created, createAttribs]
  · intro h1 h2 h3
    have h3c := h3
    unfold created createAttribs at h3c
    rw [hd, hwin] at h3c
    unfold Initialize
    simp only [kNullAcceleratedWidget, h1, h2, if_false, hd, hwin, h3c, World.call, created,
      createAttribs, capability, hsync, hvs]
    refine ⟨trivial, ?_, trivial, ?_⟩
    · cases p with
      | some q => rfl
      | none =>
        simp only
        split <;> simp [hvs]
    · simp

/-- The shape of an `Initialize` on a surface without drawable: the window is
kept; a false result leaves the handle null; a true result leaves the handle of
the creation, which is not null; and the log gains reading calls followed by at
most one creation on the window of the surface and the capability query. -/
theorem Initialize_shape {σ : Type} (env : Env σ) (w : World σ) (s : NativeViewGLSurfaceEGL)
    (p : Option VSyncProvider) (h0 : s.surface_ = 0) :
    (Initialize env w s p).2.1.window_ = s.window_
    ∧ ((Initialize env w s p).1 = false → (Initialize env w s p).2.1.surface_ = 0)
    ∧ ((Initialize env w s p).1 = true →
        (Initialize env w s p).2.1.surface_ ≠ 0
        ∧ (Initialize env w s p).2.1.surface_ = (created env w s).1
        ∧ s.window_ ≠ 0 ∧ w.g_display ≠ 0)
    ∧ ∃ dl tail,
        (Initialize env w s p).2.2.log = w.log ++ dl ++ tail
        ∧ (∀ c ∈ dl, c.isLookup = true)
        ∧ (tail = []
            ∨ tail = [Call.eglCreateWindowSurface w.g_display (GetConfig env w s).1 s.window_
                        (createAttribs env)]
            ∨ tail = [Call.eglCreateWindowSurface w.g_display (GetConfig env w s).1 s.window_
                        (createAttribs env),
                      Call.eglQuerySurface w.g_display (created env w s).1
                        EGL_POST_SUB_BUFFER_SUPPORTED_NV])
        ∧ ((Initialize env w s p).1 = true →
            tail = [Call.eglCreateWindowSurface w.g_display (GetConfig env w s).1 s.window_
                      (createAttribs env),
                    Call.eglQuerySurface w.g_display (created env w s).1
                      EGL_POST_SUB_BUFFER_SUPPORTED_NV]) := by
  obtain ⟨hA, hB, hC⟩ := Initialize_spec env w s p
  obtain ⟨hs, -, -, dl, hdl, hlook⟩ := GetConfig_frame env w s
  have hwin : (GetConfig env w s).2.1.window_ = s.window_ := by rw [hs]
  by_cases hw : s.window_ = 0 ∨ w.g_display = 0
  · rw [hA hw]
    exact ⟨rfl, fun _ => h0, fun h => by simp at h, [], [], by simp, by simp, Or.inl rfl,
      fun h => by simp at h⟩
  · have h1 : s.window_ ≠ 0 := fun h => hw (Or.inl h)
    have h2 : w.g_display ≠ 0 := fun h => hw (Or.inr h)
    by_cases hc : (created env w s).1 = 0
    · rw [hB h1 h2 hc]
      refine ⟨hwin, fun _ => rfl, fun h => by simp at h, dl, _, ?_, hlook, Or.inr (Or.inl rfl),
        fun h => by simp at h⟩
      simp [World.call, hdl]
    · obtain ⟨hr, hsurf, -, hlog⟩ := hC h1 h2 hc
      refine ⟨by rw [hsurf]; exact hwin, fun h => by rw [hr] at h; simp at h,
        fun _ => ⟨by rw [hsurf]; exact hc, by rw [hsurf], h1, h2⟩, dl, _, ?_, hlook,
        Or.inr (Or.inr rfl), fun _ => rfl⟩
      rw [hlog, hdl]

/-- The shape of `Destroy` followed by `Initialize()`, the body shared by
`Recreate` and by `Resize` to another size. -/
theorem Destroy_Initialize_shape {σ : Type} (env : Env σ) (w : World σ)
    (s : NativeViewGLSurfaceEGL) :
    (Initialize env (Destroy env w s).2 (Destroy env w s).1 none).2.1.window_ = s.window_
    ∧ ((Initialize env (Destroy env w s).2 (Destroy env w s).1 none).1 = false →
        (Initialize env (Destroy env w s).2 (Destroy env w s).1 none).2.1.surface_ = 0)
    ∧ ((Initialize env (Destroy env w s).2 (Destroy env w s).1 none).1 = true →
        (Initialize env (Destroy env w s).2 (Destroy env w s).1 none).2.1.surface_ ≠ 0
        ∧ ∃ st cfg,
            (Initialize env (Destroy env w s).2 (Destroy env w s).1 none).2.1.surface_
              = (env.eglCreateWindowSurface st w.g_display cfg s.window_ (createAttribs env)).1)
    ∧ ∃ post,
        (Initialize env (Destroy env w s).2 (Destroy env w s).1 none).2.2.log
          = w.log
              ++ (if s.surface_ ≠ 0 then [Call.eglDestroySurface w.g_display s.surface_] else [])
              ++ post
        ∧ (∀ c ∈ post, c.isDestroy = false ∧ c.isContextOp = false)
        ∧ (∀ c ∈ post, c.isCreate = true →
            ∃ cfg, c = Call.eglCreateWindowSurface w.g_display cfg s.window_ (createAttribs env))
        ∧ post.countP Call.isCreate ≤ 1
        ∧ ((Initialize env (Destroy env w s).2 (Destroy env w s).1 none).1 = true →
            post.countP Call.isCreate = 1) := by
  have hD1 : (Destroy env w s).1 = { s with surface_ := 0 } := by
    by_cases h : s.surface_ = 0
    · have hs : ({ s with surface_ := 0 } : NativeViewGLSurfaceEGL) = s := by
        cases s; simp_all
      simp [Destroy, h, hs]
    · simp [Destroy, h]
  have hD2 : (Destroy env w s).2.g_display = w.g_display := by
    unfold Destroy; split <;> rfl
  have hD3 : (Destroy env w s).2.log
      = w.log ++ (if s.surface_ ≠ 0 then [Call.eglDestroySurface w.g_display s.surface_]
                  else []) := by
    unfold Destroy; split <;> simp [World.call]
  have h0 : (Destroy env w s).1.surface_ = 0 := by rw [hD1]
  have hwin : (Destroy env w s).1.window_ = s.window_ := by rw [hD1]
  obtain ⟨h1, h2, h3, dl, tail, hlog, hlook, htail, htrue⟩ :=
    Initialize_shape env (Destroy env w s).2 (Destroy env w s).1 none h0
  obtain ⟨hg, hgd, -, -⟩ := GetConfig_frame env (Destroy env w s).2 (Destroy env w s).1
  have hgw : (GetConfig env (Destroy env w s).2 (Destroy env w s).1).2.1.window_ = s.window_ := by
    rw [hg]; exact hwin
  have hlk : ∀ c ∈ dl, c.isDestroy = false ∧ c.isContextOp = false ∧ c.isCreate = false := by
    intro c hc
    have hq := hlook c hc
    revert hq
    cases c <;> simp [Call.isLookup, Call.isDestroy, Call.isContextOp, Call.isCreate]
  have hz : dl.countP Call.isCreate = 0 := by
    rw [List.countP_eq_zero]
    intro c hc
    simp [(hlk c hc).2.2]
  rw [hD2, hwin] at htail htrue
  refine ⟨h1.trans hwin, h2, ?_, dl ++ tail, ?_, ?_, ?_, ?_, ?_⟩
  · intro ht
    obtain ⟨hne, hc, -, -⟩ := h3 ht
    refine ⟨hne, (GetConfig env (Destroy env w s).2 (Destroy env w s).1).2.2.native,
      (GetConfig env (Destroy env w s).2 (Destroy env w s).1).1, ?_⟩
    rw [hc]
    unfold created
    rw [hgd, hD2, hgw]
  · rw [hlog, hD3]; simp
  · intro c hc
    rcases List.mem_append.mp hc with h | h
    · exact ⟨(hlk c h).1, (hlk c h).2.1⟩
    · rcases htail with ht | ht | ht <;> rw [ht] at h <;> simp at h
      · subst h; simp [Call.isDestroy, Call.isContextOp]
      · rcases h with h | h <;> subst h <;> simp [Call.isDestroy, Call.isContextOp]
  · intro c hc hcr
    rcases List.mem_append.mp hc with h | h
    · rw [(hlk c h).2.2] at hcr; exact absurd hcr (by simp)
    · rcases htail with ht | ht | ht <;> rw [ht] at h <;> simp at h
      · exact ⟨_, h⟩
      · rcases h with h | h
        · exact ⟨_, h⟩
        · subst h; simp [Call.isCreate] at hcr
  · rw [List.countP_append, hz]
    rcases htail with ht | ht | ht <;> rw [ht] <;> simp [Call.isCreate]
  · intro ht
    rw [List.countP_append, hz, htrue ht]
    simp [Call.isCreate]

/-- The size query only reads and only the log changes. -/
theorem GetSize_lookup {σ : Type} (env : Env σ) (w : World σ) (s : NativeViewGLSurfaceEGL) :
    (GetSize env w s).2.native = w.native
    ∧ (GetSize env w s).2.g_display = w.g_display
    ∧ LogOnly Call.isLookup w.log (GetSize env w s).2.log := by
  unfold GetSize
  simp only
  split
  · exact ⟨rfl, rfl, ⟨_, rfl, by simp [Call.isLookup]⟩⟩
  · split <;>
      exact ⟨rfl, rfl, ⟨[Call.eglQuerySurface w.g_display s.surface_ EGL_WIDTH,
        Call.eglQuerySurface w.g_display s.surface_ EGL_HEIGHT], by simp,
        by simp [Call.isLookup]⟩⟩

/-- The shape of `Resize` to another size: the size queries `q`, the calls `g1`
on the current context, `Destroy` and `Initialize()` from the state `w1` reached
then, and the destruction `g2` of the guard. -/
theorem Resize_shape {σ : Type} (env : Env σ) (w : World σ) (s : NativeViewGLSurfaceEGL)
    (size : Size) (hne : size ≠ (GetSize env w s).1) :
    ∃ (w1 : World σ) (q g1 g2 : List Call),
      w1.g_display = w.g_display
      ∧ w1.log = w.log ++ q ++ g1
      ∧ (∀ c ∈ q, c.isLookup = true)
      ∧ (Resize env w s size).1 = (Initialize env (Destroy env w1 s).2 (Destroy env w1 s).1 none).1
      ∧ (Resize env w s size).2.1
          = (Initialize env (Destroy env w1 s).2 (Destroy env w1 s).1 none).2.1
      ∧ (Resize env w s size).2.2.log
          = (Initialize env (Destroy env w1 s).2 (Destroy env w1 s).1 none).2.2.log ++ g2
      ∧ ((wasCurrent env w.native s.GetHandle = none ∧ g1 = [] ∧ g2 = [])
          ∨ ∃ c, wasCurrent env w.native s.GetHandle = some c
              ∧ g1 = [Call.ScopedMakeCurrent_ctor c s.GetHandle,
                      Call.ReleaseCurrent c s.GetHandle]
              ∧ g2 = [Call.ScopedMakeCurrent_dtor c (Resize env w s size).2.1.GetHandle]) := by
  obtain ⟨hn, hd, q, hq, hlook⟩ := GetSize_lookup env w s
  unfold Resize
  simp only [hne, if_false, hn]
  cases hg : wasCurrent env w.native s.GetHandle with
  | none =>
    exact ⟨(GetSize env w s).2, q, [], [], hd, by simp [hq], hlook, rfl, rfl, by simp,
      Or.inl ⟨rfl, rfl, rfl⟩⟩
  | some c =>
    refine ⟨((GetSize env w s).2.call (Call.ScopedMakeCurrent_ctor c s.GetHandle)
        (env.ScopedMakeCurrent_ctor w.native c s.GetHandle)).call
        (Call.ReleaseCurrent c s.GetHandle)
        (env.ReleaseCurrent (env.ScopedMakeCurrent_ctor w.native c s.GetHandle) c s.GetHandle),
      q, _, _, hd, ?_, hlook, rfl, rfl, rfl, Or.inr ⟨c, rfl, rfl, rfl⟩⟩
    simp [World.call, hq]

end NativeViewGLSurfaceEGL

/-- C16, as stated, fails: on the counting driver, where sync-control is not
supported, the surface was first initialised with the supplied provider 7.
`Recreate`, which passes no provider, succeeds, and `GetVSyncProvider` is still
provider 7, not none. -/
theorem NativeViewGLSurfaceEGL.Initialize_vsync_counterexample :
    countWindowed.2.g_egl_sync_control_supported = false
    ∧ countWindowed.1.GetVSyncProvider = some (VSyncProvider.supplied 7)
    ∧ (NativeViewGLSurfaceEGL.Recreate countEnv countWindowed.2 countWindowed.1).1 = true
    ∧ (NativeViewGLSurfaceEGL.Recreate countEnv countWindowed.2 countWindowed.1).2.1.GetVSyncProvider
        = some (VSyncProvider.supplied 7) := by
  decide

/-- C16, amended: after a successful `Initialize(p)` on a Windowed surface,
`GetVSyncProvider` is `p` when a provider was supplied; otherwise, when
sync-control is supported, the default provider bound to the drawable just
created; otherwise the provider the surface held before the call (none for a
new surface).  `Recreate`, and `Resize` to another size, run `Initialize` with
no provider.  `Initialize` returns false and leaves the surface and the process
state untouched, so without any native call, when the window handle or the
display is null. -/
theorem NativeViewGLSurfaceEGL.Initialize_vsync_provider {σ : Type} (env : Env σ)
    (w : World σ) (s : NativeViewGLSurfaceEGL) (p : Option VSyncProvider)
    (hok : (NativeViewGLSurfaceEGL.Initialize env w s p).1 = true) :
    (NativeViewGLSurfaceEGL.Initialize env w s p).2.1.GetVSyncProvider
        = (match p with
           | some q => some q
           | none =>
             if w.g_egl_sync_control_supported
             then some (VSyncProvider.eglSyncControl
                    (NativeViewGLSurfaceEGL.Initialize env w s p).2.1.GetHandle)
             else s.GetVSyncProvider)
    ∧ (NativeViewGLSurfaceEGL.Initialize env w s p).2.1.GetHandle
        = (NativeViewGLSurfaceEGL.created env w s).1
    ∧ (NativeViewGLSurfaceEGL.new s.window_).GetVSyncProvider = none
    ∧ NativeViewGLSurfaceEGL.Recreate env w s
        = NativeViewGLSurfaceEGL.Initialize env (NativeViewGLSurfaceEGL.Destroy env w s).2
            (NativeViewGLSurfaceEGL.Destroy env w s).1 none
    ∧ (∀ size, size ≠ (NativeViewGLSurfaceEGL.GetSize env w s).1 →
        ∃ w1 : World σ,
          (NativeViewGLSurfaceEGL.Resize env w s size).1
            = (NativeViewGLSurfaceEGL.Initialize env (NativeViewGLSurfaceEGL.Destroy env w1 s).2
                (NativeViewGLSurfaceEGL.Destroy env w1 s).1 none).1
          ∧ (NativeViewGLSurfaceEGL.Resize env w s size).2.1
            = (NativeViewGLSurfaceEGL.Initialize env (NativeViewGLSurfaceEGL.Destroy env w1 s).2
                (NativeViewGLSurfaceEGL.Destroy env w1 s).1 none).2.1)
    ∧ (∀ (w0 : World σ) (s0 : NativeViewGLSurfaceEGL) (p0 : Option VSyncProvider),
        s0.window_ = kNullAcceleratedWidget ∨ w0.g_display = 0 →
        NativeViewGLSurfaceEGL.Initialize env w0 s0 p0 = (false, s0, w0)) := by
  obtain ⟨hA, hB, hC⟩ := NativeViewGLSurfaceEGL.Initialize_spec env w s p
  have hcase : s.window_ ≠ 0 ∧ w.g_display ≠ 0
      ∧ (NativeViewGLSurfaceEGL.created env w s).1 ≠ 0 := by
    by_cases h1 : s.window_ = 0
    · rw [hA (Or.inl h1)] at hok; simp at hok
    · by_cases h2 : w.g_display = 0
      · rw [hA (Or.inr h2)] at hok; simp at hok
      · by_cases h3 : (NativeViewGLSurfaceEGL.created env w s).1 = 0
        · rw [hB h1 h2 h3] at hok; simp at hok
        · exact ⟨h1, h2, h3⟩
  obtain ⟨-, hs, -, -⟩ := hC hcase.1 hcase.2.1 hcase.2.2
  refine ⟨?_, by rw [hs]; rfl, rfl, rfl, ?_, ?_⟩
  · rw [hs]
    cases p <;> rfl
  · intro size hne
    obtain ⟨w1, -, -, -, -, -, -, hr, hs2, -, -⟩ :=
      NativeViewGLSurfaceEGL.Resize_shape env w s size hne
    exact ⟨w1, hr, hs2⟩
  · intro w0 s0 p0 h
    exact (NativeViewGLSurfaceEGL.Initialize_spec env w0 s0 p0).1 h

theorem NativeViewGLSurfaceEGL.Initialize_vsync_provider_witness :
    (NativeViewGLSurfaceEGL.Initialize countEnv countWorld (NativeViewGLSurfaceEGL.new 5)
        (some (VSyncProvider.supplied 7))).1 = true
    ∧ (NativeViewGLSurfaceEGL.Initialize countEnv countWorld (NativeViewGLSurfaceEGL.new 5)
        (some (VSyncProvider.supplied 7))).2.1.GetVSyncProvider
        = some (VSyncProvider.supplied 7) :=
  ⟨by decide,
    (NativeViewGLSurfaceEGL.Initialize_vsync_provider countEnv countWorld
      (NativeViewGLSurfaceEGL.new 5) (some (VSyncProvider.supplied 7)) (by decide)).1⟩

/-! ## NativeViewGLSurfaceEGL: partial presentation -/

/-- The flag after `Initialize`: the value before the call when the call
fails, the answer of the driver for the drawable just created when it
succeeds. -/
theorem NativeViewGLSurfaceEGL.Initialize_supports {σ : Type} (env : Env σ) (w : World σ)
    (s : NativeViewGLSurfaceEGL) (p : Option VSyncProvider) :
    ((NativeViewGLSurfaceEGL.Initialize env w s p).1 = false →
        (NativeViewGLSurfaceEGL.Initialize env w s p).2.1.supports_post_sub_buffer_
          = s.supports_post_sub_buffer_)
    ∧ ((NativeViewGLSurfaceEGL.Initialize env w s p).1 = true →
        (NativeViewGLSurfaceEGL.Initialize env w s p).2.1.supports_post_sub_buffer_
          = capability env (NativeViewGLSurfaceEGL.created env w s).2 w.g_display
              (NativeViewGLSurfaceEGL.created env w s).1) := by
  obtain ⟨hA, hB, hC⟩ := NativeViewGLSurfaceEGL.Initialize_spec env w s p
  obtain ⟨hs, -, -, -⟩ := NativeViewGLSurfaceEGL.GetConfig_frame env w s
  have hsup : (NativeViewGLSurfaceEGL.GetConfig env w s).2.1.supports_post_sub_buffer_
      = s.supports_post_sub_buffer_ := by rw [hs]
  by_cases hw : s.window_ = 0 ∨ w.g_display = 0
  · rw [hA hw]
    exact ⟨fun _ => rfl, fun h => by simp at h⟩
  · have h1 : s.window_ ≠ 0 := fun h => hw (Or.inl h)
    have h2 : w.g_display ≠ 0 := fun h => hw (Or.inr h)
    by_cases hc : (NativeViewGLSurfaceEGL.created env w s).1 = 0
    · rw [hB h1 h2 hc]
      exact ⟨fun _ => hsup, fun h => by simp at h⟩
    · obtain ⟨hr, hs2, -, -⟩ := hC h1 h2 hc
      exact ⟨fun h => by rw [hr] at h; simp at h, fun _ => by rw [hs2]⟩

/-- C11: the extension `EGL_NV_post_sub_buffer` is unavailable, so that
`b_EGL_NV_post_sub_buffer` is false and the driver grants partial presentation
to no drawable created without the attribute list that requests it.  Then a
successful `Initialize` creates the drawable without that attribute list, leaves
`supports_post_sub_buffer_` false, and `GetExtensions` on a base string that
does not contain `GL_CHROMIUM_post_sub_buffer` does not contain it either.  For
every surface and base string, `GetExtensions` is the base string followed by
the token, with one space between them when the base is not empty, if the flag
is true, and the base string itself if the flag is false. -/
theorem NativeViewGLSurfaceEGL.Initialize_post_sub_buffer {σ : Type} (env : Env σ)
    (w : World σ) (s : NativeViewGLSurfaceEGL) (p : Option VSyncProvider) (base : String)
    (hunavail : env.b_EGL_NV_post_sub_buffer = false)
    (hgrant : ∀ st d cfg win,
      capability env (env.eglCreateWindowSurface st d cfg win none).2 d
        (env.eglCreateWindowSurface st d cfg win none).1 = false)
    (hbase : ¬ containsText base "GL_CHROMIUM_post_sub_buffer")
    (hok : (NativeViewGLSurfaceEGL.Initialize env w s p).1 = true) :
    NativeViewGLSurfaceEGL.createAttribs env = none
    ∧ (NativeViewGLSurfaceEGL.Initialize env w s p).2.1.supports_post_sub_buffer_ = false
    ∧ ¬ containsText
        (NativeViewGLSurfaceEGL.GetExtensions base (NativeViewGLSurfaceEGL.Initialize env w s p).2.1)
        "GL_CHROMIUM_post_sub_buffer"
    ∧ (∀ (b : String) (s0 : NativeViewGLSurfaceEGL),
        (s0.supports_post_sub_buffer_ = true →
          NativeViewGLSurfaceEGL.GetExtensions b s0
            = b ++ (if b = "" then "" else " ") ++ "GL_CHROMIUM_post_sub_buffer")
        ∧ (s0.supports_post_sub_buffer_ = false → NativeViewGLSurfaceEGL.GetExtensions b s0 = b)
        ∧ (¬ containsText b "GL_CHROMIUM_post_sub_buffer" →
            (containsText (NativeViewGLSurfaceEGL.GetExtensions b s0) "GL_CHROMIUM_post_sub_buffer"
              ↔ s0.supports_post_sub_buffer_ = true))) := by
  have hattr : NativeViewGLSurfaceEGL.createAttribs env = none := by
    simp [NativeViewGLSurfaceEGL.createAttribs, hunavail]
  have hflag : (NativeViewGLSurfaceEGL.Initialize env w s p).2.1.supports_post_sub_buffer_
      = false := by
    rw [(NativeViewGLSurfaceEGL.Initialize_supports env w s p).2 hok]
    unfold NativeViewGLSurfaceEGL.created
    rw [hattr]
    obtain ⟨-, hd, -, -⟩ := NativeViewGLSurfaceEGL.GetConfig_frame env w s
    rw [← hd]
    exact hgrant _ _ _ _
  have hgen : ∀ (b : String) (s0 : NativeViewGLSurfaceEGL),
      (s0.supports_post_sub_buffer_ = true →
        NativeViewGLSurfaceEGL.GetExtensions b s0
          = b ++ (if b = "" then "" else " ") ++ "GL_CHROMIUM_post_sub_buffer")
      ∧ (s0.supports_post_sub_buffer_ = false → NativeViewGLSurfaceEGL.GetExtensions b s0 = b)
      ∧ (¬ containsText b "GL_CHROMIUM_post_sub_buffer" →
          (containsText (NativeViewGLSurfaceEGL.GetExtensions b s0) "GL_CHROMIUM_post_sub_buffer"
            ↔ s0.supports_post_sub_buffer_ = true)) := by
    intro b s0
    have ht : s0.supports_post_sub_buffer_ = true →
        NativeViewGLSurfaceEGL.GetExtensions b s0
          = b ++ (if b = "" then "" else " ") ++ "GL_CHROMIUM_post_sub_buffer" := by
      intro h; simp [NativeViewGLSurfaceEGL.GetExtensions, h]
    have hf : s0.supports_post_sub_buffer_ = false →
        NativeViewGLSurfaceEGL.GetExtensions b s0 = b := by
      intro h; simp [NativeViewGLSurfaceEGL.GetExtensions, h]
    refine ⟨ht, hf, fun hb => ?_⟩
    cases hsup : s0.supports_post_sub_buffer_ with
    | false =>
      rw [hf hsup]
      simp [hb]
    | true =>
      rw [ht hsup]
      simp only [iff_true]
      unfold containsText
      rw [String.data_append]
      exact (List.suffix_append _ _).isInfix
  refine ⟨hattr, hflag, ?_, hgen⟩
  rw [(hgen base _).2.1 hflag]
  exact hbase

theorem NativeViewGLSurfaceEGL.Initialize_post_sub_buffer_witness :
    simEnv.b_EGL_NV_post_sub_buffer = false
    ∧ ¬ containsText "" "GL_CHROMIUM_post_sub_buffer"
    ∧ (NativeViewGLSurfaceEGL.Initialize simEnv simWorld (NativeViewGLSurfaceEGL.new 5) none).1
        = true
    ∧ (NativeViewGLSurfaceEGL.Initialize simEnv simWorld (NativeViewGLSurfaceEGL.new 5)
        none).2.1.supports_post_sub_buffer_ = false :=
  ⟨rfl, by simp [containsText], by decide,
    (NativeViewGLSurfaceEGL.Initialize_post_sub_buffer simEnv simWorld
      (NativeViewGLSurfaceEGL.new 5) none "" rfl (fun _ _ _ _ => rfl)
      (by simp [containsText]) (by decide)).2.1⟩

/-- Windowed `Initialize` keeps the window of the surface and the display of
the process. -/
theorem NativeViewGLSurfaceEGL.Initialize_frame {σ : Type} (env : Env σ) (w : World σ)
    (s : NativeViewGLSurfaceEGL) (p : Option VSyncProvider) :
    (NativeViewGLSurfaceEGL.Initialize env w s p).2.1.window_ = s.window_
    ∧ (NativeViewGLSurfaceEGL.Initialize env w s p).2.2.g_display = w.g_display := by
  obtain ⟨hs, hd, -, -⟩ := NativeViewGLSurfaceEGL.GetConfig_frame env w s
  have hw : (NativeViewGLSurfaceEGL.GetConfig env w s).2.1.window_ = s.window_ := by
    rw [hs]
  unfold NativeViewGLSurfaceEGL.Initialize NativeViewGLSurfaceEGL.Destroy
  simp only [World.call]
  repeat' split
  all_goals first | exact ⟨rfl, rfl⟩ | exact ⟨hw, hd⟩

/-- `Destroy` followed by `Initialize()`, the body shared by `Resize` and
`Recreate`: when `Initialize` returns false the flag is the one the surface had;
when it returns true the surface holds the drawable of the one creation of the
call, and the flag is the answer of the driver for that drawable in the state
the creation left. -/
theorem NativeViewGLSurfaceEGL.Destroy_Initialize_supports {σ : Type} (env : Env σ)
    (w : World σ) (s : NativeViewGLSurfaceEGL) :
    ((NativeViewGLSurfaceEGL.Initialize env (NativeViewGLSurfaceEGL.Destroy env w s).2
          (NativeViewGLSurfaceEGL.Destroy env w s).1 none).1 = false →
        (NativeViewGLSurfaceEGL.Initialize env (NativeViewGLSurfaceEGL.Destroy env w s).2
          (NativeViewGLSurfaceEGL.Destroy env w s).1 none).2.1.supports_post_sub_buffer_
          = s.supports_post_sub_buffer_)
    ∧ ((NativeViewGLSurfaceEGL.Initialize env (NativeViewGLSurfaceEGL.Destroy env w s).2
          (NativeViewGLSurfaceEGL.Destroy env w s).1 none).1 = true →
        ∃ st cfg,
          (env.eglCreateWindowSurface st w.g_display cfg s.window_
              (NativeViewGLSurfaceEGL.createAttribs env)).1 ≠ 0
          ∧ (NativeViewGLSurfaceEGL.Initialize env (NativeViewGLSurfaceEGL.Destroy env w s).2
              (NativeViewGLSurfaceEGL.Destroy env w s).1 none).2.1.GetHandle
            = (env.eglCreateWindowSurface st w.g_display cfg s.window_
                (NativeViewGLSurfaceEGL.createAttribs env)).1
          ∧ (NativeViewGLSurfaceEGL.Initialize env (NativeViewGLSurfaceEGL.Destroy env w s).2
              (NativeViewGLSurfaceEGL.Destroy env w s).1 none).2.1.supports_post_sub_buffer_
            = capability env
                (env.eglCreateWindowSurface st w.g_display cfg s.window_
                  (NativeViewGLSurfaceEGL.createAttribs env)).2
                w.g_display
                (env.eglCreateWindowSurface st w.g_display cfg s.window_
                  (NativeViewGLSurfaceEGL.createAttribs env)).1) := by
  have hD1 : (NativeViewGLSurfaceEGL.Destroy env w s).1.supports_post_sub_buffer_
      = s.supports_post_sub_buffer_ := by
    unfold NativeViewGLSurfaceEGL.Destroy; split <;> rfl
  have hD2 : (NativeViewGLSurfaceEGL.Destroy env w s).2.g_display = w.g_display := by
    unfold NativeViewGLSurfaceEGL.Destroy; split <;> rfl
  have hD3 : (NativeViewGLSurfaceEGL.Destroy env w s).1.window_ = s.window_ := by
    unfold NativeViewGLSurfaceEGL.Destroy; split <;> rfl
  have h0 : (NativeViewGLSurfaceEGL.Destroy env w s).1.surface_ = 0 := by
    unfold NativeViewGLSurfaceEGL.Destroy; split
    · rfl
    · simp_all
  obtain ⟨hf, ht⟩ := NativeViewGLSurfaceEGL.Initialize_supports env
    (NativeViewGLSurfaceEGL.Destroy env w s).2 (NativeViewGLSurfaceEGL.Destroy env w s).1 none
  obtain ⟨-, -, h3, -⟩ := NativeViewGLSurfaceEGL.Initialize_shape env
    (NativeViewGLSurfaceEGL.Destroy env w s).2 (NativeViewGLSurfaceEGL.Destroy env w s).1
    none h0
  obtain ⟨hgs, hgd, -, -⟩ := NativeViewGLSurfaceEGL.GetConfig_frame env
    (NativeViewGLSurfaceEGL.Destroy env w s).2 (NativeViewGLSurfaceEGL.Destroy env w s).1
  have hgw : (NativeViewGLSurfaceEGL.GetConfig env (NativeViewGLSurfaceEGL.Destroy env w s).2
      (NativeViewGLSurfaceEGL.Destroy env w s).1).2.1.window_ = s.window_ := by
    rw [hgs]; exact hD3
  have hcr : NativeViewGLSurfaceEGL.created env (NativeViewGLSurfaceEGL.Destroy env w s).2
      (NativeViewGLSurfaceEGL.Destroy env w s).1
      = env.eglCreateWindowSurface
          (NativeViewGLSurfaceEGL.GetConfig env (NativeViewGLSurfaceEGL.Destroy env w s).2
            (NativeViewGLSurfaceEGL.Destroy env w s).1).2.2.native
          w.g_display
          (NativeViewGLSurfaceEGL.GetConfig env (NativeViewGLSurfaceEGL.Destroy env w s).2
            (NativeViewGLSurfaceEGL.Destroy env w s).1).1
          s.window_ (NativeViewGLSurfaceEGL.createAttribs env) := by
    unfold NativeViewGLSurfaceEGL.created
    rw [hgd, hD2, hgw]
  refine ⟨fun hr => (hf hr).trans hD1, fun hr => ?_⟩
  refine ⟨(NativeViewGLSurfaceEGL.GetConfig env (NativeViewGLSurfaceEGL.Destroy env w s).2
      (NativeViewGLSurfaceEGL.Destroy env w s).1).2.2.native,
    (NativeViewGLSurfaceEGL.GetConfig env (NativeViewGLSurfaceEGL.Destroy env w s).2
      (NativeViewGLSurfaceEGL.Destroy env w s).1).1, ?_, ?_, ?_⟩
  · rw [← hcr, ← (h3 hr).2.1]
    exact (h3 hr).1
  · rw [← hcr]
    exact (h3 hr).2.1
  · rw [← hcr, ht hr, hD2]

/-- A `Resize` or a `Recreate` keeps the window of the surface and the display
of the process. -/
theorem NativeViewGLSurfaceEGL.apply_frame {σ : Type} (env : Env σ) (w : World σ)
    (s : NativeViewGLSurfaceEGL) (op : WindowedOp) :
    (NativeViewGLSurfaceEGL.apply env w s op).1.window_ = s.window_
    ∧ (NativeViewGLSurfaceEGL.apply env w s op).2.g_display = w.g_display := by
  have hD : ∀ w1 : World σ,
      (NativeViewGLSurfaceEGL.Destroy env w1 s).1.window_ = s.window_
      ∧ (NativeViewGLSurfaceEGL.Destroy env w1 s).2.g_display = w1.g_display := by
    intro w1
    unfold NativeViewGLSurfaceEGL.Destroy
    split <;> exact ⟨rfl, rfl⟩
  cases op with
  | Recreate =>
    obtain ⟨h1, h2⟩ := NativeViewGLSurfaceEGL.Initialize_frame env
      (NativeViewGLSurfaceEGL.Destroy env w s).2 (NativeViewGLSurfaceEGL.Destroy env w s).1 none
    exact ⟨h1.trans (hD w).1, h2.trans (hD w).2⟩
  | Resize size =>
    obtain ⟨-, hgd, -⟩ := NativeViewGLSurfaceEGL.GetSize_lookup env w s
    simp only [NativeViewGLSurfaceEGL.apply]
    unfold NativeViewGLSurfaceEGL.Resize
    simp only
    split
    · exact ⟨rfl, hgd⟩
    · cases hg : wasCurrent env (NativeViewGLSurfaceEGL.GetSize env w s).2.native s.GetHandle with
      | none =>
        obtain ⟨h1, h2⟩ := NativeViewGLSurfaceEGL.Initialize_frame env
          (NativeViewGLSurfaceEGL.Destroy env (NativeViewGLSurfaceEGL.GetSize env w s).2 s).2
          (NativeViewGLSurfaceEGL.Destroy env (NativeViewGLSurfaceEGL.GetSize env w s).2 s).1 none
        exact ⟨h1.trans (hD _).1, (h2.trans (hD _).2).trans hgd⟩
      | some c =>
        obtain ⟨h1, h2⟩ := NativeViewGLSurfaceEGL.Initialize_frame env
          (NativeViewGLSurfaceEGL.Destroy env
            (((NativeViewGLSurfaceEGL.GetSize env w s).2.call
                (Call.ScopedMakeCurrent_ctor c s.GetHandle)
                (env.ScopedMakeCurrent_ctor (NativeViewGLSurfaceEGL.GetSize env w s).2.native c
                  s.GetHandle)).call
              (Call.ReleaseCurrent c s.GetHandle)
              (env.ReleaseCurrent
                ((NativeViewGLSurfaceEGL.GetSize env w s).2.call
                  (Call.ScopedMakeCurrent_ctor c s.GetHandle)
                  (env.ScopedMakeCurrent_ctor (NativeViewGLSurfaceEGL.GetSize env w s).2.native c
                    s.GetHandle)).native c s.GetHandle)) s).2
          (NativeViewGLSurfaceEGL.Destroy env
            (((NativeViewGLSurfaceEGL.GetSize env w s).2.call
                (Call.ScopedMakeCurrent_ctor c s.GetHandle)
                (env.ScopedMakeCurrent_ctor (NativeViewGLSurfaceEGL.GetSize env w s).2.native c
                  s.GetHandle)).call
              (Call.ReleaseCurrent c s.GetHandle)
              (env.ReleaseCurrent
                ((NativeViewGLSurfaceEGL.GetSize env w s).2.call
                  (Call.ScopedMakeCurrent_ctor c s.GetHandle)
                  (env.ScopedMakeCurrent_ctor (NativeViewGLSurfaceEGL.GetSize env w s).2.native c
                    s.GetHandle)).native c s.GetHandle)) s).1 none
        exact ⟨h1.trans (hD _).1, (h2.trans (hD _).2).trans hgd⟩

/-- Counterexample to C12 on the counting driver.  The first `Initialize` of the
Windowed surface on window 5 succeeds and stores the flag true (drawable 1 is
granted partial presentation).  `Recreate` then succeeds, creates drawable 2,
asks the driver again at line 378 and stores its new answer: the flag is false
and the token has left `GetExtensions()`. -/
theorem NativeViewGLSurfaceEGL.supports_post_sub_buffer_counterexample :
    (NativeViewGLSurfaceEGL.Initialize countEnv countWorld (NativeViewGLSurfaceEGL.new 5)
        (some (VSyncProvider.supplied 7))).1 = true
    ∧ countWindowed.1.supports_post_sub_buffer_ = true
    ∧ NativeViewGLSurfaceEGL.GetExtensions "" countWindowed.1 = "GL_CHROMIUM_post_sub_buffer"
    ∧ (NativeViewGLSurfaceEGL.Recreate countEnv countWindowed.2 countWindowed.1).1 = true
    ∧ (NativeViewGLSurfaceEGL.run countEnv countWindowed.2 countWindowed.1
        [WindowedOp.Recreate]).1.supports_post_sub_buffer_ = false
    ∧ NativeViewGLSurfaceEGL.GetExtensions ""
        (NativeViewGLSurfaceEGL.run countEnv countWindowed.2 countWindowed.1
          [WindowedOp.Recreate]).1 = ""
    ∧ ¬ ((NativeViewGLSurfaceEGL.run countEnv countWindowed.2 countWindowed.1
          [WindowedOp.Recreate]).1.supports_post_sub_buffer_
        = countWindowed.1.supports_post_sub_buffer_) := by
  decide

/-- What `Resize` and `Recreate` do to the flag, on every surface and in every
state.  A `Resize` to the size `GetSize` reports leaves the surface as it was; a
call that returns false leaves the flag as it was; a call that returns true
leaves the drawable of its one creation and, as flag, the answer of the driver
for that drawable in the state the creation left. -/
theorem NativeViewGLSurfaceEGL.operation_supports {σ : Type} (env : Env σ) (w : World σ)
    (s : NativeViewGLSurfaceEGL) :
    (∀ size, size = (NativeViewGLSurfaceEGL.GetSize env w s).1 →
        (NativeViewGLSurfaceEGL.Resize env w s size).2.1 = s)
    ∧ (∀ size, (NativeViewGLSurfaceEGL.Resize env w s size).1 = false →
        (NativeViewGLSurfaceEGL.Resize env w s size).2.1.supports_post_sub_buffer_
          = s.supports_post_sub_buffer_)
    ∧ (∀ size, size ≠ (NativeViewGLSurfaceEGL.GetSize env w s).1 →
        (NativeViewGLSurfaceEGL.Resize env w s size).1 = true →
        ∃ st cfg,
          (env.eglCreateWindowSurface st w.g_display cfg s.window_
              (NativeViewGLSurfaceEGL.createAttribs env)).1 ≠ 0
          ∧ (NativeViewGLSurfaceEGL.Resize env w s size).2.1.GetHandle
            = (env.eglCreateWindowSurface st w.g_display cfg s.window_
                (NativeViewGLSurfaceEGL.createAttribs env)).1
          ∧ (NativeViewGLSurfaceEGL.Resize env w s size).2.1.supports_post_sub_buffer_
            = capability env
                (env.eglCreateWindowSurface st w.g_display cfg s.window_
                  (NativeViewGLSurfaceEGL.createAttribs env)).2
                w.g_display
                (env.eglCreateWindowSurface st w.g_display cfg s.window_
                  (NativeViewGLSurfaceEGL.createAttribs env)).1)
    ∧ ((NativeViewGLSurfaceEGL.Recreate env w s).1 = false →
        (NativeViewGLSurfaceEGL.Recreate env w s).2.1.supports_post_sub_buffer_
          = s.supports_post_sub_buffer_)
    ∧ ((NativeViewGLSurfaceEGL.Recreate env w s).1 = true →
        ∃ st cfg,
          (env.eglCreateWindowSurface st w.g_display cfg s.window_
              (NativeViewGLSurfaceEGL.createAttribs env)).1 ≠ 0
          ∧ (NativeViewGLSurfaceEGL.Recreate env w s).2.1.GetHandle
            = (env.eglCreateWindowSurface st w.g_display cfg s.window_
                (NativeViewGLSurfaceEGL.createAttribs env)).1
          ∧ (NativeViewGLSurfaceEGL.Recreate env w s).2.1.supports_post_sub_buffer_
            = capability env
                (env.eglCreateWindowSurface st w.g_display cfg s.window_
                  (NativeViewGLSurfaceEGL.createAttribs env)).2
                w.g_display
                (env.eglCreateWindowSurface st w.g_display cfg s.window_
                  (NativeViewGLSurfaceEGL.createAttribs env)).1) := by
  have hsame : ∀ size, size = (NativeViewGLSurfaceEGL.GetSize env w s).1 →
      (NativeViewGLSurfaceEGL.Resize env w s size).2.1 = s
      ∧ (NativeViewGLSurfaceEGL.Resize env w s size).1 = true := by
    intro size h
    unfold NativeViewGLSurfaceEGL.Resize
    simp [h]
  refine ⟨fun size h => (hsame size h).1, ?_, ?_,
    (NativeViewGLSurfaceEGL.Destroy_Initialize_supports env w s).1,
    (NativeViewGLSurfaceEGL.Destroy_Initialize_supports env w s).2⟩
  · intro size hf
    by_cases hne : size = (NativeViewGLSurfaceEGL.GetSize env w s).1
    · rw [(hsame size hne).2] at hf
      cases hf
    · obtain ⟨w1, -, -, -, -, -, -, hr, hs, -, -⟩ :=
        NativeViewGLSurfaceEGL.Resize_shape env w s size hne
      rw [hs]
      rw [hr] at hf
      exact (NativeViewGLSurfaceEGL.Destroy_Initialize_supports env w1 s).1 hf
  · intro size hne ht
    obtain ⟨w1, -, -, -, hd, -, -, hr, hs, -, -⟩ :=
      NativeViewGLSurfaceEGL.Resize_shape env w s size hne
    rw [hs]
    rw [hr] at ht
    have := (NativeViewGLSurfaceEGL.Destroy_Initialize_supports env w1 s).2 ht
    rw [hd] at this
    exact this

/-- Claim C12, amended.  The flag `supports_post_sub_buffer_` of a Windowed
surface is not fixed by the first `Initialize`.  On every surface and in every
state: a `Resize` to the size `GetSize` reports leaves the surface as it was; a
`Resize` or `Recreate` that returns false leaves the flag as it was; a `Resize`
to a different size or a `Recreate` that returns true stores the answer of the
driver to the capability query for the drawable it has just created.  So the
flag, and with it the text of `GetExtensions()`, keeps the value it had after
the first successful `Initialize` through every sequence of `Resize` and
`Recreate` when the driver gives one and the same answer `b` for every drawable
it creates on this window and display, queried in the state its creation left;
that value is `b`. -/
theorem NativeViewGLSurfaceEGL.supports_post_sub_buffer_fixed {σ : Type} (env : Env σ)
    (w : World σ) (s : NativeViewGLSurfaceEGL) (p : Option VSyncProvider) (base : String)
    (hok : (NativeViewGLSurfaceEGL.Initialize env w s p).1 = true) :
    (∀ (w1 : World σ) (s1 : NativeViewGLSurfaceEGL),
      (∀ size, size = (NativeViewGLSurfaceEGL.GetSize env w1 s1).1 →
          (NativeViewGLSurfaceEGL.Resize env w1 s1 size).2.1 = s1)
      ∧ (∀ size, (NativeViewGLSurfaceEGL.Resize env w1 s1 size).1 = false →
          (NativeViewGLSurfaceEGL.Resize env w1 s1 size).2.1.supports_post_sub_buffer_
            = s1.supports_post_sub_buffer_)
      ∧ (∀ size, size ≠ (NativeViewGLSurfaceEGL.GetSize env w1 s1).1 →
          (NativeViewGLSurfaceEGL.Resize env w1 s1 size).1 = true →
          ∃ st cfg,
            (env.eglCreateWindowSurface st w1.g_display cfg s1.window_
                (NativeViewGLSurfaceEGL.createAttribs env)).1 ≠ 0
            ∧ (NativeViewGLSurfaceEGL.Resize env w1 s1 size).2.1.GetHandle
              = (env.eglCreateWindowSurface st w1.g_display cfg s1.window_
                  (NativeViewGLSurfaceEGL.createAttribs env)).1
            ∧ (NativeViewGLSurfaceEGL.Resize env w1 s1 size).2.1.supports_post_sub_buffer_
              = capability env
                  (env.eglCreateWindowSurface st w1.g_display cfg s1.window_
                    (NativeViewGLSurfaceEGL.createAttribs env)).2
                  w1.g_display
                  (env.eglCreateWindowSurface st w1.g_display cfg s1.window_
                    (NativeViewGLSurfaceEGL.createAttribs env)).1)
      ∧ ((NativeViewGLSurfaceEGL.Recreate env w1 s1).1 = false →
          (NativeViewGLSurfaceEGL.Recreate env w1 s1).2.1.supports_post_sub_buffer_
            = s1.supports_post_sub_buffer_)
      ∧ ((NativeViewGLSurfaceEGL.Recreate env w1 s1).1 = true →
          ∃ st cfg,
            (env.eglCreateWindowSurface st w1.g_display cfg s1.window_
                (NativeViewGLSurfaceEGL.createAttribs env)).1 ≠ 0
            ∧ (NativeViewGLSurfaceEGL.Recreate env w1 s1).2.1.GetHandle
              = (env.eglCreateWindowSurface st w1.g_display cfg s1.window_
                  (NativeViewGLSurfaceEGL.createAttribs env)).1
            ∧ (NativeViewGLSurfaceEGL.Recreate env w1 s1).2.1.supports_post_sub_buffer_
              = capability env
                  (env.eglCreateWindowSurface st w1.g_display cfg s1.window_
                    (NativeViewGLSurfaceEGL.createAttribs env)).2
                  w1.g_display
                  (env.eglCreateWindowSurface st w1.g_display cfg s1.window_
                    (NativeViewGLSurfaceEGL.createAttribs env)).1))
    ∧ (∀ b : Bool,
        (∀ st cfg,
          (env.eglCreateWindowSurface st w.g_display cfg s.window_
              (NativeViewGLSurfaceEGL.createAttribs env)).1 ≠ 0 →
          capability env
              (env.eglCreateWindowSurface st w.g_display cfg s.window_
                (NativeViewGLSurfaceEGL.createAttribs env)).2
              w.g_display
              (env.eglCreateWindowSurface st w.g_display cfg s.window_
                (NativeViewGLSurfaceEGL.createAttribs env)).1 = b) →
        (NativeViewGLSurfaceEGL.Initialize env w s p).2.1.supports_post_sub_buffer_ = b
        ∧ ∀ ops : List WindowedOp,
            (NativeViewGLSurfaceEGL.run env (NativeViewGLSurfaceEGL.Initialize env w s p).2.2
                (NativeViewGLSurfaceEGL.Initialize env w s p).2.1
                ops).1.supports_post_sub_buffer_
              = (NativeViewGLSurfaceEGL.Initialize env w s p).2.1.supports_post_sub_buffer_
            ∧ NativeViewGLSurfaceEGL.GetExtensions base
                (NativeViewGLSurfaceEGL.run env (NativeViewGLSurfaceEGL.Initialize env w s p).2.2
                  (NativeViewGLSurfaceEGL.Initialize env w s p).2.1 ops).1
              = NativeViewGLSurfaceEGL.GetExtensions base
                  (NativeViewGLSurfaceEGL.Initialize env w s p).2.1) := by
  refine ⟨fun w1 s1 => NativeViewGLSurfaceEGL.operation_supports env w1 s1, fun b hconst => ?_⟩
  obtain ⟨hsp1, hsp2, -⟩ := NativeViewGLSurfaceEGL.Initialize_spec env w s p
  have hwin : s.window_ ≠ 0 := by
    intro h
    rw [hsp1 (Or.inl h)] at hok
    cases hok
  have hdpy : w.g_display ≠ 0 := by
    intro h
    rw [hsp1 (Or.inr h)] at hok
    cases hok
  have hcr : (NativeViewGLSurfaceEGL.created env w s).1 ≠ 0 := by
    intro h
    rw [hsp2 hwin hdpy h] at hok
    cases hok
  obtain ⟨hgs, hgd, -, -⟩ := NativeViewGLSurfaceEGL.GetConfig_frame env w s
  have hgw : (NativeViewGLSurfaceEGL.GetConfig env w s).2.1.window_ = s.window_ := by
    rw [hgs]
  have hcreated : NativeViewGLSurfaceEGL.created env w s
      = env.eglCreateWindowSurface (NativeViewGLSurfaceEGL.GetConfig env w s).2.2.native
          w.g_display (NativeViewGLSurfaceEGL.GetConfig env w s).1 s.window_
          (NativeViewGLSurfaceEGL.createAttribs env) := by
    unfold NativeViewGLSurfaceEGL.created
    rw [hgd, hgw]
  have h1 : (NativeViewGLSurfaceEGL.Initialize env w s p).2.1.supports_post_sub_buffer_ = b := by
    rw [(NativeViewGLSurfaceEGL.Initialize_supports env w s p).2 hok, hcreated]
    apply hconst
    rw [← hcreated]
    exact hcr
  obtain ⟨hfw, hfd⟩ := NativeViewGLSurfaceEGL.Initialize_frame env w s p
  have hrun : ∀ (ops : List WindowedOp) (w1 : World σ) (s1 : NativeViewGLSurfaceEGL),
      w1.g_display = w.g_display → s1.window_ = s.window_ →
      s1.supports_post_sub_buffer_ = b →
      (NativeViewGLSurfaceEGL.run env w1 s1 ops).1.supports_post_sub_buffer_ = b := by
    intro ops
    induction ops with
    | nil => intro w1 s1 _ _ h; exact h
    | cons op ops ih =>
      intro w1 s1 hd hw h
      simp only [NativeViewGLSurfaceEGL.run]
      obtain ⟨hw2, hd2⟩ := NativeViewGLSurfaceEGL.apply_frame env w1 s1 op
      apply ih _ _ (hd2.trans hd) (hw2.trans hw)
      obtain ⟨o1, o2, o3, o4, o5⟩ := NativeViewGLSurfaceEGL.operation_supports env w1 s1
      rw [hd, hw] at o3 o5
      cases op with
      | Recreate =>
        simp only [NativeViewGLSurfaceEGL.apply]
        cases hr : (NativeViewGLSurfaceEGL.Recreate env w1 s1).1 with
        | false => exact (o4 hr).trans h
        | true =>
          obtain ⟨st, cfg, hc0, -, hc2⟩ := o5 hr
          rw [hc2]
          exact hconst st cfg hc0
      | Resize size =>
        simp only [NativeViewGLSurfaceEGL.apply]
        cases hr : (NativeViewGLSurfaceEGL.Resize env w1 s1 size).1 with
        | false => exact (o2 size hr).trans h
        | true =>
          by_cases hne : size = (NativeViewGLSurfaceEGL.GetSize env w1 s1).1
          · rw [o1 size hne]; exact h
          · obtain ⟨st, cfg, hc0, -, hc2⟩ := o3 size hne hr
            rw [hc2]
            exact hconst st cfg hc0
  refine ⟨h1, fun ops => ?_⟩
  have h2 := hrun ops (NativeViewGLSurfaceEGL.Initialize env w s p).2.2
    (NativeViewGLSurfaceEGL.Initialize env w s p).2.1 hfd hfw h1
  refine ⟨h2.trans h1.symm, ?_⟩
  unfold NativeViewGLSurfaceEGL.GetExtensions
  rw [h2, h1]

theorem NativeViewGLSurfaceEGL.supports_post_sub_buffer_fixed_witness :
    (NativeViewGLSurfaceEGL.Initialize countEnvGrantAll countWorld (NativeViewGLSurfaceEGL.new 5)
        none).1 = true
    ∧ (NativeViewGLSurfaceEGL.Initialize countEnvGrantAll countWorld
        (NativeViewGLSurfaceEGL.new 5) none).2.1.supports_post_sub_buffer_ = true
    ∧ capability countEnvGrantAll 1 1 0 = false
    ∧ (NativeViewGLSurfaceEGL.run countEnvGrantAll
        (NativeViewGLSurfaceEGL.Initialize countEnvGrantAll countWorld
          (NativeViewGLSurfaceEGL.new 5) none).2.2
        (NativeViewGLSurfaceEGL.Initialize countEnvGrantAll countWorld
          (NativeViewGLSurfaceEGL.new 5) none).2.1
        [WindowedOp.Resize ⟨3, 3⟩, WindowedOp.Recreate]).1.supports_post_sub_buffer_
      = (NativeViewGLSurfaceEGL.Initialize countEnvGrantAll countWorld
          (NativeViewGLSurfaceEGL.new 5) none).2.1.supports_post_sub_buffer_ :=
  ⟨by decide, by decide, by decide,
    ((((NativeViewGLSurfaceEGL.supports_post_sub_buffer_fixed countEnvGrantAll countWorld
      (NativeViewGLSurfaceEGL.new 5) none "" (by decide)).2 true
      (fun st _ _ => by
        simp [capability, countEnvGrantAll, countEnv, NativeViewGLSurfaceEGL.createAttribs])).2
      [WindowedOp.Resize ⟨3, 3⟩, WindowedOp.Recreate]).1)⟩

/-- The calls of Pbuffer `Initialize` never go to the context collaborator. -/
theorem PbufferGLSurfaceEGL.Initialize_no_context {σ : Type} (env : Env σ) (w : World σ)
    (s : PbufferGLSurfaceEGL) :
    ∃ mid, (PbufferGLSurfaceEGL.Initialize env w s).2.2.log = w.log ++ mid
      ∧ ∀ c ∈ mid, c.isContextOp = false := by
  unfold PbufferGLSurfaceEGL.Initialize
  simp only [World.call]
  split
  · exact ⟨[], by simp, by simp⟩
  · split
    · exact ⟨[], by simp, by simp⟩
    · split
      · exact ⟨_, rfl, by simp [Call.isContextOp]⟩
      · split
        · exact ⟨[Call.eglCreatePbufferSurface w.g_display w.g_config s.pbuffer_attribs,
              Call.eglDestroySurface w.g_display s.surface_], by simp,
            by simp [Call.isContextOp]⟩
        · exact ⟨_, rfl, by simp [Call.isContextOp]⟩

/-- Counterexample to C19 on the counting driver with context 1 current for
every surface.  The Pbuffer surface (4x4, drawable 1) is resized to 8x8: the
call succeeds and its log is guard, create, destroy, guard end, with no
`ReleaseCurrent`.  The same call worded as the specification does, and Windowed
`Resize` on the same driver, both issue `ReleaseCurrent 1 1` right after the
guard is built. -/
theorem PbufferGLSurfaceEGL.Resize_release_counterexample :
    wasCurrent countEnvCurrent countPbuffer.2.native countPbuffer.1.GetHandle = some 1
    ∧ (Size.mk 8 8) ≠ countPbuffer.1.GetSize
    ∧ (PbufferGLSurfaceEGL.Resize countEnvCurrent countPbuffer.2 countPbuffer.1 ⟨8, 8⟩).1 = true
    ∧ (PbufferGLSurfaceEGL.Resize countEnvCurrent countPbuffer.2 countPbuffer.1
          ⟨8, 8⟩).2.2.log
        = countPbuffer.2.log
          ++ [Call.ScopedMakeCurrent_ctor 1 1,
              Call.eglCreatePbufferSurface 1 8 [EGL_WIDTH, 8, EGL_HEIGHT, 8, EGL_NONE],
              Call.eglDestroySurface 1 1,
              Call.ScopedMakeCurrent_dtor 1 2]
    ∧ (PbufferGLSurfaceEGL.Resize_as_specified countEnvCurrent countPbuffer.2 countPbuffer.1
          ⟨8, 8⟩).2.2.log
        = countPbuffer.2.log
          ++ [Call.ScopedMakeCurrent_ctor 1 1,
              Call.ReleaseCurrent 1 1,
              Call.eglCreatePbufferSurface 1 8 [EGL_WIDTH, 8, EGL_HEIGHT, 8, EGL_NONE],
              Call.eglDestroySurface 1 1,
              Call.ScopedMakeCurrent_dtor 1 2]
    ∧ (PbufferGLSurfaceEGL.Resize countEnvCurrent countPbuffer.2 countPbuffer.1
          ⟨8, 8⟩).2.2.log
        ≠ (PbufferGLSurfaceEGL.Resize_as_specified countEnvCurrent countPbuffer.2
            countPbuffer.1 ⟨8, 8⟩).2.2.log
    ∧ wasCurrent countEnvCurrent countWindowed.2.native countWindowed.1.GetHandle = some 1
    ∧ (NativeViewGLSurfaceEGL.Resize countEnvCurrent countWindowed.2 countWindowed.1
          ⟨8, 8⟩).2.2.log
        = countWindowed.2.log
          ++ [Call.eglQuerySurface 1 1 EGL_WIDTH,
              Call.ScopedMakeCurrent_ctor 1 1,
              Call.ReleaseCurrent 1 1,
              Call.eglDestroySurface 1 1,
              Call.eglCreateWindowSurface 1 8 5 (some [EGL_POST_SUB_BUFFER_SUPPORTED_NV, 1,
                EGL_NONE]),
              Call.eglQuerySurface 1 2 EGL_POST_SUB_BUFFER_SUPPORTED_NV,
              Call.ScopedMakeCurrent_dtor 1 2]
    ∧ ((PbufferGLSurfaceEGL.Resize countEnvCurrent countPbuffer.2 countPbuffer.1
          ⟨8, 8⟩).2.2.log.drop countPbuffer.2.log.length).countP Call.isRelease = 0
    ∧ ((NativeViewGLSurfaceEGL.Resize countEnvCurrent countWindowed.2 countWindowed.1
          ⟨8, 8⟩).2.2.log.drop countWindowed.2.log.length).countP Call.isRelease = 1 := by
  decide

/-- Claim C19, amended.  Pbuffer `Resize` to a different size does not apply
the sequence of Windowed `Resize`: it never calls `ReleaseCurrent`.  When the
calling thread's current context `c` is current for the surface, Pbuffer
`Resize` builds the scoped guard, runs `Initialize` with no call to the context
collaborator, and ends the guard on the handle the surface then has; Windowed
`Resize`, after the lookups of `GetSize`, builds the guard, calls
`ReleaseCurrent`, runs `Destroy` and `Initialize` with no call to the context
collaborator, and ends the guard likewise.  When no context is current for the
surface, neither variant makes a call to the context collaborator. -/
theorem PbufferGLSurfaceEGL.Resize_context_sequence {σ : Type} (env : Env σ)
    (wp ww : World σ) (sp : PbufferGLSurfaceEGL) (sw : NativeViewGLSurfaceEGL)
    (size : Size) (hp : size ≠ sp.GetSize)
    (hw : size ≠ (NativeViewGLSurfaceEGL.GetSize env ww sw).1) :
    (∀ c, wasCurrent env wp.native sp.GetHandle = some c →
        ∃ mid, (PbufferGLSurfaceEGL.Resize env wp sp size).2.2.log
            = wp.log ++ [Call.ScopedMakeCurrent_ctor c sp.GetHandle] ++ mid
                ++ [Call.ScopedMakeCurrent_dtor c
                      (PbufferGLSurfaceEGL.Resize env wp sp size).2.1.GetHandle]
          ∧ ∀ x ∈ mid, x.isContextOp = false)
    ∧ (wasCurrent env wp.native sp.GetHandle = none →
        ∃ mid, (PbufferGLSurfaceEGL.Resize env wp sp size).2.2.log = wp.log ++ mid
          ∧ ∀ x ∈ mid, x.isContextOp = false)
    ∧ (∀ c, wasCurrent env ww.native sw.GetHandle = some c →
        ∃ q mid, (NativeViewGLSurfaceEGL.Resize env ww sw size).2.2.log
            = ww.log ++ q
                ++ [Call.ScopedMakeCurrent_ctor c sw.GetHandle,
                    Call.ReleaseCurrent c sw.GetHandle]
                ++ mid
                ++ [Call.ScopedMakeCurrent_dtor c
                      (NativeViewGLSurfaceEGL.Resize env ww sw size).2.1.GetHandle]
          ∧ (∀ x ∈ q, x.isLookup = true)
          ∧ ∀ x ∈ mid, x.isContextOp = false)
    ∧ (wasCurrent env ww.native sw.GetHandle = none →
        ∃ q mid, (NativeViewGLSurfaceEGL.Resize env ww sw size).2.2.log = ww.log ++ q ++ mid
          ∧ (∀ x ∈ q, x.isLookup = true)
          ∧ ∀ x ∈ mid, x.isContextOp = false) := by
  have hP : ∀ g : Option GLContext, wasCurrent env wp.native sp.GetHandle = g →
      (PbufferGLSurfaceEGL.Resize env wp sp size).2.2.log
        = (match g with
            | some c => (PbufferGLSurfaceEGL.Initialize env
                (wp.call (Call.ScopedMakeCurrent_ctor c sp.GetHandle)
                  (env.ScopedMakeCurrent_ctor wp.native c sp.GetHandle))
                { sp with size_ := size }).2.2.log
                ++ [Call.ScopedMakeCurrent_dtor c
                      (PbufferGLSurfaceEGL.Resize env wp sp size).2.1.GetHandle]
            | none => (PbufferGLSurfaceEGL.Initialize env wp { sp with size_ := size }).2.2.log) := by
    intro g hg
    have hp' : size ≠ sp.size_ := hp
    unfold PbufferGLSurfaceEGL.Resize
    simp only [hp', if_false, hg]
    cases g <;> rfl
  obtain ⟨w1, q, g1, g2, -, hl1, hq, -, -, hl2, hcase⟩ :=
    NativeViewGLSurfaceEGL.Resize_shape env ww sw size hw
  obtain ⟨-, -, -, post, hpost, hpc, -⟩ := NativeViewGLSurfaceEGL.Destroy_Initialize_shape env w1 sw
  have hmid : ∀ x ∈ (if sw.surface_ ≠ 0 then [Call.eglDestroySurface w1.g_display sw.surface_]
      else []) ++ post, x.isContextOp = false := by
    intro x hx
    rcases List.mem_append.mp hx with hx | hx
    · split at hx
      · simp only [List.mem_singleton] at hx
        rw [hx]; rfl
      · simp at hx
    · exact (hpc x hx).2
  refine ⟨?_, ?_, ?_, ?_⟩
  · intro c hc
    obtain ⟨mid, hm, hmc⟩ := PbufferGLSurfaceEGL.Initialize_no_context env
      (wp.call (Call.ScopedMakeCurrent_ctor c sp.GetHandle)
        (env.ScopedMakeCurrent_ctor wp.native c sp.GetHandle)) { sp with size_ := size }
    refine ⟨mid, ?_, hmc⟩
    rw [hP _ hc]
    dsimp only
    rw [hm]
    simp only [World.call, List.append_assoc]
  · intro hn
    obtain ⟨mid, hm, hmc⟩ := PbufferGLSurfaceEGL.Initialize_no_context env wp
      { sp with size_ := size }
    exact ⟨mid, by rw [hP _ hn]; exact hm, hmc⟩
  · intro c hc
    rcases hcase with ⟨hn, -, -⟩ | ⟨c', hc', hg1, hg2⟩
    · rw [hn] at hc; cases hc
    · rw [hc'] at hc
      cases hc
      refine ⟨q, _, ?_, hq, hmid⟩
      rw [hl2, hpost, hl1, hg1, hg2]
      simp only [List.append_assoc]
  · intro hn
    rcases hcase with ⟨-, hg1, hg2⟩ | ⟨c', hc', -, -⟩
    · refine ⟨q, _, ?_, hq, hmid⟩
      rw [hl2, hpost, hl1, hg1, hg2]
      simp only [List.append_assoc, List.append_nil, List.nil_append]
    · rw [hn] at hc'; cases hc'

theorem PbufferGLSurfaceEGL.Resize_context_sequence_witness :
    (Size.mk 8 8) ≠ countPbuffer.1.GetSize
    ∧ (Size.mk 8 8) ≠ (NativeViewGLSurfaceEGL.GetSize countEnvCurrent countWindowed.2
        countWindowed.1).1
    ∧ wasCurrent countEnvCurrent countPbuffer.2.native countPbuffer.1.GetHandle = some 1
    ∧ ∃ mid, (PbufferGLSurfaceEGL.Resize countEnvCurrent countPbuffer.2 countPbuffer.1
          ⟨8, 8⟩).2.2.log
        = countPbuffer.2.log ++ [Call.ScopedMakeCurrent_ctor 1 countPbuffer.1.GetHandle] ++ mid
            ++ [Call.ScopedMakeCurrent_dtor 1
                  (PbufferGLSurfaceEGL.Resize countEnvCurrent countPbuffer.2 countPbuffer.1
                    ⟨8, 8⟩).2.1.GetHandle]
      ∧ ∀ x ∈ mid, x.isContextOp = false :=
  ⟨by decide, by decide, by decide,
    (PbufferGLSurfaceEGL.Resize_context_sequence countEnvCurrent countPbuffer.2 countWindowed.2
      countPbuffer.1 countWindowed.1 ⟨8, 8⟩ (by decide) (by decide)).1 1 (by decide)⟩


/-- The variant the view factory constructs: the headless OSMesa surface, a
Windowed surface that holds no drawable yet, or the stub. -/
theorem constructViewGLSurface_cases {σ : Type} (env : Env σ) (venv : ViewEnv σ) (w : World σ)
    (window : AcceleratedWidget) :
    (constructViewGLSurface env venv w window).1 = ViewGLSurface.osmesaHeadless window
    ∨ (∃ x, (constructViewGLSurface env venv w window).1
          = ViewGLSurface.windowed (NativeViewGLSurfaceEGL.new x))
    ∨ (constructViewGLSurface env venv w window).1 = ViewGLSurface.stub := by
  unfold constructViewGLSurface
  split
  · exact Or.inl rfl
  · split
    · split
      · exact Or.inr (Or.inl ⟨_, rfl⟩)
      · exact Or.inr (Or.inl ⟨_, rfl⟩)
    · exact Or.inr (Or.inr rfl)

/-- The view factory returns the initialised object when `Initialize` returned
true and NULL otherwise. -/
theorem CreateViewGLSurface_eq {σ : Type} (env : Env σ) (venv : ViewEnv σ) (w : World σ)
    (window : AcceleratedWidget) :
    (CreateViewGLSurface env venv w window).1
      = if (ViewGLSurface.Initialize env venv (constructViewGLSurface env venv w window).2.2
              (constructViewGLSurface env venv w window).2.1
              (constructViewGLSurface env venv w window).1).1 = true
        then some (ViewGLSurface.Initialize env venv
              (constructViewGLSurface env venv w window).2.2
              (constructViewGLSurface env venv w window).2.1
              (constructViewGLSurface env venv w window).1).2.1
        else none := by
  unfold CreateViewGLSurface
  simp only
  split <;> rfl

/-- A Windowed surface initialised by the view factory holds a drawable when
`Initialize` returned true. -/
theorem ViewGLSurface.Initialize_windowed {σ : Type} (env : Env σ) (venv : ViewEnv σ)
    (w : World σ) (p : Option VSyncProvider) (g : ViewGLSurface) (sfc : NativeViewGLSurfaceEGL)
    (hg : (∃ y, g = ViewGLSurface.osmesaHeadless y)
        ∨ (∃ x, g = ViewGLSurface.windowed (NativeViewGLSurfaceEGL.new x))
        ∨ g = ViewGLSurface.stub)
    (ht : (ViewGLSurface.Initialize env venv w p g).1 = true)
    (hs : (ViewGLSurface.Initialize env venv w p g).2.1 = ViewGLSurface.windowed sfc) :
    sfc.GetHandle ≠ 0 := by
  rcases hg with ⟨y, h⟩ | ⟨x, h⟩ | h
  · subst h; simp [ViewGLSurface.Initialize] at hs
  · subst h
    simp only [ViewGLSurface.Initialize] at ht hs
    obtain ⟨-, -, h3, -⟩ := NativeViewGLSurfaceEGL.Initialize_shape env w
      (NativeViewGLSurfaceEGL.new x) p rfl
    have := (h3 ht).1
    injection hs with hs
    rw [← hs]
    exact this
  · subst h; simp [ViewGLSurface.Initialize] at hs

/-- The offscreen factory returns the initialised object when `Initialize`
returned true and NULL otherwise; outside the OSMesa and EGL backends it
constructs nothing and returns NULL. -/
theorem CreateOffscreenGLSurface_eq {σ : Type} (env : Env σ) (w : World σ) (size : Size) :
    (env.GetGLImplementation = GLImplementation.kGLImplementationOSMesaGL →
      (CreateOffscreenGLSurface env w size).1
        = if (GLSurface.Initialize env w (GLSurface.osmesa 1 size)).1 = true
          then some (GLSurface.Initialize env w (GLSurface.osmesa 1 size)).2.1 else none)
    ∧ (env.GetGLImplementation = GLImplementation.kGLImplementationEGLGLES2 →
      (CreateOffscreenGLSurface env w size).1
        = if (GLSurface.Initialize env w (constructOffscreenEGL w size)).1 = true
          then some (GLSurface.Initialize env w (constructOffscreenEGL w size)).2.1 else none)
    ∧ (env.GetGLImplementation ≠ GLImplementation.kGLImplementationOSMesaGL →
       env.GetGLImplementation ≠ GLImplementation.kGLImplementationEGLGLES2 →
      CreateOffscreenGLSurface env w size = (none, w)) := by
  refine ⟨?_, ?_, ?_⟩
  · intro h
    unfold CreateOffscreenGLSurface
    simp only [h]
    cases (GLSurface.Initialize env w (GLSurface.osmesa 1 size)).1 <;> simp
  · intro h
    unfold CreateOffscreenGLSurface
    simp only [h]
    cases (GLSurface.Initialize env w (constructOffscreenEGL w size)).1 <;> simp
  · intro h1 h2
    unfold CreateOffscreenGLSurface
    split
    · rename_i h; exact absurd h h1
    · rename_i h; exact absurd h h2
    · rfl

/-- C18: the two factories never return a partial object.  The result of
`CreateViewGLSurface` is the initialised object when `Initialize` of the variant
it constructed returned true and NULL otherwise, and every Windowed surface it
returns has a non-null handle.  The result of `CreateOffscreenGLSurface` under
the OSMesa and EGL backends is the initialised object when `Initialize` of the
constructed variant returned true and NULL otherwise (under any other backend
NULL), and every Pbuffer surface it returns has a non-null handle.  Under the
EGL backend, when the Pbuffer variant is chosen and the width or the height is
zero, the result is NULL: so for 0x5, and for 0x0 without surfaceless
support. -/
theorem CreateGLSurface_no_partial_object {σ : Type} (env : Env σ) (venv : ViewEnv σ)
    (w : World σ) :
    (∀ window : AcceleratedWidget,
      ((CreateViewGLSurface env venv w window).1.isSome
          = (ViewGLSurface.Initialize env venv (constructViewGLSurface env venv w window).2.2
              (constructViewGLSurface env venv w window).2.1
              (constructViewGLSurface env venv w window).1).1)
      ∧ (∀ g, (CreateViewGLSurface env venv w window).1 = some g →
          g = (ViewGLSurface.Initialize env venv (constructViewGLSurface env venv w window).2.2
              (constructViewGLSurface env venv w window).2.1
              (constructViewGLSurface env venv w window).1).2.1)
      ∧ (∀ sfc, (CreateViewGLSurface env venv w window).1 = some (ViewGLSurface.windowed sfc) →
          sfc.GetHandle ≠ 0))
    ∧ (∀ size : Size,
      (env.GetGLImplementation = GLImplementation.kGLImplementationOSMesaGL →
        (CreateOffscreenGLSurface env w size).1.isSome
            = (GLSurface.Initialize env w (GLSurface.osmesa 1 size)).1
        ∧ ∀ g, (CreateOffscreenGLSurface env w size).1 = some g →
            g = (GLSurface.Initialize env w (GLSurface.osmesa 1 size)).2.1)
      ∧ (env.GetGLImplementation = GLImplementation.kGLImplementationEGLGLES2 →
        (CreateOffscreenGLSurface env w size).1.isSome
            = (GLSurface.Initialize env w (constructOffscreenEGL w size)).1
        ∧ ∀ g, (CreateOffscreenGLSurface env w size).1 = some g →
            g = (GLSurface.Initialize env w (constructOffscreenEGL w size)).2.1)
      ∧ (env.GetGLImplementation ≠ GLImplementation.kGLImplementationOSMesaGL →
         env.GetGLImplementation ≠ GLImplementation.kGLImplementationEGLGLES2 →
          (CreateOffscreenGLSurface env w size).1 = none)
      ∧ (∀ sfc, (CreateOffscreenGLSurface env w size).1 = some (GLSurface.pbuffer sfc) →
          sfc.GetHandle ≠ 0)
      ∧ (env.GetGLImplementation = GLImplementation.kGLImplementationEGLGLES2 →
         constructOffscreenEGL w size = GLSurface.pbuffer (PbufferGLSurfaceEGL.new size) →
         (size.width = 0 ∨ size.height = 0) →
          (CreateOffscreenGLSurface env w size).1 = none))
    ∧ (env.GetGLImplementation = GLImplementation.kGLImplementationEGLGLES2 →
        (CreateOffscreenGLSurface env w ⟨0, 5⟩).1 = none
        ∧ (w.g_egl_surfaceless_context_supported = false →
            (CreateOffscreenGLSurface env w ⟨0, 0⟩).1 = none)) := by
  have hzero : ∀ size : Size,
      env.GetGLImplementation = GLImplementation.kGLImplementationEGLGLES2 →
      constructOffscreenEGL w size = GLSurface.pbuffer (PbufferGLSurfaceEGL.new size) →
      (size.width = 0 ∨ size.height = 0) →
      (CreateOffscreenGLSurface env w size).1 = none := by
    intro size hegl hpb hz
    rw [(CreateOffscreenGLSurface_eq env w size).2.1 hegl, hpb]
    have harea : (PbufferGLSurfaceEGL.new size).size_.GetArea = 0 := by
      simp only [PbufferGLSurfaceEGL.new, Size.GetArea]
      exact mul_eq_zero.mpr hz
    have hf : (PbufferGLSurfaceEGL.Initialize env w (PbufferGLSurfaceEGL.new size)).1 = false := by
      cases hi : (PbufferGLSurfaceEGL.Initialize env w (PbufferGLSurfaceEGL.new size)).1 with
      | false => rfl
      | true => exact absurd harea ((PbufferGLSurfaceEGL.Initialize_true_iff env w _).mp hi).2.1
    simp [GLSurface.Initialize, hf]
  refine ⟨fun window => ⟨?_, ?_, ?_⟩, fun size => ⟨?_, ?_, ?_, ?_, hzero size⟩, ?_⟩
  · rw [CreateViewGLSurface_eq]
    split
    · rename_i h; rw [h]; rfl
    · rename_i h
      rw [Bool.not_eq_true] at h
      rw [h]; rfl
  · intro g hg
    rw [CreateViewGLSurface_eq] at hg
    split at hg
    · injection hg with hg; exact hg.symm
    · cases hg
  · intro sfc hg
    rw [CreateViewGLSurface_eq] at hg
    split at hg
    · rename_i ht
      injection hg with hg
      refine ViewGLSurface.Initialize_windowed env venv _ _ _ sfc ?_ ht hg
      rcases constructViewGLSurface_cases env venv w window with h | h | h
      · exact Or.inl ⟨_, h⟩
      · exact Or.inr (Or.inl h)
      · exact Or.inr (Or.inr h)
    · cases hg
  · intro h
    rw [(CreateOffscreenGLSurface_eq env w size).1 h]
    refine ⟨?_, ?_⟩
    · split
      · rename_i ht; rw [ht]; rfl
      · rename_i ht
        rw [Bool.not_eq_true] at ht
        rw [ht]; rfl
    · intro g hg
      split at hg
      · injection hg with hg; exact hg.symm
      · cases hg
  · intro h
    rw [(CreateOffscreenGLSurface_eq env w size).2.1 h]
    refine ⟨?_, ?_⟩
    · split
      · rename_i ht; rw [ht]; rfl
      · rename_i ht
        rw [Bool.not_eq_true] at ht
        rw [ht]; rfl
    · intro g hg
      split at hg
      · injection hg with hg; exact hg.symm
      · cases hg
  · intro h1 h2
    rw [(CreateOffscreenGLSurface_eq env w size).2.2 h1 h2]
  · intro sfc hg
    by_cases h1 : env.GetGLImplementation = GLImplementation.kGLImplementationOSMesaGL
    · rw [(CreateOffscreenGLSurface_eq env w size).1 h1] at hg
      split at hg
      · simp [GLSurface.Initialize] at hg
      · cases hg
    · by_cases h2 : env.GetGLImplementation = GLImplementation.kGLImplementationEGLGLES2
      · rw [(CreateOffscreenGLSurface_eq env w size).2.1 h2] at hg
        split at hg
        · rename_i ht
          injection hg with hg
          unfold constructOffscreenEGL at ht hg
          split at ht
          · rename_i hc
            simp [hc, GLSurface.Initialize] at hg
          · rename_i hc
            simp only [hc, if_false, GLSurface.Initialize] at ht hg
            obtain ⟨-, -, hne⟩ := (PbufferGLSurfaceEGL.Initialize_true_iff env w _).mp ht
            obtain ⟨hs, -⟩ := PbufferGLSurfaceEGL.Initialize_of_true env w _ ht
            injection hg with hg
            rw [← hg, hs]
            exact hne
        · cases hg
      · rw [(CreateOffscreenGLSurface_eq env w size).2.2 h1 h2] at hg
        cases hg
  · intro hegl
    refine ⟨hzero ⟨0, 5⟩ hegl ?_ (Or.inl rfl), fun hns => hzero ⟨0, 0⟩ hegl ?_ (Or.inl rfl)⟩
    · simp [constructOffscreenEGL]
    · simp [constructOffscreenEGL, hns]

theorem CreateGLSurface_no_partial_object_witness :
    simEnv.GetGLImplementation = GLImplementation.kGLImplementationEGLGLES2
    ∧ (CreateOffscreenGLSurface simEnv simWorld ⟨0, 5⟩).1 = none
    ∧ (CreateViewGLSurface simEnv (simViewEnv Sim) simWorld 5).1.isSome = true
    ∧ ∀ sfc, (CreateViewGLSurface simEnv (simViewEnv Sim) simWorld 5).1
          = some (ViewGLSurface.windowed sfc) → sfc.GetHandle ≠ 0 :=
  ⟨rfl,
    ((CreateGLSurface_no_partial_object simEnv (simViewEnv Sim) simWorld).2.2 rfl).1,
    by decide,
    ((CreateGLSurface_no_partial_object simEnv (simViewEnv Sim) simWorld).1 5).2.2⟩


end gfx
